import Mathlib

/-!
# The reply value model of altstory/go-redis

A shallow embedding of `bulkstring.go`, `keyandvalues.go`, `memberandscores.go`,
`chanandsubs.go`, `value.go`, `stats.go`, the wrapper `do` of `redis.go`, the options of
`options.go`, the member ranges of `ranges.go`, `config.go`, `factory.go` and typed
commands of `generic.go`, `hashes.go`, `lists.go`, `sets.go`, `sortedsets.go` and
`strings.go`, followed by theorems about it.

Conventions of the embedding

* A Go `string` is a Lean `String`; a byte buffer `[]byte` is `Option String`,
  `none` being the nil slice and `some s` a present buffer with the bytes of `s`,
  so that the conversion `string(data)` is the identity on the contents.
* Every other slice is a `List` (the code never tells a nil slice from an empty one,
  apart from `[]byte`), and a map is the list of its entries in the order in which
  the `range` loop of the call at hand visits them.
* `int64` and `time.Duration` values are integers; `int` has `intSize` bits
  (32 or 64 in Go), and the conversion `int(x)` wraps to that width.
* `float64` is kept as its IEEE-754 bit pattern: the code only stores and returns it.
* A Go function that may panic returns `Except Error _`, where `Except.error p` is a
  panic with value `p`; a Go result pair `(x, err)` is a Lean pair with
  `err : Option Error`, `none` being the nil error.
-/

namespace GoRedis

/-! ## Scalars -/

/-- The value of `int(x)` for an integer `x` on a platform whose `int` has `intSize` bits:
two's complement wrap-around. -/
def toInt (intSize : Nat) (x : Int) : Int :=
  (x + 2 ^ (intSize - 1)) % 2 ^ intSize - 2 ^ (intSize - 1)

/-- A `float64`, as its bit pattern. The zero value is `+0`. -/
structure Float64 where
  bits : Nat
deriving DecidableEq

/-- A `time.Time`: seconds and nanoseconds since the zero time. -/
structure Time where
  sec : Int
  nsec : Int
deriving DecidableEq

/-- A `time.Duration`, in nanoseconds. -/
abbrev Duration := Int

/-! ## bulkstring.go -/

/-- The type `BulkString{str *string}`: `none` is the nil pointer. -/
structure BulkString where
  str : Option String
deriving DecidableEq

/-- The function `MakeBulkString(str)` -/
def MakeBulkString (str : String) : BulkString := { str := some str }

/-- The function `Null()` -/
def Null : BulkString := { str := none }

/-- The method `bs.IsNull()` -/
def BulkString.IsNull (bs : BulkString) : Bool := bs.str.isNone

/-- The method `bs.String()` -/
def BulkString.String (bs : BulkString) : String :=
  match bs.str with
  | none => ""
  | some s => s

/-! ## Pair types -/

/-- The type `KeyAndValue{Key, Value string}` -/
structure KeyAndValue where
  Key : String
  Value : String
deriving DecidableEq

/-- The type `MemberAndScore{Member string, Score float64}` -/
structure MemberAndScore where
  Member : String
  Score : Float64
deriving DecidableEq

/-- The type `ChanAndSub{Chan string, Sub int}` -/
structure ChanAndSub where
  Chan : String
  Sub : Int
deriving DecidableEq

/-- The type `redis.Z{Score float64, Member interface{}}`. The code reads `Member` only through
`fmt.Sprint`, so the model keeps that rendering (for a string member, the string itself). -/
structure Z where
  Score : Float64
  Member : String
deriving DecidableEq

/-- The type `redis.ClusterSlot`; its node list is never read and is left out. -/
structure ClusterSlot where
  Start : Int
  End : Int
deriving DecidableEq

/-- The type `redis.CommandInfo`; only read through its pointer, never inspected. -/
structure CommandInfo where
  Name : String
  Arity : Int
deriving DecidableEq

/-- The type `redis.GeoLocation` -/
structure GeoLocation where
  Name : String
  Longitude : Float64
  Latitude : Float64
  Dist : Float64
  GeoHash : Int
deriving DecidableEq

/-- The type `redis.GeoPos` -/
structure GeoPos where
  Longitude : Float64
  Latitude : Float64
deriving DecidableEq

/-! ## Errors -/

/-- A non-nil error value other than a `*FutureMultiValue`: the sentinel `redis.Nil`,
the five error variables of `value.go`, or any other error, named by its message.
Equality is the identity of the error value. -/
inductive GoError
  | redisNil
  | ErrKeyNotExist
  | ErrKeyHasNoExpiration
  | ErrNotImplemented
  | ErrUnexpectedResponseType
  | ErrUnsupportedValueType
  | other (msg : String)
deriving DecidableEq

/-! ## MultiValue -/

/-- The type `MultiValue{data interface{}}`: one constructor per dynamic type that `data` can
hold. `MakeMultiValue` never stores an `int` (it widens to `int64`), but the accessors
test for it, so the case is kept. -/
inductive MultiValue
  | nil
  | error (e : GoError)
  | string (s : String)
  | bulkString (bs : BulkString)
  | duration (d : Duration)
  | time (t : Time)
  | bool (b : Bool)
  | int (n : Int)
  | int64 (n : Int)
  | float64 (x : Float64)
  | memberAndScore (ms : MemberAndScore)
  | keyAndValue (kv : KeyAndValue)
  | chanAndSub (cs : ChanAndSub)
  | multiValues (mvs : List MultiValue)

/-- What `reflect.ValueOf(v)` shows of a value whose dynamic type is not in the type
switch of `MakeMultiValue`: its kind, and for the four families the code reads, the
result of `val.String()`, `val.Int()`, `val.Float()` or `val.Bool()`. -/
inductive Reflected
  | String (s : String)
  | Int (n : Int)
  | Int8 (n : Int)
  | Int16 (n : Int)
  | Int32 (n : Int)
  | Int64 (n : Int)
  | Float32 (x : Float64)
  | Float64 (x : Float64)
  | Bool (b : Bool)
  | Uint (n : Nat)
  | Struct
  | Ptr
  | Slice
  | Map
  | Other
deriving DecidableEq

mutual

/-- A non-nil value of type `interface{}`, or `nil`: the argument of `MakeMultiValue`.
One constructor per case of its type switch, `reflected` standing for every dynamic
type outside the switch. -/
inductive GoValue
  | nil
  | error (e : GoError)
  | futureMultiValue (cmder : Cmder)
  | bytes (data : Option String)
  | string (s : String)
  | bulkString (bs : BulkString)
  | duration (d : Duration)
  | time (t : Time)
  | bool (b : Bool)
  | int (n : Int)
  | int64 (n : Int)
  | float64 (x : Float64)
  | z (data : Z)
  | clusterSlot (s : ClusterSlot)
  | commandInfo (p : Option CommandInfo)
  | geoLocation (g : GeoLocation)
  | geoPos (p : Option GeoPos)
  | multiValue (mv : MultiValue)
  | keyAndValue (kv : KeyAndValue)
  | memberAndScore (ms : MemberAndScore)
  | chanAndSub (cs : ChanAndSub)
  | interfaces (data : List GoValue)
  | errors (data : List (Option Error))
  | strings (data : List String)
  | bools (data : List Bool)
  | mapStringString (data : List (String × String))
  | mapStringInt64 (data : List (String × Int))
  | mapStringStruct (data : List String)
  | zs (data : List Z)
  | clusterSlots (data : List ClusterSlot)
  | mapStringCommandInfo (data : List (String × Option CommandInfo))
  | geoLocations (data : List GeoLocation)
  | geoPoss (data : List (Option GeoPos))
  | bulkStrings (data : List BulkString)
  | multiValues (data : List MultiValue)
  | keyAndValues (data : List KeyAndValue)
  | memberAndScores (data : List MemberAndScore)
  | chanAndSubs (data : List ChanAndSub)
  | reflected (val : Reflected)

/-- The concrete type of a `redis.Cmder` together with what its `Val()` returns. -/
inductive Reply
  | Cmd (val : GoValue)
  | SliceCmd (val : List GoValue)
  | StatusCmd (val : String)
  | IntCmd (val : Int)
  | DurationCmd (val : Duration)
  | TimeCmd (val : Time)
  | BoolCmd (val : Bool)
  | StringCmd (val : String)
  | FloatCmd (val : Float64)
  | StringSliceCmd (val : List String)
  | BoolSliceCmd (val : List Bool)
  | StringStringMapCmd (val : List (String × String))
  | StringIntMapCmd (val : List (String × Int))
  | StringStructMapCmd (val : List String)
  | ZSliceCmd (val : List Z)
  | ClusterSlotsCmd
  | GeoLocationCmd
  | GeoPosCmd
  | CommandsInfoCmd
  | ScanCmd
  | otherCmd

/-- A `redis.Cmder`: a command of some concrete type, and what its `Err()` returns. -/
inductive Cmder
  | mk (reply : Reply) (err : Option Error)

/-- A non-nil value of the interface type `error`: an ordinary error, or the
placeholder `&FutureMultiValue{cmder}`. -/
inductive Error
  | plain (e : GoError)
  | future (cmder : Cmder)

end

/-! ## Termination measure

`MakeMultiValue` and `parseCmder` call each other: a `*FutureMultiValue` is resolved by
parsing its command, and a command is parsed by normalizing its value. The measure
counts the values, commands and slice elements that a value holds. -/

mutual

/-- The number of nested values, commands and slice elements inside a value. -/
def GoValue.size : GoValue → Nat
  | .futureMultiValue cmder => cmder.size + 1
  | .interfaces data => GoValue.sizeList data + 1
  | .errors data => Error.sizeList data + 1
  | .strings data => data.length + 1
  | .bools data => data.length + 1
  | .mapStringString data => data.length + 1
  | .mapStringInt64 data => data.length + 1
  | .mapStringStruct data => data.length + 1
  | .zs data => data.length + 1
  | .clusterSlots data => data.length + 1
  | .mapStringCommandInfo data => data.length + 1
  | .geoLocations data => data.length + 1
  | .geoPoss data => data.length + 1
  | .bulkStrings data => data.length + 1
  | .multiValues data => data.length + 1
  | .keyAndValues data => data.length + 1
  | .memberAndScores data => data.length + 1
  | .chanAndSubs data => data.length + 1
  | .reflected _ => 1
  | _ => 0

/-- The measure of a `[]interface{}`. -/
def GoValue.sizeList : List GoValue → Nat
  | [] => 0
  | v :: vs => v.size + 1 + GoValue.sizeList vs

/-- The measure of an `error` value, nil included. -/
def Error.sizeOpt : Option Error → Nat
  | none => 0
  | some e => e.size

/-- The measure of a `[]error`. -/
def Error.sizeList : List (Option Error) → Nat
  | [] => 0
  | e :: es => Error.sizeOpt e + 1 + Error.sizeList es

/-- The measure of a reply: that of the value handed to `MakeMultiValue`. -/
def Reply.size : Reply → Nat
  | .Cmd val => val.size
  | .SliceCmd val => GoValue.sizeList val + 1
  | .StringSliceCmd val => val.length + 1
  | .BoolSliceCmd val => val.length + 1
  | .StringStringMapCmd val => val.length + 1
  | .StringIntMapCmd val => val.length + 1
  | .StringStructMapCmd val => val.length + 1
  | .ZSliceCmd val => val.length + 1
  | _ => 0

/-- The measure of a command. -/
def Cmder.size : Cmder → Nat
  | .mk reply err => reply.size + Error.sizeOpt err + 1

/-- The measure of a non-nil error. -/
def Error.size : Error → Nat
  | .plain _ => 0
  | .future cmder => cmder.size + 1

end

/-- An `error` value passed where an `interface{}` is expected. -/
def Error.toValue : Option Error → GoValue
  | none => .nil
  | some (.plain e) => .error e
  | some (.future cmder) => .futureMultiValue cmder

/-- The type `FutureMultiValue{cmder redis.Cmder}` -/
structure FutureMultiValue where
  cmder : Cmder

theorem GoValue.sizeList_map_of_size_eq_zero {α : Type} (f : α → GoValue)
    (h : ∀ a, (f a).size = 0) (data : List α) :
    GoValue.sizeList (data.map f) = data.length := by
  induction data with
  | nil => simp [GoValue.sizeList]
  | cons a as ih => simp [GoValue.sizeList, h, ih]; omega

theorem Error.size_toValue (e : Option Error) : (Error.toValue e).size = Error.sizeOpt e := by
  match e with
  | none => simp [Error.toValue, GoValue.size, Error.sizeOpt]
  | some (.plain _) => simp [Error.toValue, GoValue.size, Error.sizeOpt, Error.size]
  | some (.future _) => simp [Error.toValue, GoValue.size, Error.sizeOpt, Error.size]

theorem Error.sizeList_map_toValue (data : List (Option Error)) :
    GoValue.sizeList (data.map Error.toValue) = Error.sizeList data := by
  induction data with
  | nil => simp [GoValue.sizeList, Error.sizeList]
  | cons a as ih => simp [GoValue.sizeList, Error.sizeList, Error.size_toValue, ih]

/-! ## value.go: the accessors -/

/-- The method `mv.IsNil()` -/
def MultiValue.IsNil (mv : MultiValue) : Bool :=
  match mv with
  | .nil => true
  | _ => false

/-- The method `mv.IsErr()` -/
def MultiValue.IsErr (mv : MultiValue) : Bool :=
  match mv with
  | .error _ => true
  | _ => false

/-- The method `mv.Err()` -/
def MultiValue.Err (mv : MultiValue) : Option Error :=
  match mv with
  | .error err => some (.plain err)
  | _ => none

/-! The accessors follow; `Int64` stands before `Int`, and `Bool` last, so that the names of
the Lean types `Int` and `Bool` are still free where the signatures need them. -/

/-- The method `mv.Int64()`: an `int64` as it is, an `int` widened with `int64(i)`. -/
def MultiValue.Int64 (mv : MultiValue) : Int × Bool :=
  match mv with
  | .int64 n => (n, true)
  | .int i => (i, true)
  | _ => (0, false)

/-- The method `mv.Int()`: an `int` as it is, an `int64` converted with `int(i)`. -/
def MultiValue.Int (intSize : Nat) (mv : MultiValue) : Int × Bool :=
  match mv with
  | .int n => (n, true)
  | .int64 i => (toInt intSize i, true)
  | _ => (0, false)

/-- The method `mv.Float64()` -/
def MultiValue.Float64 (mv : MultiValue) : Float64 × Bool :=
  match mv with
  | .float64 n => (n, true)
  | _ => ({ bits := 0 }, false)

/-- The method `mv.Status()` -/
def MultiValue.Status (mv : MultiValue) : String × Bool :=
  match mv with
  | .string s => (s, true)
  | _ => ("", false)

/-- The method `mv.BulkString()`: nil data gives the zero `BulkString` with `ok`; a `BulkString`
as it is; a `string` through `MakeBulkString`. -/
def MultiValue.BulkString (mv : MultiValue) : BulkString × Bool :=
  match mv with
  | .nil => ({ str := none }, true)
  | .bulkString v => (v, true)
  | .string s => (MakeBulkString s, true)
  | _ => ({ str := none }, false)

/-- The method `mv.MultiValues()`: nil data gives the nil slice with `ok`. -/
def MultiValue.MultiValues (mv : MultiValue) : List MultiValue × Bool :=
  match mv with
  | .nil => ([], true)
  | .multiValues mvs => (mvs, true)
  | _ => ([], false)

/-- The method `mv.Time()` -/
def MultiValue.Time (mv : MultiValue) : Time × Bool :=
  match mv with
  | .time t => (t, true)
  | _ => ({ sec := 0, nsec := 0 }, false)

/-- The method `mv.Duration()` -/
def MultiValue.Duration (mv : MultiValue) : Duration × Bool :=
  match mv with
  | .duration d => (d, true)
  | _ => (0, false)

/-- The method `mv.KeyAndValue()` -/
def MultiValue.KeyAndValue (mv : MultiValue) : KeyAndValue × Bool :=
  match mv with
  | .keyAndValue kv => (kv, true)
  | _ => ({ Key := "", Value := "" }, false)

/-- The method `mv.MemberAndScore()` -/
def MultiValue.MemberAndScore (mv : MultiValue) : MemberAndScore × Bool :=
  match mv with
  | .memberAndScore ms => (ms, true)
  | _ => ({ Member := "", Score := { bits := 0 } }, false)

/-- The method `mv.Bool()`: a `bool` as it is; otherwise whatever `mv.Int64()` accepts, compared
with zero. -/
def MultiValue.Bool (mv : MultiValue) : Bool × Bool :=
  match mv with
  | .bool v => (v, true)
  | _ =>
    match mv.Int64 with
    | (_, false) => (false, false)
    | (n, true) => (n != 0, true)

/-! ## value.go: MakeMultiValue, FutureMultiValue and parseCmder -/

mutual

/-- The function `MakeMultiValue(v)`: the type switch on `v`, case by case and in the order of the
source; a panic is `Except.error`. -/
def MakeMultiValue (intSize : Nat) (v : GoValue) : Except Error MultiValue :=
  match v with
  | .nil => .ok .nil
  | .error data => .ok (.error data)
  | .futureMultiValue cmder => FutureMultiValue.MultiValue intSize { cmder := cmder }
  | .bytes none => .ok (.bulkString Null)
  | .bytes (some data) => .ok (.bulkString (MakeBulkString data))
  | .string data => .ok (.string data)
  | .bulkString data => .ok (.bulkString data)
  | .duration data => .ok (.duration data)
  | .time data => .ok (.time data)
  | .bool data => .ok (.bool data)
  | .int data => .ok (.int64 data)
  | .int64 data => .ok (.int64 data)
  | .float64 data => .ok (.float64 data)
  | .z data => .ok (.memberAndScore { Member := data.Member, Score := data.Score })
  | .clusterSlot _ => .error (.plain .ErrNotImplemented)
  | .commandInfo _ => .error (.plain .ErrNotImplemented)
  | .geoLocation _ => .error (.plain .ErrNotImplemented)
  | .geoPos _ => .error (.plain .ErrNotImplemented)
  | .multiValue data => .ok data
  | .keyAndValue data => .ok (.keyAndValue data)
  | .memberAndScore data => .ok (.memberAndScore data)
  | .chanAndSub data => .ok (.chanAndSub data)
  | .interfaces data => do
      let mvs ← MakeMultiValue.range intSize data
      .ok (.multiValues mvs)
  | .errors data => do
      let mvs ← MakeMultiValue.range intSize (data.map Error.toValue)
      .ok (.multiValues mvs)
  | .strings data => do
      let mvs ← MakeMultiValue.range intSize (data.map GoValue.string)
      .ok (.multiValues mvs)
  | .bools data => do
      let mvs ← MakeMultiValue.range intSize (data.map GoValue.bool)
      .ok (.multiValues mvs)
  | .mapStringString data => do
      let mvs ← MakeMultiValue.range intSize
        (data.map fun kv => GoValue.keyAndValue { Key := kv.1, Value := kv.2 })
      .ok (.multiValues mvs)
  | .mapStringInt64 data => do
      let mvs ← MakeMultiValue.range intSize
        (data.map fun kv => GoValue.chanAndSub { Chan := kv.1, Sub := toInt intSize kv.2 })
      .ok (.multiValues mvs)
  | .mapStringStruct data => do
      let mvs ← MakeMultiValue.range intSize (data.map GoValue.string)
      .ok (.multiValues mvs)
  | .zs data => do
      let mvs ← MakeMultiValue.range intSize (data.map GoValue.z)
      .ok (.multiValues mvs)
  | .clusterSlots data => do
      let mvs ← MakeMultiValue.range intSize (data.map GoValue.clusterSlot)
      .ok (.multiValues mvs)
  | .mapStringCommandInfo data => do
      let mvs ← MakeMultiValue.range intSize (data.map fun kv => GoValue.commandInfo kv.2)
      .ok (.multiValues mvs)
  | .geoLocations data => do
      let mvs ← MakeMultiValue.range intSize (data.map GoValue.geoLocation)
      .ok (.multiValues mvs)
  | .geoPoss data => do
      let mvs ← MakeMultiValue.range intSize (data.map GoValue.geoPos)
      .ok (.multiValues mvs)
  | .bulkStrings data => do
      let mvs ← MakeMultiValue.range intSize (data.map GoValue.bulkString)
      .ok (.multiValues mvs)
  | .multiValues data => .ok (.multiValues data)
  | .keyAndValues data => do
      let mvs ← MakeMultiValue.range intSize (data.map GoValue.keyAndValue)
      .ok (.multiValues mvs)
  | .memberAndScores data => do
      let mvs ← MakeMultiValue.range intSize (data.map GoValue.memberAndScore)
      .ok (.multiValues mvs)
  | .chanAndSubs data => do
      let mvs ← MakeMultiValue.range intSize (data.map GoValue.chanAndSub)
      .ok (.multiValues mvs)
  | .reflected (.String s) => MakeMultiValue intSize (.string s)
  | .reflected (.Int n) => MakeMultiValue intSize (.int64 n)
  | .reflected (.Int8 n) => MakeMultiValue intSize (.int64 n)
  | .reflected (.Int16 n) => MakeMultiValue intSize (.int64 n)
  | .reflected (.Int32 n) => MakeMultiValue intSize (.int64 n)
  | .reflected (.Int64 n) => MakeMultiValue intSize (.int64 n)
  | .reflected (.Float32 x) => MakeMultiValue intSize (.float64 x)
  | .reflected (.Float64 x) => MakeMultiValue intSize (.float64 x)
  | .reflected (.Bool b) => MakeMultiValue intSize (.bool b)
  | .reflected _ => .error (.plain .ErrUnsupportedValueType)
termination_by 2 * v.size + 1
decreasing_by
  all_goals simp_wf
  all_goals
    simp [GoValue.size, GoValue.sizeList, Cmder.size, Reply.size, Error.sizeOpt, Error.size,
      Error.size_toValue, Error.sizeList_map_toValue, GoValue.sizeList_map_of_size_eq_zero] <;>
    omega

/-- The loop `for _, v := range data { mvs = append(mvs, MakeMultiValue(v)) }` that the
slice and map cases of `MakeMultiValue` share, each element passed as an `interface{}`. -/
def MakeMultiValue.range (intSize : Nat) (data : List GoValue) : Except Error (List MultiValue) :=
  match data with
  | [] => .ok []
  | v :: rest => do
      let mv ← MakeMultiValue intSize v
      let mvs ← MakeMultiValue.range intSize rest
      .ok (mv :: mvs)
termination_by 2 * GoValue.sizeList data
decreasing_by
  all_goals simp_wf
  all_goals
    simp [GoValue.size, GoValue.sizeList, Cmder.size, Reply.size, Error.sizeOpt, Error.size,
      Error.size_toValue, Error.sizeList_map_toValue, GoValue.sizeList_map_of_size_eq_zero] <;>
    omega

/-- The method `fmv.MultiValue()` -/
def FutureMultiValue.MultiValue (intSize : Nat) (fmv : FutureMultiValue) :
    Except Error MultiValue := do
  let (mv, _) ← parseCmder intSize fmv.cmder
  .ok mv
termination_by 2 * fmv.cmder.size + 2
decreasing_by
  all_goals simp_wf

/-- The function `parseCmder(cmder)` -/
def parseCmder (intSize : Nat) (cmder : Cmder) : Except Error (MultiValue × Option Error) :=
  match cmder with
  | .mk reply (some (.plain .redisNil)) =>
      match reply with
      | .StringCmd _ => do
          let mv ← MakeMultiValue intSize (.bulkString Null)
          .ok (mv, none)
      | _ => .ok (.nil, none)
  | .mk _ (some err) => do
      let mv ← MakeMultiValue intSize (Error.toValue (some err))
      .ok (mv, none)
  | .mk (.Cmd val) none => do
      let mv ← MakeMultiValue intSize val
      .ok (mv, none)
  | .mk (.SliceCmd val) none => do
      let mv ← MakeMultiValue intSize (.interfaces val)
      .ok (mv, none)
  | .mk (.StatusCmd val) none => do
      let mv ← MakeMultiValue intSize (.string val)
      .ok (mv, none)
  | .mk (.IntCmd val) none => do
      let mv ← MakeMultiValue intSize (.int64 val)
      .ok (mv, none)
  | .mk (.DurationCmd val) none => do
      let mv ← MakeMultiValue intSize (.duration val)
      .ok (mv, none)
  | .mk (.TimeCmd val) none => do
      let mv ← MakeMultiValue intSize (.time val)
      .ok (mv, none)
  | .mk (.BoolCmd val) none => do
      let mv ← MakeMultiValue intSize (.bool val)
      .ok (mv, none)
  | .mk (.StringCmd val) none => do
      let mv ← MakeMultiValue intSize (.bulkString (MakeBulkString val))
      .ok (mv, none)
  | .mk (.FloatCmd val) none => do
      let mv ← MakeMultiValue intSize (.float64 val)
      .ok (mv, none)
  | .mk (.StringSliceCmd val) none => do
      let mv ← MakeMultiValue intSize (.strings val)
      .ok (mv, none)
  | .mk (.BoolSliceCmd val) none => do
      let mv ← MakeMultiValue intSize (.bools val)
      .ok (mv, none)
  | .mk (.StringStringMapCmd val) none => do
      let mv ← MakeMultiValue intSize (.mapStringString val)
      .ok (mv, none)
  | .mk (.StringIntMapCmd val) none => do
      let mv ← MakeMultiValue intSize (.mapStringInt64 val)
      .ok (mv, none)
  | .mk (.StringStructMapCmd val) none => do
      let mv ← MakeMultiValue intSize (.mapStringStruct val)
      .ok (mv, none)
  | .mk (.ZSliceCmd val) none => do
      let mv ← MakeMultiValue intSize (.zs val)
      .ok (mv, none)
  | .mk .ClusterSlotsCmd none => .ok (.nil, some (.plain .ErrNotImplemented))
  | .mk .GeoLocationCmd none => .ok (.nil, some (.plain .ErrNotImplemented))
  | .mk .GeoPosCmd none => .ok (.nil, some (.plain .ErrNotImplemented))
  | .mk .CommandsInfoCmd none => .ok (.nil, some (.plain .ErrNotImplemented))
  | .mk _ none => .ok (.nil, some (.plain .ErrNotImplemented))
termination_by 2 * cmder.size + 1
decreasing_by
  all_goals simp_wf
  all_goals
    simp [GoValue.size, GoValue.sizeList, Cmder.size, Reply.size, Error.sizeOpt, Error.size,
      Error.size_toValue, Error.sizeList_map_toValue, GoValue.sizeList_map_of_size_eq_zero] <;>
    omega

end

/-! ## value.go: batches -/

/-- The method `cmder.Err()` -/
def Cmder.Err : Cmder → Option Error
  | .mk _ err => err

/-- The comparison `err == redis.Nil`. -/
def isRedisNil : Option Error → Bool
  | some (.plain .redisNil) => true
  | _ => false

/-- A `redis.Cmdable`, by its concrete type: the implementations that go-redis ships.
Of these only `*redis.Pipeline` implements `redis.Pipeliner`. -/
inductive Cmdable
  | Client
  | ClusterClient
  | Ring
  | Conn
  | Tx
  | Pipeline
deriving DecidableEq

/-- The function `isPipelined(cmdable)`: the type assertion `cmdable.(redis.Pipeliner)`. -/
def isPipelined (cmdable : Cmdable) : Bool :=
  match cmdable with
  | .Pipeline => true
  | _ => false

/-- The first loop of `parsePipelinedReply`: the `Err()` of the first command for which
it is neither nil nor `redis.Nil`; nil when the loop ends without a `break`. -/
def parsePipelinedReply.scan : List Cmder → Option Error
  | [] => none
  | cmder :: rest =>
      let e := cmder.Err
      if e.isSome && !isRedisNil e then e else parsePipelinedReply.scan rest

/-- The second loop of `parsePipelinedReply`, from the state `(err, mvs)`; it returns
the state in which the loop ends. -/
def parsePipelinedReply.loop (intSize : Nat) :
    List Cmder → Option Error → List MultiValue → Except Error (Option Error × List MultiValue)
  | [], err, mvs => .ok (err, mvs)
  | cmder :: rest, err, mvs => do
      let (mv, e) ← parseCmder intSize cmder
      if e.isSome && err.isSome then
        let mv ← MakeMultiValue intSize (Error.toValue e)
        parsePipelinedReply.loop intSize rest e (mvs ++ [mv])
      else
        parsePipelinedReply.loop intSize rest err (mvs ++ [mv])

/-- The function `parsePipelinedReply(cmders, err)` -/
def parsePipelinedReply (intSize : Nat) (cmders : List Cmder) (err : Option Error) :
    Except Error (List MultiValue × Option Error) :=
  if err.isSome && !isRedisNil err then
    .ok ([], err)
  else do
    let err := if isRedisNil err then parsePipelinedReply.scan cmders else err
    let (_, mvs) ← parsePipelinedReply.loop intSize cmders err []
    .ok (mvs, none)

/-! ## value.go: the mustBe functions

Each returns its typed result with the error; `panic(e)` is `Except.error e`. -/

/-- The function `mustBeMultiValue(cmdable, cmder)` -/
def mustBeMultiValue (intSize : Nat) (cmdable : Cmdable) (cmder : Cmder) :
    Except Error (MultiValue × Option Error) :=
  if isPipelined cmdable then
    .ok (.nil, some (.future cmder))
  else do
    let (v, e) ← parseCmder intSize cmder
    match e with
    | some e => .error e
    | none =>
      match v.Err with
      | some err => .ok (.nil, some err)
      | none => .ok (v, none)

/-- The function `mustBeBool(cmdable, cmder)` -/
def mustBeBool (intSize : Nat) (cmdable : Cmdable) (cmder : Cmder) :
    Except Error (Bool × Option Error) :=
  if isPipelined cmdable then
    .ok (false, some (.future cmder))
  else do
    let (mv, e) ← parseCmder intSize cmder
    match e with
    | some e => .error e
    | none =>
      match mv.Err with
      | some err => .ok (false, some err)
      | none =>
        match mv.Bool with
        | (_, false) => .error (.plain .ErrUnexpectedResponseType)
        | (v, true) => .ok (v, none)

/-- The function `mustBeInt(cmdable, cmder)` -/
def mustBeInt (intSize : Nat) (cmdable : Cmdable) (cmder : Cmder) :
    Except Error (Int × Option Error) :=
  if isPipelined cmdable then
    .ok (0, some (.future cmder))
  else do
    let (mv, e) ← parseCmder intSize cmder
    match e with
    | some e => .error e
    | none =>
      match mv.Err with
      | some err => .ok (0, some err)
      | none =>
        match mv.Int intSize with
        | (_, false) => .error (.plain .ErrUnexpectedResponseType)
        | (v, true) => .ok (v, none)

/-- The function `mustBeIntOrNil(cmdable, cmder)`: the result is `(n, exists, err)`. -/
def mustBeIntOrNil (intSize : Nat) (cmdable : Cmdable) (cmder : Cmder) :
    Except Error (Int × Bool × Option Error) :=
  if isPipelined cmdable then
    .ok (0, false, some (.future cmder))
  else do
    let (mv, e) ← parseCmder intSize cmder
    match e with
    | some e => .error e
    | none =>
      match mv.Err with
      | some err => .ok (0, false, some err)
      | none =>
        if mv.IsNil then
          .ok (0, false, none)
        else
          match mv.Int intSize with
          | (_, false) => .error (.plain .ErrUnexpectedResponseType)
          | (v, true) => .ok (v, true, none)

/-- The function `mustBeInt64(cmdable, cmder)` -/
def mustBeInt64 (intSize : Nat) (cmdable : Cmdable) (cmder : Cmder) :
    Except Error (Int × Option Error) :=
  if isPipelined cmdable then
    .ok (0, some (.future cmder))
  else do
    let (mv, e) ← parseCmder intSize cmder
    match e with
    | some e => .error e
    | none =>
      match mv.Err with
      | some err => .ok (0, some err)
      | none =>
        match mv.Int64 with
        | (_, false) => .error (.plain .ErrUnexpectedResponseType)
        | (v, true) => .ok (v, none)

/-- The function `mustBeFloat64(cmdable, cmder)` -/
def mustBeFloat64 (intSize : Nat) (cmdable : Cmdable) (cmder : Cmder) :
    Except Error (Float64 × Option Error) :=
  if isPipelined cmdable then
    .ok ({ bits := 0 }, some (.future cmder))
  else do
    let (mv, e) ← parseCmder intSize cmder
    match e with
    | some e => .error e
    | none =>
      match mv.Err with
      | some err => .ok ({ bits := 0 }, some err)
      | none =>
        match mv.Float64 with
        | (_, false) => .error (.plain .ErrUnexpectedResponseType)
        | (v, true) => .ok (v, none)

/-- The function `mustBeStatus(cmdable, cmder)` -/
def mustBeStatus (intSize : Nat) (cmdable : Cmdable) (cmder : Cmder) :
    Except Error (String × Option Error) :=
  if isPipelined cmdable then
    .ok ("", some (.future cmder))
  else do
    let (mv, e) ← parseCmder intSize cmder
    match e with
    | some e => .error e
    | none =>
      match mv.Err with
      | some err => .ok ("", some err)
      | none =>
        match mv.Status with
        | (_, false) => .error (.plain .ErrUnexpectedResponseType)
        | (v, true) => .ok (v, none)

/-- The function `mustBeBulkString(cmdable, cmder)` -/
def mustBeBulkString (intSize : Nat) (cmdable : Cmdable) (cmder : Cmder) :
    Except Error (BulkString × Option Error) :=
  if isPipelined cmdable then
    .ok ({ str := none }, some (.future cmder))
  else do
    let (mv, e) ← parseCmder intSize cmder
    match e with
    | some e => .error e
    | none =>
      match mv.Err with
      | some err => .ok ({ str := none }, some err)
      | none =>
        match mv.BulkString with
        | (_, false) => .error (.plain .ErrUnexpectedResponseType)
        | (v, true) => .ok (v, none)

/-- The function `mustBeMultiValues(cmdable, cmder)` -/
def mustBeMultiValues (intSize : Nat) (cmdable : Cmdable) (cmder : Cmder) :
    Except Error (List MultiValue × Option Error) :=
  if isPipelined cmdable then
    .ok ([], some (.future cmder))
  else do
    let (mv, e) ← parseCmder intSize cmder
    match e with
    | some e => .error e
    | none =>
      match mv.Err with
      | some err => .ok ([], some err)
      | none =>
        match mv.MultiValues with
        | (_, false) => .error (.plain .ErrUnexpectedResponseType)
        | (v, true) => .ok (v, none)

/-- The function `mustBeTime(cmdable, cmder)` -/
def mustBeTime (intSize : Nat) (cmdable : Cmdable) (cmder : Cmder) :
    Except Error (Time × Option Error) :=
  if isPipelined cmdable then
    .ok ({ sec := 0, nsec := 0 }, some (.future cmder))
  else do
    let (mv, e) ← parseCmder intSize cmder
    match e with
    | some e => .error e
    | none =>
      match mv.Err with
      | some err => .ok ({ sec := 0, nsec := 0 }, some err)
      | none =>
        match mv.Time with
        | (_, false) => .error (.plain .ErrUnexpectedResponseType)
        | (v, true) => .ok (v, none)

/-- The function `mustBeDuration(cmdable, cmder)` -/
def mustBeDuration (intSize : Nat) (cmdable : Cmdable) (cmder : Cmder) :
    Except Error (Duration × Option Error) :=
  if isPipelined cmdable then
    .ok (0, some (.future cmder))
  else do
    let (mv, e) ← parseCmder intSize cmder
    match e with
    | some e => .error e
    | none =>
      match mv.Err with
      | some err => .ok (0, some err)
      | none =>
        match mv.Duration with
        | (_, false) => .error (.plain .ErrUnexpectedResponseType)
        | (v, true) => .ok (v, none)

/-- The function `mustBeKeyAndValue(cmdable, cmder)` -/
def mustBeKeyAndValue (intSize : Nat) (cmdable : Cmdable) (cmder : Cmder) :
    Except Error (KeyAndValue × Option Error) :=
  if isPipelined cmdable then
    .ok ({ Key := "", Value := "" }, some (.future cmder))
  else do
    let (mv, e) ← parseCmder intSize cmder
    match e with
    | some e => .error e
    | none =>
      match mv.Err with
      | some err => .ok ({ Key := "", Value := "" }, some err)
      | none =>
        match mv.KeyAndValue with
        | (_, false) => .error (.plain .ErrUnexpectedResponseType)
        | (v, true) => .ok (v, none)

/-- The function `mustBeMemberAndScore(cmdable, cmder)` -/
def mustBeMemberAndScore (intSize : Nat) (cmdable : Cmdable) (cmder : Cmder) :
    Except Error (MemberAndScore × Option Error) :=
  if isPipelined cmdable then
    .ok ({ Member := "", Score := { bits := 0 } }, some (.future cmder))
  else do
    let (mv, e) ← parseCmder intSize cmder
    match e with
    | some e => .error e
    | none =>
      match mv.Err with
      | some err => .ok ({ Member := "", Score := { bits := 0 } }, some err)
      | none =>
        match mv.MemberAndScore with
        | (_, false) => .error (.plain .ErrUnexpectedResponseType)
        | (v, true) => .ok (v, none)

/-- The loop of `mustBeBulkStrings`: every element through `BulkString()`, a panic at the first
one that is refused. -/
def mustBeBulkStrings.range : List MultiValue → Except Error (List BulkString)
  | [] => .ok []
  | mv :: rest =>
    match mv.BulkString with
    | (_, false) => .error (.plain .ErrUnexpectedResponseType)
    | (v, true) => do
        let vs ← mustBeBulkStrings.range rest
        .ok (v :: vs)

/-- The function `mustBeBulkStrings(cmdable, cmder)` -/
def mustBeBulkStrings (intSize : Nat) (cmdable : Cmdable) (cmder : Cmder) :
    Except Error (List BulkString × Option Error) := do
  let (mvs, e) ← mustBeMultiValues intSize cmdable cmder
  match e with
  | some e => .ok ([], some e)
  | none => do
      let vs ← mustBeBulkStrings.range mvs
      .ok (vs, none)

/-- The loop of `mustBeKeyAndValues`: every element through `KeyAndValue()`, a panic at the first
one that is refused. -/
def mustBeKeyAndValues.range : List MultiValue → Except Error (List KeyAndValue)
  | [] => .ok []
  | mv :: rest =>
    match mv.KeyAndValue with
    | (_, false) => .error (.plain .ErrUnexpectedResponseType)
    | (v, true) => do
        let vs ← mustBeKeyAndValues.range rest
        .ok (v :: vs)

/-- The function `mustBeKeyAndValues(cmdable, cmder)` -/
def mustBeKeyAndValues (intSize : Nat) (cmdable : Cmdable) (cmder : Cmder) :
    Except Error (List KeyAndValue × Option Error) := do
  let (mvs, e) ← mustBeMultiValues intSize cmdable cmder
  match e with
  | some e => .ok ([], some e)
  | none => do
      let vs ← mustBeKeyAndValues.range mvs
      .ok (vs, none)

/-- The loop of `mustBeMemberAndScores`: every element through `MemberAndScore()`, a panic at the first
one that is refused. -/
def mustBeMemberAndScores.range : List MultiValue → Except Error (List MemberAndScore)
  | [] => .ok []
  | mv :: rest =>
    match mv.MemberAndScore with
    | (_, false) => .error (.plain .ErrUnexpectedResponseType)
    | (v, true) => do
        let vs ← mustBeMemberAndScores.range rest
        .ok (v :: vs)

/-- The function `mustBeMemberAndScores(cmdable, cmder)` -/
def mustBeMemberAndScores (intSize : Nat) (cmdable : Cmdable) (cmder : Cmder) :
    Except Error (List MemberAndScore × Option Error) := do
  let (mvs, e) ← mustBeMultiValues intSize cmdable cmder
  match e with
  | some e => .ok ([], some e)
  | none => do
      let vs ← mustBeMemberAndScores.range mvs
      .ok (vs, none)

/-! ## stats.go and redis.go: the command wrapper

The wrapper `do` logs, reports statistics and calls the command function. What it does
besides returning is kept as the list of its steps, in order. Clock readings and the
text of the log lines are left out. -/

/-- One observable step of `do`: a log line by its level, the call `fn(r.client)`, or
one of the three counter updates of `statsForCall`. -/
inductive Event
  | Infof
  | Tracef
  | Errorf
  | fn
  | runnerStatsAdd
  | CallAdd
  | FailuresAdd
deriving DecidableEq

/-- The value that `recover()` returns after a panic: an error, or any other value,
named by its rendering. A panic value is not nil. -/
inductive PanicValue
  | error (e : Error)
  | other (rendering : String)

/-- A `context.Context`, by what its `Err()` returns at the time `do` asks. -/
structure Context where
  Err : Option Error

/-- The type `redisImpl{ctx context.Context, client driver.Client}`. -/
structure redisImpl where
  ctx : Context
  client : Cmdable

/-- The function `statsForCall(ctx, err)`: the runner counter and the call counter are
always incremented, the failure counter when `err` is not nil. -/
def statsForCall (_ctx : Context) (err : Option Error) : List Event :=
  [.runnerStatsAdd, .CallAdd] ++ (if err.isSome then [.FailuresAdd] else [])

/-- The error `fmt.Errorf` builds in `do` for the command name `cmd`. -/
def caughtPanic (cmd : String) : Error :=
  .plain (.other ("go-redis: caught a panic in `" ++ cmd ++ "`"))

/-- The deferred function of `do`, run when `do` leaves after the `defer` statement:
`recovered` is what `recover()` returns and `err` the result variable at that time. It
gives the final value of `err` and its steps. -/
def redisImpl.do_.deferred (ctx : Context) (cmd : String) (recovered : Option PanicValue)
    (err : Option Error) : Option Error × List Event :=
  let (err, caught) :=
    match recovered with
    | some _ => (some (caughtPanic cmd), [Event.Errorf])
    | none => (err, [])
  let logged := if err.isNone then [Event.Tracef] else [Event.Errorf]
  (err, caught ++ logged ++ statsForCall ctx err)

/-- The method `r.do(cmd, fn)`. The command function `fn` is a closure over variables of
its caller; `s` is their state before the call, and `fn` gives their state after it
together with the error it returns, or the value it panics with. The result is the
state of those variables, the error that `do` returns, and the steps of `do`. -/
def redisImpl.do_ {σ : Type} (r : redisImpl) (cmd : String)
    (fn : Cmdable → σ → σ × Except PanicValue (Option Error)) (s : σ) :
    σ × Option Error × List Event :=
  match r.ctx.Err with
  | some err => (s, some err, [.Infof])
  | none =>
    match fn r.client s with
    | (s1, .ok err) =>
        let (err, steps) := redisImpl.do_.deferred r.ctx cmd none err
        (s1, err, .fn :: steps)
    | (s1, .error p) =>
        let (err, steps) := redisImpl.do_.deferred r.ctx cmd (some p) none
        (s1, err, .fn :: steps)

/-- The command function that a typed command hands to `do`:
`func(client driver.Client) error { v, err = mustBe(client, issue(client)); return err }`,
where `issue` sends the command and `v`, `err` are result variables of the typed
command. The state is the pair of these variables; a panic of `mustBe` leaves them as
they were. -/
def commandFn {α : Type} (mustBe : Cmdable → Cmder → Except Error (α × Option Error))
    (issue : Cmdable → Cmder) :
    Cmdable → α × Option Error → (α × Option Error) × Except PanicValue (Option Error) :=
  fun client s =>
    match mustBe client (issue client) with
    | .error p => (s, .error (.error p))
    | .ok (v, err) => ((v, err), .ok err)

/-! ## options.go: the options of SET -/

/-- The wrap-around of an integer to `int64`. -/
def toInt64 (x : Int) : Int := toInt 64 x

/-- The conversion `uint64(x)` of an `int64`. -/
def toUint64 (x : Int) : Int := x % 2 ^ 64

/-- The method `d.Round(m)` of `time.Duration` in the Go standard library, after its
source: the nearest multiple of `m`, halfway values away from zero, the largest or
smallest duration where the result would not fit, and `d` itself when `m` is not
positive. -/
def Duration.Round (d m : Duration) : Duration :=
  if m ≤ 0 then d
  else
    let r := Int.tmod d m
    if d < 0 then
      let r := -r
      if toUint64 (toUint64 r + toUint64 r) < toUint64 m then toInt64 (d + r)
      else
        let d1 := toInt64 (d - m + r)
        if d1 < d then d1 else -(2 ^ 63)
    else
      if toUint64 (toUint64 r + toUint64 r) < toUint64 m then toInt64 (d - r)
      else
        let d1 := toInt64 (d + m - r)
        if d1 > d then d1 else 2 ^ 63 - 1

/-- The constant `time.Millisecond`, in nanoseconds. -/
def Millisecond : Duration := 1000000

/-- The constant `time.Second`, in nanoseconds. -/
def Second : Duration := 1000000000

/-- The type `setOptionType` with its four constants. -/
inductive setOptionType
  | setOptionInvalid
  | setOptionExpire
  | setOptionNX
  | setOptionXX
deriving DecidableEq

/-- The type `SetOption{t setOptionType, expire time.Duration}`. -/
structure SetOption where
  t : setOptionType
  expire : Duration
deriving DecidableEq

/-- The function `Expire(timeout)`. -/
def Expire (timeout : Duration) : SetOption := { t := .setOptionExpire, expire := timeout }

/-- The function `XX()`. -/
def XX : SetOption := { t := .setOptionXX, expire := 0 }

/-- The function `NX()`. -/
def NX : SetOption := { t := .setOptionNX, expire := 0 }

/-- The method `so.Args()`; the nil slice of the last line is the empty list. -/
def SetOption.Args (so : SetOption) : List GoValue :=
  match so.t with
  | .setOptionExpire =>
      if Int.tmod so.expire Second = 0 then
        [.string "EX", .int64 (Int.tdiv so.expire Second)]
      else
        [.string "PX", .int64 (Int.tdiv (Duration.Round so.expire Millisecond) Millisecond)]
  | .setOptionNX => [.string "NX"]
  | .setOptionXX => [.string "XX"]
  | .setOptionInvalid => []

/-! ## The typed commands

A typed command reaches the server through one call of a method of its
`driver.Client`, an interface of go-redis: a typed method such as `client.HLen(key)`,
or `client.Process(cmd)` on a command it has built itself. -/

/-- A call of a method of `driver.Client`: the Go name of the method and its arguments;
for `Process`, the arguments the command was built with, its name first. -/
structure Call where
  method : String
  args : List GoValue

/-- What the client answers to a call: the command that a typed method returns, or the
command handed to `Process` as the call leaves it. `Process` returns the `Err()` of that
command. -/
abbrev Driver := Call → Cmder

/-- The command function of a typed command that goes through a typed method:
`func(client driver.Client) error { v, err = mustBe(client, client.Method(args...)); return err }`.
The state is the result variables `v` and `err`, and the calls made so far. -/
def methodFn {α : Type} (mustBe : Cmdable → Cmder → Except Error (α × Option Error))
    (exec : Driver) (call : Call) :
    Cmdable → (α × Option Error) × List Call →
      ((α × Option Error) × List Call) × Except PanicValue (Option Error) :=
  fun client s =>
    match mustBe client (exec call) with
    | .error p => ((s.1, s.2 ++ [call]), .error (.error p))
    | .ok (v, err) => (((v, err), s.2 ++ [call]), .ok err)

/-- The command function of a typed command that builds its command and processes it:
`cmd := redis.New...Cmd(args...); if err = client.Process(cmd); err != nil { return err };
v, err = mustBe(client, cmd); return err`. -/
def processFn {α : Type} (mustBe : Cmdable → Cmder → Except Error (α × Option Error))
    (exec : Driver) (call : Call) :
    Cmdable → (α × Option Error) × List Call →
      ((α × Option Error) × List Call) × Except PanicValue (Option Error) :=
  fun client s =>
    let cmd := exec call
    match cmd.Err with
    | some err => (((s.1.1, some err), s.2 ++ [call]), .ok (some err))
    | none =>
      match mustBe client cmd with
      | .error p => (((s.1.1, none), s.2 ++ [call]), .error (.error p))
      | .ok (v, err) => (((v, err), s.2 ++ [call]), .ok err)

/-- The command function of a typed command for which `redis.Nil` means absence:
`cmd := redis.New...Cmd(args...); if err = client.Process(cmd); err != nil { if err != redis.Nil
{ return err }; return nil }; flag = true; v, err = mustBe(client, cmd); return err`. The
state is the result variables `v`, `flag` and `err`, and the calls made so far. -/
def processOrNilFn {α : Type} (mustBe : Cmdable → Cmder → Except Error (α × Option Error))
    (exec : Driver) (call : Call) :
    Cmdable → (α × Bool × Option Error) × List Call →
      ((α × Bool × Option Error) × List Call) × Except PanicValue (Option Error) :=
  fun client s =>
    let cmd := exec call
    match cmd.Err with
    | some err =>
        if isRedisNil (some err) then
          (((s.1.1, s.1.2.1, some err), s.2 ++ [call]), .ok none)
        else
          (((s.1.1, s.1.2.1, some err), s.2 ++ [call]), .ok (some err))
    | none =>
      match mustBe client cmd with
      | .error p => (((s.1.1, true, none), s.2 ++ [call]), .error (.error p))
      | .ok (v, err) => (((v, true, err), s.2 ++ [call]), .ok err)

/-- The method `r.LLen(key)` of lists.go: its results `l` and `err`, the calls it made to
the client, and the steps of `do`. -/
def redisImpl.LLen (intSize : Nat) (exec : Driver) (r : redisImpl) (key : String) :
    Int × Option Error × List Call × List Event :=
  let (((l, _), calls), err, steps) :=
    r.do_ "LLEN" (methodFn (mustBeInt intSize) exec { method := "HLen", args := [.string key] })
      ((0, none), [])
  (l, err, calls, steps)

/-- The method `r.ZPopMax(key)` of sortedsets.go. -/
def redisImpl.ZPopMax (intSize : Nat) (exec : Driver) (r : redisImpl) (key : String) :
    MemberAndScore × Option Error × List Call × List Event :=
  let (((ms, _), calls), err, steps) :=
    r.do_ "ZPOPMAX"
      (methodFn (mustBeMemberAndScore intSize) exec
        { method := "ZPopMax", args := [.string key] })
      (({ Member := "", Score := { bits := 0 } }, none), [])
  (ms, err, calls, steps)

/-- The method `r.ZPopMin(key)` of sortedsets.go. -/
def redisImpl.ZPopMin (intSize : Nat) (exec : Driver) (r : redisImpl) (key : String) :
    MemberAndScore × Option Error × List Call × List Event :=
  let (((ms, _), calls), err, steps) :=
    r.do_ "ZPOPMIN"
      (methodFn (mustBeMemberAndScore intSize) exec
        { method := "ZPopMin", args := [.string key] })
      (({ Member := "", Score := { bits := 0 } }, none), [])
  (ms, err, calls, steps)

/-- The method `r.ZRangeWithScores(key, start, stop)` of sortedsets.go. -/
def redisImpl.ZRangeWithScores (intSize : Nat) (exec : Driver) (r : redisImpl) (key : String)
    (start stop : Float64) : List MemberAndScore × Option Error × List Call × List Event :=
  let (((mss, _), calls), err, steps) :=
    r.do_ "ZRANGE-WITHSCORES"
      (processFn (mustBeMemberAndScores intSize) exec
        { method := "Process", args := [.string "ZRANGE", .string key, .float64 start,
            .float64 stop, .string "WITHSCORES"] })
      (([], none), [])
  (mss, err, calls, steps)

/-- The method `r.ZRevRangeWithScores(key, start, stop)` of sortedsets.go. -/
def redisImpl.ZRevRangeWithScores (intSize : Nat) (exec : Driver) (r : redisImpl)
    (key : String) (start stop : Float64) :
    List MemberAndScore × Option Error × List Call × List Event :=
  let (((mss, _), calls), err, steps) :=
    r.do_ "ZREVRANGE-WITHSCORES"
      (processFn (mustBeMemberAndScores intSize) exec
        { method := "Process", args := [.string "ZREVRANGE", .string key, .float64 start,
            .float64 stop, .string "WITHSCORES"] })
      (([], none), [])
  (mss, err, calls, steps)

/-- The method `r.ZRank(key, member)` of sortedsets.go: its results `rank`, `exists` and
`err`, the calls it made and the steps of `do`. -/
def redisImpl.ZRank (intSize : Nat) (exec : Driver) (r : redisImpl) (key member : String) :
    Int × Bool × Option Error × List Call × List Event :=
  let (((rank, found, _), calls), err, steps) :=
    r.do_ "ZRANK"
      (processOrNilFn (mustBeInt intSize) exec
        { method := "Process", args := [.string "ZRANK", .string key, .string member] })
      ((0, false, none), [])
  (rank, found, err, calls, steps)

/-- The method `r.ZRevRank(key, member)` of sortedsets.go. -/
def redisImpl.ZRevRank (intSize : Nat) (exec : Driver) (r : redisImpl) (key member : String) :
    Int × Bool × Option Error × List Call × List Event :=
  let (((rank, found, _), calls), err, steps) :=
    r.do_ "ZREVRANK"
      (processOrNilFn (mustBeInt intSize) exec
        { method := "Process", args := [.string "ZREVRANK", .string key, .string member] })
      ((0, false, none), [])
  (rank, found, err, calls, steps)

/-- The method `r.ZScore(key, member)` of sortedsets.go: its results `score`, `exists` and
`err`, the calls it made and the steps of `do`. -/
def redisImpl.ZScore (intSize : Nat) (exec : Driver) (r : redisImpl) (key member : String) :
    Float64 × Bool × Option Error × List Call × List Event :=
  let (((score, found, _), calls), err, steps) :=
    r.do_ "ZSCORE"
      (processOrNilFn (mustBeFloat64 intSize) exec
        { method := "Process", args := [.string "ZSCORE", .string key, .string member] })
      (({ bits := 0 }, false, none), [])
  (score, found, err, calls, steps)

/-- The loop of `Set` over its options: `args = append(args, opt.Args()...)`. -/
def redisImpl.Set.args : List GoValue → List SetOption → List GoValue
  | args, [] => args
  | args, opt :: rest => redisImpl.Set.args (args ++ opt.Args) rest

/-- The method `r.Set(key, value, options...)` of strings.go: its results `isSet` and
`err`, the calls it made and the steps of `do`. The status that `mustBeStatus` returns is
dropped. -/
def redisImpl.Set (intSize : Nat) (exec : Driver) (r : redisImpl) (key value : String)
    (options : List SetOption) : Bool × Option Error × List Call × List Event :=
  let (((_, isSet, _), calls), err, steps) :=
    r.do_ "SET"
      (processOrNilFn (mustBeStatus intSize) exec
        { method := "Process",
          args := redisImpl.Set.args [.string "SET", .string key, .string value] options })
      (("", false, none), [])
  (isSet, err, calls, steps)

/-! ## keyandvalues.go -/

/-- The assignment `m[k] = v` on the entries of a Go `map[string]string`, a list with
distinct keys: the value of an entry with the key `k` is replaced, and without one the
entry is added. -/
def mapAssign : List (String × String) → String → String → List (String × String)
  | [], k, v => [(k, v)]
  | (k1, v1) :: rest, k, v =>
      if k1 = k then (k, v) :: rest else (k1, v1) :: mapAssign rest k v

/-- The index expression `v, ok := m[k]` on a Go `map[string]string`, `none` being the nil
map, in which no key is found. -/
def mapIndex (m : Option (List (String × String))) (k : String) : Option String :=
  match m with
  | none => none
  | some entries => entries.lookup k

/-- The method `kvs.Map()`: nil for the empty list, and else the map that the loop
`for _, fv := range kvs { m[fv.Key] = fv.Value }` fills. -/
def KeyAndValues.Map (kvs : List KeyAndValue) : Option (List (String × String)) :=
  if kvs.length = 0 then none
  else some (kvs.foldl (fun m fv => mapAssign m fv.Key fv.Value) [])

/-! ## ranges.go: member ranges

A `MemberRange` is a string. The byte `mr[0]` is compared with the ASCII characters
`(` and `[` only, and `mr[1:]` is taken only after `mr[0] == '['`, so the first byte is
read as the first character and `mr[1:]` as the string without it. -/

/-- The type `MemberRange`. -/
abbrev MemberRange := String

/-- The constant `MemberRangeStart`. -/
def MemberRangeStart : MemberRange := "-"

/-- The constant `MemberRangeStop`. -/
def MemberRangeStop : MemberRange := "+"

/-- The function `MakeMemberRange(member)` -/
def MakeMemberRange (member : String) : MemberRange := "[" ++ member

/-- The method `mr.Exclusive()` -/
def MemberRange.Exclusive (mr : MemberRange) : MemberRange :=
  if mr = "" ∨ mr.get 0 = '(' ∨ mr = "-" ∨ mr = "+" then mr
  else
    let mr := if mr.get 0 = '[' then mr.drop 1 else mr
    "(" ++ mr

/-- The method `mr.IsValid()` -/
def MemberRange.IsValid (mr : MemberRange) : Bool :=
  if mr = "" then false
  else if mr = "+" ∨ mr = "-" then true
  else if mr.get 0 ≠ '[' ∧ mr.get 0 ≠ '(' then false
  else true

/-! ## options.go: the options of ZINTERSTORE and ZUNIONSTORE -/

/-- The type `StoreOption{t, opt}`: the zero value, weights with their `[]float64`, or an
aggregate with its name. -/
inductive StoreOption
  | storeOptionInvalid
  | storeOptionWeights (weights : List Float64)
  | storeOptionAggregate (aggregate : String)
deriving DecidableEq

/-- The function `Weights(weights...)` -/
def Weights (weights : List Float64) : StoreOption := .storeOptionWeights weights

/-- The function `AggregateSum()` -/
def AggregateSum : StoreOption := .storeOptionAggregate "SUM"

/-- The function `AggregateMin()` -/
def AggregateMin : StoreOption := .storeOptionAggregate "MIN"

/-- The function `AggregateMax()` -/
def AggregateMax : StoreOption := .storeOptionAggregate "MAX"

/-- The type `redis.ZStore` of go-redis. -/
structure ZStore where
  Weights : List Float64
  Aggregate : String
deriving DecidableEq

/-- The method `so.fillZStore(zstore)`, giving the store it leaves. -/
def StoreOption.fillZStore (so : StoreOption) (zstore : ZStore) : ZStore :=
  match so with
  | .storeOptionWeights weights => { zstore with Weights := weights }
  | .storeOptionAggregate aggregate => { zstore with Aggregate := aggregate }
  | .storeOptionInvalid => zstore

/-- The arguments `zstore, keys...` of `client.ZInterStore` and `client.ZUnionStore` after
`dst`: the store field by field, then the keys. -/
def ZStore.args (zstore : ZStore) (keys : List String) : List GoValue :=
  [.interfaces (zstore.Weights.map GoValue.float64), .string zstore.Aggregate] ++
    keys.map GoValue.string

/-! ## The typed commands that go through a typed method -/

/-- The body shared by the typed commands of the form
`err = r.do(cmd, func(client driver.Client) error { v, err = mustBe(client, client.Method(args...)); return err }); return`,
with `zero` the zero value of the result `v`: the results `v` and `err`, the calls made
to the client, and the steps of `do`. -/
def redisImpl.doMethod {α : Type} (r : redisImpl) (cmd : String)
    (mustBe : Cmdable → Cmder → Except Error (α × Option Error)) (exec : Driver) (call : Call)
    (zero : α) : α × Option Error × List Call × List Event :=
  let (((v, _), calls), err, steps) := r.do_ cmd (methodFn mustBe exec call) ((zero, none), [])
  (v, err, calls, steps)

/-- The method `r.TTL(key)` of generic.go. -/
def redisImpl.TTL (intSize : Nat) (exec : Driver) (r : redisImpl) (key : String) :
    Duration × Option Error × List Call × List Event :=
  r.doMethod "TTL" (mustBeDuration intSize) exec { method := "TTL", args := [.string key] } 0

/-- The method `r.Del(keys...)` of generic.go. -/
def redisImpl.Del (intSize : Nat) (exec : Driver) (r : redisImpl) (keys : List String) :
    Int × Option Error × List Call × List Event :=
  if keys.length = 0 then (0, none, [], [])
  else
    r.doMethod "DEL" (mustBeInt intSize) exec
      { method := "Del", args := keys.map GoValue.string } 0

/-- The method `r.Exists(keys...)` of generic.go. -/
def redisImpl.Exists (intSize : Nat) (exec : Driver) (r : redisImpl) (keys : List String) :
    Int × Option Error × List Call × List Event :=
  if keys.length = 0 then (0, none, [], [])
  else
    r.doMethod "EXISTS" (mustBeInt intSize) exec
      { method := "Exists", args := keys.map GoValue.string } 0

/-- The method `r.Touch(keys...)` of generic.go. -/
def redisImpl.Touch (intSize : Nat) (exec : Driver) (r : redisImpl) (keys : List String) :
    Int × Option Error × List Call × List Event :=
  if keys.length = 0 then (0, none, [], [])
  else
    r.doMethod "TOUCH" (mustBeInt intSize) exec
      { method := "Touch", args := keys.map GoValue.string } 0

/-- The method `r.Unlink(keys...)` of generic.go. -/
def redisImpl.Unlink (intSize : Nat) (exec : Driver) (r : redisImpl) (keys : List String) :
    Int × Option Error × List Call × List Event :=
  if keys.length = 0 then (0, none, [], [])
  else
    r.doMethod "UNLINK" (mustBeInt intSize) exec
      { method := "Unlink", args := keys.map GoValue.string } 0

/-- The method `r.HDel(key, fields...)` of hashes.go. -/
def redisImpl.HDel (intSize : Nat) (exec : Driver) (r : redisImpl) (key : String)
    (fields : List String) : Int × Option Error × List Call × List Event :=
  if fields.length = 0 then (0, none, [], [])
  else
    r.doMethod "HDEL" (mustBeInt intSize) exec
      { method := "HDel", args := .string key :: fields.map GoValue.string } 0

/-- The method `r.HMGet(key, fields...)` of hashes.go. -/
def redisImpl.HMGet (intSize : Nat) (exec : Driver) (r : redisImpl) (key : String)
    (fields : List String) : List BulkString × Option Error × List Call × List Event :=
  if fields.length = 0 then ([], none, [], [])
  else
    r.doMethod "HMGET" (mustBeBulkStrings intSize) exec
      { method := "HMGet", args := .string key :: fields.map GoValue.string } []

/-- The method `r.HMSet(key, fieldAndValues...)` of hashes.go; the map `fields` is passed
by its entries. -/
def redisImpl.HMSet (intSize : Nat) (exec : Driver) (r : redisImpl) (key : String)
    (fieldAndValues : List KeyAndValue) : Option Error × List Call × List Event :=
  if fieldAndValues.length = 0 then (none, [], [])
  else
    let fields := fieldAndValues.foldl (fun fields fv => mapAssign fields fv.Key fv.Value) []
    (r.doMethod "HMSET" (mustBeStatus intSize) exec
      { method := "HMSet", args := [.string key, .mapStringString fields] } "").2

/-- The method `r.MGet(keys...)` of strings.go. -/
def redisImpl.MGet (intSize : Nat) (exec : Driver) (r : redisImpl) (keys : List String) :
    List BulkString × Option Error × List Call × List Event :=
  if keys.length = 0 then ([], none, [], [])
  else
    r.doMethod "MGET" (mustBeBulkStrings intSize) exec
      { method := "MGet", args := keys.map GoValue.string } []

/-- The method `r.MSet(kvs...)` of strings.go. -/
def redisImpl.MSet (intSize : Nat) (exec : Driver) (r : redisImpl) (kvs : List KeyAndValue) :
    Option Error × List Call × List Event :=
  if kvs.length = 0 then (none, [], [])
  else
    let values := kvs.foldl (fun values kv => values ++ [.string kv.Key, .string kv.Value]) []
    (r.doMethod "MSET" (mustBeStatus intSize) exec { method := "MSet", args := values } "").2

/-- The method `r.MSetNX(kvs...)` of strings.go. -/
def redisImpl.MSetNX (intSize : Nat) (exec : Driver) (r : redisImpl) (kvs : List KeyAndValue) :
    Bool × Option Error × List Call × List Event :=
  if kvs.length = 0 then (false, none, [], [])
  else
    let values := kvs.foldl (fun values kv => values ++ [.string kv.Key, .string kv.Value]) []
    r.doMethod "MSETNX" (mustBeBool intSize) exec { method := "MSetNX", args := values } false

/-- The method `r.LPush(key, values...)` of lists.go. -/
def redisImpl.LPush (intSize : Nat) (exec : Driver) (r : redisImpl) (key : String)
    (values : List String) : Int × Option Error × List Call × List Event :=
  if values.length = 0 then (0, none, [], [])
  else
    let data := values.foldl (fun data v => data ++ [GoValue.string v]) []
    r.doMethod "LPUSH" (mustBeInt intSize) exec
      { method := "LPush", args := .string key :: data } 0

/-- The method `r.LPushX(key, value)` of lists.go. -/
def redisImpl.LPushX (intSize : Nat) (exec : Driver) (r : redisImpl) (key value : String) :
    Int × Option Error × List Call × List Event :=
  r.doMethod "LPUSH" (mustBeInt intSize) exec
    { method := "LPush", args := [.string key, .string value] } 0

/-- The method `r.RPush(key, values...)` of lists.go. -/
def redisImpl.RPush (intSize : Nat) (exec : Driver) (r : redisImpl) (key : String)
    (values : List String) : Int × Option Error × List Call × List Event :=
  if values.length = 0 then (0, none, [], [])
  else
    let data := values.foldl (fun data v => data ++ [GoValue.string v]) []
    r.doMethod "RPUSH" (mustBeInt intSize) exec
      { method := "RPush", args := .string key :: data } 0

/-- The method `r.RPushX(key, value)` of lists.go. -/
def redisImpl.RPushX (intSize : Nat) (exec : Driver) (r : redisImpl) (key value : String) :
    Int × Option Error × List Call × List Event :=
  r.doMethod "RPUSHX" (mustBeInt intSize) exec
    { method := "RPushX", args := [.string key, .string value] } 0

/-- The method `r.SAdd(key, members...)` of sets.go. -/
def redisImpl.SAdd (intSize : Nat) (exec : Driver) (r : redisImpl) (key : String)
    (members : List String) : Int × Option Error × List Call × List Event :=
  if members.length = 0 then (0, none, [], [])
  else
    let data := members.foldl (fun data m => data ++ [GoValue.string m]) []
    r.doMethod "SADD" (mustBeInt intSize) exec
      { method := "SAdd", args := .string key :: data } 0

/-- The method `r.SRem(key, members...)` of sets.go. -/
def redisImpl.SRem (intSize : Nat) (exec : Driver) (r : redisImpl) (key : String)
    (members : List String) : Int × Option Error × List Call × List Event :=
  if members.length = 0 then (0, none, [], [])
  else
    let data := members.foldl (fun data m => data ++ [GoValue.string m]) []
    r.doMethod "SREM" (mustBeInt intSize) exec
      { method := "SRem", args := .string key :: data } 0

/-- The method `r.SDiff(keys...)` of sets.go. -/
def redisImpl.SDiff (intSize : Nat) (exec : Driver) (r : redisImpl) (keys : List String) :
    List BulkString × Option Error × List Call × List Event :=
  if keys.length = 0 then ([], none, [], [])
  else
    r.doMethod "SDIFF" (mustBeBulkStrings intSize) exec
      { method := "SDiff", args := keys.map GoValue.string } []

/-- The method `r.SDiffStore(dst, keys...)` of sets.go. -/
def redisImpl.SDiffStore (intSize : Nat) (exec : Driver) (r : redisImpl) (dst : String)
    (keys : List String) : Int × Option Error × List Call × List Event :=
  if keys.length = 0 then (0, none, [], [])
  else
    r.doMethod "SDIFFSTORE" (mustBeInt intSize) exec
      { method := "SDiffStore", args := .string dst :: keys.map GoValue.string } 0

/-- The method `r.SInter(keys...)` of sets.go. -/
def redisImpl.SInter (intSize : Nat) (exec : Driver) (r : redisImpl) (keys : List String) :
    List BulkString × Option Error × List Call × List Event :=
  if keys.length = 0 then ([], none, [], [])
  else
    r.doMethod "SINTER" (mustBeBulkStrings intSize) exec
      { method := "SInter", args := keys.map GoValue.string } []

/-- The method `r.SInterStore(dst, keys...)` of sets.go. -/
def redisImpl.SInterStore (intSize : Nat) (exec : Driver) (r : redisImpl) (dst : String)
    (keys : List String) : Int × Option Error × List Call × List Event :=
  if keys.length = 0 then (0, none, [], [])
  else
    r.doMethod "SINTERSTORE" (mustBeInt intSize) exec
      { method := "SInterStore", args := .string dst :: keys.map GoValue.string } 0

/-- The method `r.SUnion(keys...)` of sets.go. -/
def redisImpl.SUnion (intSize : Nat) (exec : Driver) (r : redisImpl) (keys : List String) :
    List BulkString × Option Error × List Call × List Event :=
  if keys.length = 0 then ([], none, [], [])
  else
    r.doMethod "SUNION" (mustBeBulkStrings intSize) exec
      { method := "SUnion", args := keys.map GoValue.string } []

/-- The method `r.SUnionStore(dst, keys...)` of sets.go. -/
def redisImpl.SUnionStore (intSize : Nat) (exec : Driver) (r : redisImpl) (dst : String)
    (keys : List String) : Int × Option Error × List Call × List Event :=
  if keys.length = 0 then (0, none, [], [])
  else
    r.doMethod "SUNIONSTORE" (mustBeInt intSize) exec
      { method := "SUnionStore", args := .string dst :: keys.map GoValue.string } 0

/-- The method `r.ZAdd(key, mss...)` of sortedsets.go. -/
def redisImpl.ZAdd (intSize : Nat) (exec : Driver) (r : redisImpl) (key : String)
    (mss : List MemberAndScore) : Int × Option Error × List Call × List Event :=
  if mss.length = 0 then (0, none, [], [])
  else
    let zs : List Z := mss.foldl (fun zs ms => zs ++ [{ Member := ms.Member, Score := ms.Score }]) []
    r.doMethod "ZADD" (mustBeInt intSize) exec
      { method := "ZAdd", args := .string key :: zs.map GoValue.z } 0

/-- The method `r.ZRem(key, members...)` of sortedsets.go. -/
def redisImpl.ZRem (intSize : Nat) (exec : Driver) (r : redisImpl) (key : String)
    (members : List String) : Int × Option Error × List Call × List Event :=
  if members.length = 0 then (0, none, [], [])
  else
    let data := members.foldl (fun data m => data ++ [GoValue.string m]) []
    r.doMethod "ZREM" (mustBeInt intSize) exec
      { method := "ZRem", args := .string key :: data } 0

/-- The method `r.ZInterStore(dst, keys, options...)` of sortedsets.go. -/
def redisImpl.ZInterStore (intSize : Nat) (exec : Driver) (r : redisImpl) (dst : String)
    (keys : List String) (options : List StoreOption) :
    Int × Option Error × List Call × List Event :=
  if keys.length = 0 then (0, none, [], [])
  else
    let zstore := options.foldl (fun zstore opt => opt.fillZStore zstore)
      { Weights := [], Aggregate := "" }
    r.doMethod "ZINTERSTORE" (mustBeInt intSize) exec
      { method := "ZInterStore", args := .string dst :: zstore.args keys } 0

/-- The method `r.ZUnionStore(dst, keys, options...)` of sortedsets.go. -/
def redisImpl.ZUnionStore (intSize : Nat) (exec : Driver) (r : redisImpl) (dst : String)
    (keys : List String) (options : List StoreOption) :
    Int × Option Error × List Call × List Event :=
  if keys.length = 0 then (0, none, [], [])
  else
    let zstore := options.foldl (fun zstore opt => opt.fillZStore zstore)
      { Weights := [], Aggregate := "" }
    r.doMethod "ZUNIONSTORE" (mustBeInt intSize) exec
      { method := "ZUnionStore", args := .string dst :: zstore.args keys } 0

/-! ## config.go and factory.go -/

/-- The constant `DefaultDialTimeout`. -/
def DefaultDialTimeout : Duration := 5 * Second

/-- The constant `DefaultReadTimeout`. -/
def DefaultReadTimeout : Duration := 3 * Second

/-- The constant `DefaultWriteTimeout`. -/
def DefaultWriteTimeout : Duration := 3 * Second

/-- The type `ClientConfig`. -/
structure ClientConfig where
  Addr : String
  Password : String
  DB : Int
  DialTimeout : Duration
  ReadTimeout : Duration
  WriteTimeout : Duration
  PoolSize : Int
deriving DecidableEq

/-- The type `ClusterConfig`. -/
structure ClusterConfig where
  Addrs : List String
  Password : String
  DialTimeout : Duration
  ReadTimeout : Duration
  WriteTimeout : Duration
  PoolSize : Int
deriving DecidableEq

/-- The type `FailoverConfig`. -/
structure FailoverConfig where
  MasterName : String
  SentinelAddrs : List String
  Password : String
  DialTimeout : Duration
  ReadTimeout : Duration
  WriteTimeout : Duration
  PoolSize : Int
deriving DecidableEq

/-- The type `Config`: each of the three pointers is nil or set. -/
structure Config where
  Client : Option ClientConfig
  Cluster : Option ClusterConfig
  Failover : Option FailoverConfig
deriving DecidableEq

/-- The fields of `redis.Options` that `newClientFromClientConfig` sets. -/
structure Options where
  Addr : String
  Password : String
  DB : Int
  DialTimeout : Duration
  ReadTimeout : Duration
  WriteTimeout : Duration
  PoolSize : Int
deriving DecidableEq

/-- The fields of `redis.ClusterOptions` that `newClientFromClusterConfig` sets. -/
structure ClusterOptions where
  Addrs : List String
  Password : String
  DialTimeout : Duration
  ReadTimeout : Duration
  WriteTimeout : Duration
  PoolSize : Int
deriving DecidableEq

/-- The fields of `redis.FailoverOptions` that `newClientFromFailoverConfig` sets. -/
structure FailoverOptions where
  MasterName : String
  SentinelAddrs : List String
  Password : String
  DialTimeout : Duration
  ReadTimeout : Duration
  WriteTimeout : Duration
  PoolSize : Int
deriving DecidableEq

/-- A non-nil `driver.Client` as a factory builds it: the constructor of go-redis that
was called, with its options. -/
inductive DriverClient
  | NewClient (opt : Options)
  | NewClusterClient (opt : ClusterOptions)
  | NewFailoverClient (opt : FailoverOptions)
deriving DecidableEq

/-- The function `newClientFromClientConfig(c)` -/
def newClientFromClientConfig (c : ClientConfig) : DriverClient :=
  let dialTimeout := if c.DialTimeout = 0 then DefaultDialTimeout else c.DialTimeout
  let readTimeout := if c.ReadTimeout = 0 then DefaultReadTimeout else c.ReadTimeout
  let writeTimeout := if c.WriteTimeout = 0 then DefaultWriteTimeout else c.WriteTimeout
  .NewClient
    { Addr := c.Addr, Password := c.Password, DB := c.DB, DialTimeout := dialTimeout,
      ReadTimeout := readTimeout, WriteTimeout := writeTimeout, PoolSize := c.PoolSize }

/-- The function `newClientFromClusterConfig(c)` -/
def newClientFromClusterConfig (c : ClusterConfig) : DriverClient :=
  let dialTimeout := if c.DialTimeout = 0 then DefaultDialTimeout else c.DialTimeout
  let readTimeout := if c.ReadTimeout = 0 then DefaultReadTimeout else c.ReadTimeout
  let writeTimeout := if c.WriteTimeout = 0 then DefaultWriteTimeout else c.WriteTimeout
  .NewClusterClient
    { Addrs := c.Addrs, Password := c.Password, DialTimeout := dialTimeout,
      ReadTimeout := readTimeout, WriteTimeout := writeTimeout, PoolSize := c.PoolSize }

/-- The function `newClientFromFailoverConfig(c)` -/
def newClientFromFailoverConfig (c : FailoverConfig) : DriverClient :=
  let dialTimeout := if c.DialTimeout = 0 then DefaultDialTimeout else c.DialTimeout
  let readTimeout := if c.ReadTimeout = 0 then DefaultReadTimeout else c.ReadTimeout
  let writeTimeout := if c.WriteTimeout = 0 then DefaultWriteTimeout else c.WriteTimeout
  .NewFailoverClient
    { MasterName := c.MasterName, SentinelAddrs := c.SentinelAddrs, Password := c.Password,
      DialTimeout := dialTimeout, ReadTimeout := readTimeout, WriteTimeout := writeTimeout,
      PoolSize := c.PoolSize }

/-- The type `Factory`; `client` is `none` for the nil interface. -/
structure Factory where
  unavailable : Bool
  addrs : List String
  client : Option DriverClient
  tested : Bool
deriving DecidableEq

/-- The function `NewFactory(config)` -/
def NewFactory (config : Config) : Factory :=
  match config.Client, config.Cluster with
  | some c, _ =>
      { unavailable := false, addrs := [c.Addr], client := some (newClientFromClientConfig c),
        tested := false }
  | none, some c =>
      { unavailable := false, addrs := c.Addrs, client := some (newClientFromClusterConfig c),
        tested := false }
  | none, none => { unavailable := false, addrs := [], client := none, tested := false }

/-- The method `f.Conn(ctx)`, giving the factory it leaves and its error; `ping` is what
`client.Ping().Err()` returns for a client. -/
def Factory.Conn (ping : DriverClient → Option Error) (f : Factory) : Factory × Option Error :=
  if f.unavailable then
    (f, some (.plain (.other "go-redis: factory is not initialized")))
  else
    match f.client with
    | none => (f, some (.plain (.other "go-redis: factory is not initialized")))
    | some client =>
        if (ping client).isSome then
          (f, some (.plain (.other "go-redis: fail to connect Redis")))
        else
          ({ f with tested := true }, none)

/-! ## Words of the specification -/

/-- A duration in nanoseconds rounded to the nearest millisecond, halves rounded away from
zero, in milliseconds: the description of the `PX` argument, not code of the
repository. -/
def nearestMillisecond (d : Int) : Int :=
  if 0 ≤ d then (d + 500000) / 1000000 else -((-d + 500000) / 1000000)

/-! # Theorems -/

/-! ## Lemmas: results and panics -/

@[simp] theorem bind_ok {ε α β : Type} (a : α) (f : α → Except ε β) :
    (Except.ok a >>= f) = f a := rfl

@[simp] theorem bind_error {ε α β : Type} (p : ε) (f : α → Except ε β) :
    ((Except.error p : Except ε α) >>= f) = Except.error p := rfl

theorem bind_eq_ok_iff {ε α β : Type} (x : Except ε α) (f : α → Except ε β) (b : β) :
    (x >>= f) = .ok b ↔ ∃ a, x = .ok a ∧ f a = .ok b := by
  cases x with
  | error p => simp
  | ok a => simp

@[simp] theorem map_ok {ε α β : Type} (f : α → β) (a : α) :
    (Except.ok a : Except ε α).map f = .ok (f a) := rfl

@[simp] theorem map_error {ε α β : Type} (f : α → β) (p : ε) :
    (Except.error p : Except ε α).map f = .error p := rfl

/-! ## Lemmas: MakeMultiValue and parseCmder, case by case -/

theorem FutureMultiValue.MultiValue_eq (intSize : Nat) (fmv : FutureMultiValue) :
    FutureMultiValue.MultiValue intSize fmv = (parseCmder intSize fmv.cmder).map Prod.fst := by
  rw [FutureMultiValue.MultiValue]
  cases parseCmder intSize fmv.cmder <;> rfl

theorem MakeMultiValue_futureMultiValue (intSize : Nat) (cmder : Cmder) :
    MakeMultiValue intSize (.futureMultiValue cmder) =
      FutureMultiValue.MultiValue intSize { cmder := cmder } := by
  rw [MakeMultiValue]

@[simp] theorem MakeMultiValue_error (intSize : Nat) (e : GoError) :
    MakeMultiValue intSize (.error e) = .ok (.error e) := by
  rw [MakeMultiValue]

@[simp] theorem MakeMultiValue_bytes_none (intSize : Nat) :
    MakeMultiValue intSize (.bytes none) = .ok (.bulkString Null) := by
  rw [MakeMultiValue]

@[simp] theorem MakeMultiValue_bytes_some (intSize : Nat) (p : String) :
    MakeMultiValue intSize (.bytes (some p)) = .ok (.bulkString (MakeBulkString p)) := by
  rw [MakeMultiValue]

@[simp] theorem MakeMultiValue_string (intSize : Nat) (s : String) :
    MakeMultiValue intSize (.string s) = .ok (.string s) := by
  rw [MakeMultiValue]

@[simp] theorem MakeMultiValue_bulkString (intSize : Nat) (bs : BulkString) :
    MakeMultiValue intSize (.bulkString bs) = .ok (.bulkString bs) := by
  rw [MakeMultiValue]

@[simp] theorem MakeMultiValue_bool (intSize : Nat) (b : Bool) :
    MakeMultiValue intSize (.bool b) = .ok (.bool b) := by
  rw [MakeMultiValue]

@[simp] theorem MakeMultiValue_int64 (intSize : Nat) (n : Int) :
    MakeMultiValue intSize (.int64 n) = .ok (.int64 n) := by
  rw [MakeMultiValue]

@[simp] theorem MakeMultiValue_float64 (intSize : Nat) (x : Float64) :
    MakeMultiValue intSize (.float64 x) = .ok (.float64 x) := by
  rw [MakeMultiValue]

@[simp] theorem MakeMultiValue_multiValue (intSize : Nat) (mv : MultiValue) :
    MakeMultiValue intSize (.multiValue mv) = .ok mv := by
  rw [MakeMultiValue]

theorem parseCmder_redisNil (intSize : Nat) (reply : Reply) :
    parseCmder intSize (.mk reply (some (.plain .redisNil))) =
      .ok (match reply with
        | .StringCmd _ => .bulkString Null
        | _ => .nil, none) := by
  cases reply <;> simp [parseCmder]

theorem parseCmder_plain (intSize : Nat) (reply : Reply) (e : GoError) (h : e ≠ .redisNil) :
    parseCmder intSize (.mk reply (some (.plain e))) = .ok (.error e, none) := by
  rw [parseCmder]
  · simp [Error.toValue]
  · intro h1
    cases h1
    exact h rfl

theorem parseCmder_IntCmd (intSize : Nat) (val : Int) :
    parseCmder intSize (.mk (.IntCmd val) none) = .ok (.int64 val, none) := by
  simp [parseCmder]

theorem parseCmder_StringCmd (intSize : Nat) (val : String) :
    parseCmder intSize (.mk (.StringCmd val) none) =
      .ok (.bulkString (MakeBulkString val), none) := by
  simp [parseCmder]

/-- When `parseCmder` returns an error, the error is `ErrNotImplemented` and the value is
the zero `MultiValue`. -/
theorem parseCmder_err (intSize : Nat) (cmder : Cmder) (mv : MultiValue) (e : Error)
    (h : parseCmder intSize cmder = .ok (mv, some e)) :
    e = .plain .ErrNotImplemented ∧ mv = .nil := by
  unfold parseCmder at h
  split at h
  · split at h <;> simp [bind_eq_ok_iff] at h
  all_goals simp [bind_eq_ok_iff] at h
  all_goals exact ⟨h.2.symm, h.1.symm⟩

/-! ## Lemmas: the loops of parsePipelinedReply -/

/-- The second loop appends one value per command; where `parseCmder` gave a value and
no error, that value is appended as it is. -/
theorem parsePipelinedReply.loop_spec (intSize : Nat) (cmders : List Cmder)
    (hret : ∀ c ∈ cmders, ∃ r, parseCmder intSize c = .ok r) :
    ∀ (err : Option Error) (mvs : List MultiValue),
      ∃ err1 out, parsePipelinedReply.loop intSize cmders err mvs = .ok (err1, mvs ++ out) ∧
        out.length = cmders.length ∧
        ∀ (i : Nat) (hi : i < cmders.length) (mv : MultiValue),
          parseCmder intSize cmders[i] = .ok (mv, none) → out[i]? = some mv := by
  induction cmders with
  | nil =>
    intro err mvs
    exact ⟨err, [], by simp [parsePipelinedReply.loop], rfl, by simp⟩
  | cons c rest ih =>
    intro err mvs
    have hrest : ∀ c ∈ rest, ∃ r, parseCmder intSize c = .ok r :=
      fun c hc => hret c (List.mem_cons_of_mem _ hc)
    obtain ⟨⟨mv0, e0⟩, hc⟩ := hret c (List.mem_cons_self _ _)
    by_cases hcond : (e0.isSome && err.isSome) = true
    · obtain ⟨e1, he1⟩ : ∃ e1, e0 = some e1 := by
        cases e0 with
        | none => simp at hcond
        | some e1 => exact ⟨e1, rfl⟩
      subst he1
      obtain ⟨he, _⟩ := parseCmder_err intSize c mv0 e1 hc
      subst he
      obtain ⟨err1, out, hloop, hlen, hget⟩ :=
        ih hrest (some (.plain .ErrNotImplemented)) (mvs ++ [.error .ErrNotImplemented])
      refine ⟨err1, .error .ErrNotImplemented :: out, ?_, by simp [hlen], ?_⟩
      · rw [parsePipelinedReply.loop, hc]
        simp only [bind_ok, hcond, if_true, Error.toValue, MakeMultiValue_error, hloop,
          List.append_assoc, List.singleton_append]
      · intro i hi mv hmv
        cases i with
        | zero => simp [hc] at hmv
        | succ j => simpa using hget j (by simpa using hi) mv (by simpa using hmv)
    · obtain ⟨err1, out, hloop, hlen, hget⟩ := ih hrest err (mvs ++ [mv0])
      refine ⟨err1, mv0 :: out, ?_, by simp [hlen], ?_⟩
      · rw [parsePipelinedReply.loop, hc]
        simp only [bind_ok, hcond, hloop, List.append_assoc, List.singleton_append]
        rfl
      · intro i hi mv hmv
        cases i with
        | zero =>
          have : mv0 = mv := by simpa [hc] using congrArg (Except.map Prod.fst) hmv
          simp [this]
        | succ j => simpa using hget j (by simpa using hi) mv (by simpa using hmv)

/-! ## Claims -/

/-- C1 (the code at the failing input). A batch of one command whose own error is the
non-sentinel error "ERR value is not an integer", executed with the sentinel as its
top-level error: the scan of `parsePipelinedReply` finds that error, the value list
holds it as an Error value, and yet the overall error that is returned is nil. -/
theorem parsePipelinedReply_sentinel_returns_nil_error :
    parsePipelinedReply.scan
        [.mk (.IntCmd 0) (some (.plain (.other "ERR value is not an integer")))] =
      some (.plain (.other "ERR value is not an integer")) ∧
    parsePipelinedReply 64
        [.mk (.IntCmd 0) (some (.plain (.other "ERR value is not an integer")))]
        (some (.plain .redisNil)) =
      .ok ([.error (.other "ERR value is not an integer")], none) := by
  constructor
  · simp [parsePipelinedReply.scan, Cmder.Err, isRedisNil]
  · have hc : parseCmder 64
        (.mk (.IntCmd 0) (some (.plain (.other "ERR value is not an integer")))) =
        .ok (.error (.other "ERR value is not an integer"), none) :=
      parseCmder_plain 64 _ _ (by decide)
    simp [parsePipelinedReply, parsePipelinedReply.loop, parsePipelinedReply.scan, Cmder.Err,
      isRedisNil, hc]

/-- C2, amended. For a top-level error that is nil or `redis.Nil`, and commands none of
whose parse panics, `parsePipelinedReply` returns one value per command, in the order of
the commands; at every index where `parseCmder` gives a value and no error, the value
returned is that value. The batch `[IntCmd 1, StringCmd "1"]` gives the values
`[int64 1, bulk string "1"]`. -/
theorem parsePipelinedReply_values (intSize : Nat) (cmders : List Cmder) (err : Option Error)
    (herr : err = none ∨ isRedisNil err = true)
    (hret : ∀ c ∈ cmders, ∃ r, parseCmder intSize c = .ok r) :
    (∃ mvs err1, parsePipelinedReply intSize cmders err = .ok (mvs, err1) ∧
      mvs.length = cmders.length ∧
      ∀ (i : Nat) (hi : i < cmders.length) (mv : MultiValue),
        parseCmder intSize cmders[i] = .ok (mv, none) → mvs[i]? = some mv) ∧
    (parsePipelinedReply intSize [.mk (.IntCmd 1) none, .mk (.StringCmd "1") none] err).map
        Prod.fst =
      .ok [.int64 1, .bulkString (MakeBulkString "1")] := by
  have hguard : (err.isSome && !isRedisNil err) = false := by
    rcases herr with h | h
    · simp [h]
    · simp [h]
  constructor
  · obtain ⟨err1, out, hloop, hlen, hget⟩ :=
      parsePipelinedReply.loop_spec intSize cmders hret
        (if isRedisNil err then parsePipelinedReply.scan cmders else err) []
    refine ⟨out, none, ?_, hlen, hget⟩
    unfold parsePipelinedReply
    simp only [hguard]
    simp [hloop]
  · unfold parsePipelinedReply
    simp only [hguard]
    rcases herr with h | h
    · simp [h, isRedisNil, parsePipelinedReply.loop, parseCmder_IntCmd, parseCmder_StringCmd,
        Except.map]
    · simp [h, parsePipelinedReply.scan, Cmder.Err, isRedisNil, parsePipelinedReply.loop,
        parseCmder_IntCmd, parseCmder_StringCmd, Except.map]

/-- C2, amended, at the batch `[IntCmd 1, StringCmd "1"]` under the sentinel. -/
theorem parsePipelinedReply_values_witness :
    (∃ mvs err1, parsePipelinedReply 64 [.mk (.IntCmd 1) none, .mk (.StringCmd "1") none]
        (some (.plain .redisNil)) = .ok (mvs, err1) ∧
      mvs.length = [Cmder.mk (.IntCmd 1) none, .mk (.StringCmd "1") none].length ∧
      ∀ (i : Nat) (hi : i < [Cmder.mk (.IntCmd 1) none, .mk (.StringCmd "1") none].length)
        (mv : MultiValue),
        parseCmder 64 [Cmder.mk (.IntCmd 1) none, .mk (.StringCmd "1") none][i] = .ok (mv, none) →
          mvs[i]? = some mv) ∧
    (parsePipelinedReply 64 [.mk (.IntCmd 1) none, .mk (.StringCmd "1") none]
        (some (.plain .redisNil))).map Prod.fst =
      .ok [.int64 1, .bulkString (MakeBulkString "1")] :=
  parsePipelinedReply_values 64 [.mk (.IntCmd 1) none, .mk (.StringCmd "1") none]
    (some (.plain .redisNil)) (Or.inr rfl)
    (by
      intro c hc
      simp only [List.mem_cons, List.mem_singleton, List.mem_nil_iff, or_false] at hc
      rcases hc with h | h
      · exact ⟨_, h ▸ parseCmder_IntCmd 64 1⟩
      · exact ⟨_, h ▸ parseCmder_StringCmd 64 "1"⟩)

/-- C2, as stated, fails: a batch of one generic command whose value is a
`redis.ClusterSlot` makes `MakeMultiValue` panic with `ErrNotImplemented` inside
`parseCmder`, so `parsePipelinedReply` returns no value list at all. -/
theorem parsePipelinedReply_panics_on_unsupported_value :
    parsePipelinedReply 64 [.mk (.Cmd (.clusterSlot { Start := 0, End := 0 })) none] none =
      .error (.plain .ErrNotImplemented) := by
  simp [parsePipelinedReply, isRedisNil, parsePipelinedReply.loop, parseCmder, MakeMultiValue]

/-- C3, as stated, fails: normalizing the nil byte buffer gives a value whose `IsNil()`
is false. -/
theorem MakeMultiValue_nil_bytes_not_IsNil :
    (MakeMultiValue 64 (.bytes none)).map MultiValue.IsNil = .ok false := by
  simp [MultiValue.IsNil]

/-- C3, amended. Normalizing the nil byte buffer gives the value that holds the null
`BulkString`: `IsNil()` is false, and `BulkString()` returns a bulk string whose
`IsNull()` is true, with `ok` true. -/
theorem MakeMultiValue_nil_bytes (intSize : Nat) :
    MakeMultiValue intSize (.bytes none) = .ok (.bulkString Null) ∧
    (MultiValue.bulkString Null).IsNil = false ∧
    (MultiValue.bulkString Null).BulkString = (Null, true) ∧
    Null.IsNull = true := by
  refine ⟨MakeMultiValue_bytes_none intSize, rfl, rfl, rfl⟩

/-- C4, as stated, fails: for a string command whose error is `redis.Nil`, the value that
`parseCmder` returns has `IsNil()` false. -/
theorem parseCmder_redisNil_StringCmd_not_IsNil :
    (parseCmder 64 (.mk (.StringCmd "") (some (.plain .redisNil)))).map
      (fun r => (r.1.IsNil, r.1.IsErr)) = .ok (false, false) := by
  simp [parseCmder_redisNil, MultiValue.IsNil, MultiValue.IsErr]

/-- C4, amended. For a command of any kind whose error is `redis.Nil`, `parseCmder`
returns a nil error and a value that is not an error; the value is Nil for every kind
but the string command, for which it holds the null `BulkString` (`IsNil()` false,
`BulkString()` a null bulk string with `ok` true). -/
theorem parseCmder_redisNil_value (intSize : Nat) (reply : Reply) :
    ∃ mv, parseCmder intSize (.mk reply (some (.plain .redisNil))) = .ok (mv, none) ∧
      mv.IsErr = false ∧
      match reply with
      | .StringCmd _ =>
          mv = .bulkString Null ∧ mv.IsNil = false ∧ mv.BulkString = (Null, true)
      | _ => mv = .nil ∧ mv.IsNil = true := by
  refine ⟨_, parseCmder_redisNil intSize reply, ?_, ?_⟩ <;> cases reply <;>
    simp [MultiValue.IsErr, MultiValue.IsNil, MultiValue.BulkString]

/-- C5. Round trip of the scalars: an `int64` through `Int64()`, a `bool` through `Bool()`,
a `float64` through `Float64()`, a `string` through `Status()`, and a present byte
buffer through `BulkString()`, which gives a bulk string that is not null and whose
text is the buffer. -/
theorem MakeMultiValue_scalar_round_trip (intSize : Nat) (n : Int) (b : Bool) (x : Float64)
    (s p : String) :
    (MakeMultiValue intSize (.int64 n)).map MultiValue.Int64 = .ok (n, true) ∧
    (MakeMultiValue intSize (.bool b)).map MultiValue.Bool = .ok (b, true) ∧
    (MakeMultiValue intSize (.float64 x)).map MultiValue.Float64 = .ok (x, true) ∧
    (MakeMultiValue intSize (.string s)).map MultiValue.Status = .ok (s, true) ∧
    (MakeMultiValue intSize (.bytes (some p))).map MultiValue.BulkString =
      .ok (MakeBulkString p, true) ∧
    (MakeBulkString p).IsNull = false ∧
    (MakeBulkString p).String = p := by
  refine ⟨?_, ?_, ?_, ?_, ?_, rfl, rfl⟩ <;>
    simp [MultiValue.Int64, MultiValue.Bool, MultiValue.Float64, MultiValue.Status,
      MultiValue.BulkString]

/-- C6. No accessor coerces between integer and float, or between boolean and text: on
the value of an `int64`, `Float64()` refuses; on the value of a `float64`, `Int()`,
`Int64()` and `Bool()` refuse; on the value of a `bool`, `Status()` and `BulkString()`
refuse; on the value of a `string` or of a present byte buffer, `Bool()` refuses. Every
refusal returns the zero value with `ok` false. -/
theorem accessors_do_not_coerce (intSize : Nat) (n : Int) (b : Bool) (x : Float64)
    (s p : String) :
    (MakeMultiValue intSize (.int64 n)).map MultiValue.Float64 = .ok ({ bits := 0 }, false) ∧
    (MakeMultiValue intSize (.float64 x)).map (MultiValue.Int intSize) = .ok (0, false) ∧
    (MakeMultiValue intSize (.float64 x)).map MultiValue.Int64 = .ok (0, false) ∧
    (MakeMultiValue intSize (.float64 x)).map MultiValue.Bool = .ok (false, false) ∧
    (MakeMultiValue intSize (.bool b)).map MultiValue.Status = .ok ("", false) ∧
    (MakeMultiValue intSize (.bool b)).map MultiValue.BulkString =
      .ok ({ str := none }, false) ∧
    (MakeMultiValue intSize (.string s)).map MultiValue.Bool = .ok (false, false) ∧
    (MakeMultiValue intSize (.bytes (some p))).map MultiValue.Bool = .ok (false, false) := by
  refine ⟨?_, ?_, ?_, ?_, ?_, ?_, ?_, ?_⟩ <;>
    simp [MultiValue.Int, MultiValue.Int64, MultiValue.Bool, MultiValue.Float64,
      MultiValue.Status, MultiValue.BulkString]

/-- C7. On a value holding the status text `s`, `BulkString()` returns `ok` true and a
bulk string that is not null and whose `String()` is `s`. -/
theorem BulkString_of_status (s : String) :
    ((MultiValue.string s).BulkString).2 = true ∧
    ((MultiValue.string s).BulkString).1.IsNull = false ∧
    ((MultiValue.string s).BulkString).1.String = s :=
  ⟨rfl, rfl, rfl⟩

/-- C8. On a value for which `IsErr()` is true, every other accessor returns `ok` false,
and `Err()` returns the error that the value holds. -/
theorem accessors_of_error (intSize : Nat) (mv : MultiValue) (h : mv.IsErr = true) :
    (mv.Int intSize).2 = false ∧ mv.Int64.2 = false ∧ mv.Float64.2 = false ∧
    mv.Bool.2 = false ∧ mv.Status.2 = false ∧ mv.BulkString.2 = false ∧
    mv.MultiValues.2 = false ∧ mv.Time.2 = false ∧ mv.Duration.2 = false ∧
    mv.KeyAndValue.2 = false ∧ mv.MemberAndScore.2 = false ∧
    ∃ e, mv = .error e ∧ mv.Err = some (.plain e) := by
  cases mv <;> simp [MultiValue.IsErr] at h
  case error e =>
    exact ⟨rfl, rfl, rfl, rfl, rfl, rfl, rfl, rfl, rfl, rfl, rfl, e, rfl, rfl⟩

/-- C8, at the value that holds the error "ERR unknown command". -/
theorem accessors_of_error_witness :
    ((MultiValue.error (.other "ERR unknown command")).Int 64).2 = false ∧
    (MultiValue.error (.other "ERR unknown command")).Int64.2 = false ∧
    (MultiValue.error (.other "ERR unknown command")).Float64.2 = false ∧
    (MultiValue.error (.other "ERR unknown command")).Bool.2 = false ∧
    (MultiValue.error (.other "ERR unknown command")).Status.2 = false ∧
    (MultiValue.error (.other "ERR unknown command")).BulkString.2 = false ∧
    (MultiValue.error (.other "ERR unknown command")).MultiValues.2 = false ∧
    (MultiValue.error (.other "ERR unknown command")).Time.2 = false ∧
    (MultiValue.error (.other "ERR unknown command")).Duration.2 = false ∧
    (MultiValue.error (.other "ERR unknown command")).KeyAndValue.2 = false ∧
    (MultiValue.error (.other "ERR unknown command")).MemberAndScore.2 = false ∧
    ∃ e, MultiValue.error (.other "ERR unknown command") = .error e ∧
      (MultiValue.error (.other "ERR unknown command")).Err = some (.plain e) :=
  accessors_of_error 64 (.error (.other "ERR unknown command")) rfl

/-- C9. Resolving a `*FutureMultiValue` over the command `cmder` through `MakeMultiValue`,
whether it is held as an `error` or as an `interface{}`, is `fmv.MultiValue()`, which is
the value component of `parseCmder(cmder)` (a panic of the one being a panic of the
other). The resolution reads the command and nothing else, so resolving again gives the
same value; and normalizing the resolved value once more leaves it as it is. -/
theorem FutureMultiValue_resolution (intSize : Nat) (cmder : Cmder) :
    MakeMultiValue intSize (Error.toValue (some (.future cmder))) =
      FutureMultiValue.MultiValue intSize { cmder := cmder } ∧
    MakeMultiValue intSize (.futureMultiValue cmder) =
      FutureMultiValue.MultiValue intSize { cmder := cmder } ∧
    FutureMultiValue.MultiValue intSize { cmder := cmder } =
      (parseCmder intSize cmder).map Prod.fst ∧
    (MakeMultiValue intSize (.futureMultiValue cmder) >>= fun mv =>
        MakeMultiValue intSize (.multiValue mv)) =
      MakeMultiValue intSize (.futureMultiValue cmder) := by
  refine ⟨MakeMultiValue_futureMultiValue intSize cmder,
    MakeMultiValue_futureMultiValue intSize cmder,
    FutureMultiValue.MultiValue_eq intSize { cmder := cmder }, ?_⟩
  cases MakeMultiValue intSize (.futureMultiValue cmder) with
  | error p => rfl
  | ok mv => simp

/-- C10. On a client that is a pipeliner, every `mustBe` function returns the zero value
of its result type and, as its error, the `*FutureMultiValue` over the very command it
was given, whatever that command holds: nothing is parsed. -/
theorem mustBe_pipelined (intSize : Nat) (cmdable : Cmdable) (cmder : Cmder)
    (h : isPipelined cmdable = true) :
    mustBeMultiValue intSize cmdable cmder = .ok (.nil, some (.future cmder)) ∧
    mustBeBool intSize cmdable cmder = .ok (false, some (.future cmder)) ∧
    mustBeInt intSize cmdable cmder = .ok (0, some (.future cmder)) ∧
    mustBeIntOrNil intSize cmdable cmder = .ok (0, false, some (.future cmder)) ∧
    mustBeInt64 intSize cmdable cmder = .ok (0, some (.future cmder)) ∧
    mustBeFloat64 intSize cmdable cmder = .ok ({ bits := 0 }, some (.future cmder)) ∧
    mustBeStatus intSize cmdable cmder = .ok ("", some (.future cmder)) ∧
    mustBeBulkString intSize cmdable cmder = .ok ({ str := none }, some (.future cmder)) ∧
    mustBeMultiValues intSize cmdable cmder = .ok ([], some (.future cmder)) ∧
    mustBeTime intSize cmdable cmder = .ok ({ sec := 0, nsec := 0 }, some (.future cmder)) ∧
    mustBeDuration intSize cmdable cmder = .ok (0, some (.future cmder)) ∧
    mustBeKeyAndValue intSize cmdable cmder =
      .ok ({ Key := "", Value := "" }, some (.future cmder)) ∧
    mustBeMemberAndScore intSize cmdable cmder =
      .ok ({ Member := "", Score := { bits := 0 } }, some (.future cmder)) ∧
    mustBeBulkStrings intSize cmdable cmder = .ok ([], some (.future cmder)) ∧
    mustBeKeyAndValues intSize cmdable cmder = .ok ([], some (.future cmder)) ∧
    mustBeMemberAndScores intSize cmdable cmder = .ok ([], some (.future cmder)) := by
  have hmvs : mustBeMultiValues intSize cmdable cmder = .ok ([], some (.future cmder)) := by
    simp [mustBeMultiValues, h]
  refine ⟨?_, ?_, ?_, ?_, ?_, ?_, ?_, ?_, hmvs, ?_, ?_, ?_, ?_, ?_, ?_, ?_⟩
  · simp [mustBeMultiValue, h]
  · simp [mustBeBool, h]
  · simp [mustBeInt, h]
  · simp [mustBeIntOrNil, h]
  · simp [mustBeInt64, h]
  · simp [mustBeFloat64, h]
  · simp [mustBeStatus, h]
  · simp [mustBeBulkString, h]
  · simp [mustBeTime, h]
  · simp [mustBeDuration, h]
  · simp [mustBeKeyAndValue, h]
  · simp [mustBeMemberAndScore, h]
  · simp [mustBeBulkStrings, hmvs]
  · simp [mustBeKeyAndValues, hmvs]
  · simp [mustBeMemberAndScores, hmvs]

/-- C10, on a pipeline and a command that `parseCmder` would refuse: the cluster-slots
command, for which a parse returns `ErrNotImplemented`. -/
theorem mustBe_pipelined_witness :
    mustBeMultiValue 64 .Pipeline (.mk .ClusterSlotsCmd none) =
      .ok (.nil, some (.future (.mk .ClusterSlotsCmd none))) ∧
    mustBeBool 64 .Pipeline (.mk .ClusterSlotsCmd none) =
      .ok (false, some (.future (.mk .ClusterSlotsCmd none))) ∧
    mustBeInt 64 .Pipeline (.mk .ClusterSlotsCmd none) =
      .ok (0, some (.future (.mk .ClusterSlotsCmd none))) ∧
    mustBeIntOrNil 64 .Pipeline (.mk .ClusterSlotsCmd none) =
      .ok (0, false, some (.future (.mk .ClusterSlotsCmd none))) ∧
    mustBeInt64 64 .Pipeline (.mk .ClusterSlotsCmd none) =
      .ok (0, some (.future (.mk .ClusterSlotsCmd none))) ∧
    mustBeFloat64 64 .Pipeline (.mk .ClusterSlotsCmd none) =
      .ok ({ bits := 0 }, some (.future (.mk .ClusterSlotsCmd none))) ∧
    mustBeStatus 64 .Pipeline (.mk .ClusterSlotsCmd none) =
      .ok ("", some (.future (.mk .ClusterSlotsCmd none))) ∧
    mustBeBulkString 64 .Pipeline (.mk .ClusterSlotsCmd none) =
      .ok ({ str := none }, some (.future (.mk .ClusterSlotsCmd none))) ∧
    mustBeMultiValues 64 .Pipeline (.mk .ClusterSlotsCmd none) =
      .ok ([], some (.future (.mk .ClusterSlotsCmd none))) ∧
    mustBeTime 64 .Pipeline (.mk .ClusterSlotsCmd none) =
      .ok ({ sec := 0, nsec := 0 }, some (.future (.mk .ClusterSlotsCmd none))) ∧
    mustBeDuration 64 .Pipeline (.mk .ClusterSlotsCmd none) =
      .ok (0, some (.future (.mk .ClusterSlotsCmd none))) ∧
    mustBeKeyAndValue 64 .Pipeline (.mk .ClusterSlotsCmd none) =
      .ok ({ Key := "", Value := "" }, some (.future (.mk .ClusterSlotsCmd none))) ∧
    mustBeMemberAndScore 64 .Pipeline (.mk .ClusterSlotsCmd none) =
      .ok ({ Member := "", Score := { bits := 0 } },
        some (.future (.mk .ClusterSlotsCmd none))) ∧
    mustBeBulkStrings 64 .Pipeline (.mk .ClusterSlotsCmd none) =
      .ok ([], some (.future (.mk .ClusterSlotsCmd none))) ∧
    mustBeKeyAndValues 64 .Pipeline (.mk .ClusterSlotsCmd none) =
      .ok ([], some (.future (.mk .ClusterSlotsCmd none))) ∧
    mustBeMemberAndScores 64 .Pipeline (.mk .ClusterSlotsCmd none) =
      .ok ([], some (.future (.mk .ClusterSlotsCmd none))) :=
  mustBe_pipelined 64 .Pipeline (.mk .ClusterSlotsCmd none) rfl

/-! ## Lemmas: the command wrapper -/

theorem redisImpl.do_expired {σ : Type} (r : redisImpl) (cmd : String)
    (fn : Cmdable → σ → σ × Except PanicValue (Option Error)) (s : σ) (e : Error)
    (hctx : r.ctx.Err = some e) :
    r.do_ cmd fn s = (s, some e, [.Infof]) := by
  simp [redisImpl.do_, hctx]

theorem redisImpl.do_returned {σ : Type} (r : redisImpl) (cmd : String)
    (fn : Cmdable → σ → σ × Except PanicValue (Option Error)) (s s1 : σ) (err : Option Error)
    (hctx : r.ctx.Err = none) (hfn : fn r.client s = (s1, .ok err)) :
    r.do_ cmd fn s =
      (s1, err, .fn :: (if err.isNone then [Event.Tracef] else [Event.Errorf]) ++
        statsForCall r.ctx err) := by
  simp [redisImpl.do_, redisImpl.do_.deferred, hctx, hfn]

theorem redisImpl.do_panicked {σ : Type} (r : redisImpl) (cmd : String)
    (fn : Cmdable → σ → σ × Except PanicValue (Option Error)) (s s1 : σ) (p : PanicValue)
    (hctx : r.ctx.Err = none) (hfn : fn r.client s = (s1, .error p)) :
    r.do_ cmd fn s =
      (s1, some (caughtPanic cmd),
        [.fn, .Errorf, .Errorf] ++ statsForCall r.ctx (some (caughtPanic cmd))) := by
  simp [redisImpl.do_, redisImpl.do_.deferred, hctx, hfn]

theorem statsForCall_count (ctx : Context) (err : Option Error) :
    (statsForCall ctx err).count .fn = 0 ∧
    (statsForCall ctx err).count .CallAdd = 1 ∧
    (statsForCall ctx err).count .FailuresAdd = if err.isSome then 1 else 0 := by
  cases err <;> simp [statsForCall, List.count_cons]

/-- What `do` does under a live context, in one statement: `fn` is called once, the call
counter is incremented once, and the failure counter once when the error that `do`
returns is not nil. -/
theorem redisImpl.do_live {σ : Type} (r : redisImpl) (cmd : String)
    (fn : Cmdable → σ → σ × Except PanicValue (Option Error)) (s : σ)
    (hctx : r.ctx.Err = none) :
    (r.do_ cmd fn s).1 = (fn r.client s).1 ∧
    (r.do_ cmd fn s).2.2.count .fn = 1 ∧
    (r.do_ cmd fn s).2.2.count .CallAdd = 1 ∧
    (r.do_ cmd fn s).2.2.count .FailuresAdd = if (r.do_ cmd fn s).2.1.isSome then 1 else 0 := by
  rcases hfn : fn r.client s with ⟨s1, out⟩
  cases out with
  | ok err =>
    rw [redisImpl.do_returned r cmd fn s s1 err hctx hfn]
    cases err <;> simp [statsForCall, List.count_cons]
  | error p =>
    rw [redisImpl.do_panicked r cmd fn s s1 p hctx hfn]
    simp [statsForCall, List.count_cons]

/-! ## Claims: the command wrapper -/

/-- C11. When `ctx.Err()` is not nil at the call, `do` returns exactly that error, the
command function is not called (no call appears among the steps) and the variables it
closes over are as they were; otherwise the command function is called exactly once,
and the variables are as one call leaves them. -/
theorem do_context_check {σ : Type} (r : redisImpl) (cmd : String)
    (fn : Cmdable → σ → σ × Except PanicValue (Option Error)) (s : σ) :
    (∀ e, r.ctx.Err = some e →
      (r.do_ cmd fn s).2.1 = some e ∧ (r.do_ cmd fn s).2.2.count .fn = 0 ∧
        (r.do_ cmd fn s).1 = s) ∧
    (r.ctx.Err = none →
      (r.do_ cmd fn s).2.2.count .fn = 1 ∧ (r.do_ cmd fn s).1 = (fn r.client s).1) := by
  constructor
  · intro e hctx
    rw [redisImpl.do_expired r cmd fn s e hctx]
    simp
  · intro hctx
    obtain ⟨h1, h2, _, _⟩ := redisImpl.do_live r cmd fn s hctx
    exact ⟨h2, h1⟩

/-- C11, for a command function that counts its calls and returns the error "ERR": under
a context whose deadline has passed the count stays 0 and `do` returns the context
error; under a live context the count is 1. -/
theorem do_context_check_witness :
    ((redisImpl.do_ (redisImpl.mk { Err := some (.plain (.other "context deadline exceeded")) } .Client) "GET"
        (fun _ (n : Nat) => (n + 1, .ok (some (.plain (.other "ERR"))))) 0).2.1 =
        some (.plain (.other "context deadline exceeded")) ∧
      (redisImpl.do_ (redisImpl.mk { Err := some (.plain (.other "context deadline exceeded")) } .Client) "GET"
        (fun _ (n : Nat) => (n + 1, .ok (some (.plain (.other "ERR"))))) 0).2.2.count .fn = 0 ∧
      (redisImpl.do_ (redisImpl.mk { Err := some (.plain (.other "context deadline exceeded")) } .Client) "GET"
        (fun _ (n : Nat) => (n + 1, .ok (some (.plain (.other "ERR"))))) 0).1 = 0) ∧
    ((redisImpl.do_ (redisImpl.mk { Err := none } .Client) "GET"
        (fun _ (n : Nat) => (n + 1, .ok (some (.plain (.other "ERR"))))) 0).2.2.count .fn = 1 ∧
      (redisImpl.do_ (redisImpl.mk { Err := none } .Client) "GET"
        (fun _ (n : Nat) => (n + 1, .ok (some (.plain (.other "ERR"))))) 0).1 = 1) :=
  ⟨(do_context_check (redisImpl.mk { Err := some (.plain (.other "context deadline exceeded")) } .Client) "GET"
      (fun _ (n : Nat) => (n + 1, .ok (some (.plain (.other "ERR"))))) 0).1 _ rfl,
    (do_context_check (redisImpl.mk { Err := none } .Client) "GET"
      (fun _ (n : Nat) => (n + 1, .ok (some (.plain (.other "ERR"))))) 0).2 rfl⟩

/-- C12. Under a live context, whatever the command name and whatever value the command
function panics with, `do` returns an error, and it is the error whose message is
"go-redis: caught a panic in " followed by the command name between backquotes; the
panic does not leave `do`, whose steps end with the statistics as on any failure. -/
theorem do_contains_panic {σ : Type} (r : redisImpl) (cmd : String)
    (fn : Cmdable → σ → σ × Except PanicValue (Option Error)) (s : σ) (p : PanicValue)
    (hctx : r.ctx.Err = none) (hfn : (fn r.client s).2 = .error p) :
    (r.do_ cmd fn s).2.1 =
      some (.plain (.other ("go-redis: caught a panic in `" ++ cmd ++ "`"))) ∧
    (r.do_ cmd fn s).2.2.count .FailuresAdd = 1 := by
  rcases hfn1 : fn r.client s with ⟨s1, out⟩
  rw [hfn1] at hfn
  simp only at hfn
  subst hfn
  rw [redisImpl.do_panicked r cmd fn s s1 p hctx hfn1]
  simp [caughtPanic, statsForCall, List.count_cons]

/-- C12, for the command "HGET" and a command function that panics with
`ErrUnexpectedResponseType`. -/
theorem do_contains_panic_witness :
    (redisImpl.do_ (redisImpl.mk { Err := none } .Client) "HGET"
        (fun _ (u : Unit) => (u, .error (.error (.plain .ErrUnexpectedResponseType)))) ()).2.1 =
      some (.plain (.other "go-redis: caught a panic in `HGET`")) ∧
    (redisImpl.do_ (redisImpl.mk { Err := none } .Client) "HGET"
        (fun _ (u : Unit) => (u, .error (.error (.plain .ErrUnexpectedResponseType))))
        ()).2.2.count .FailuresAdd = 1 :=
  do_contains_panic (redisImpl.mk { Err := none } .Client) "HGET"
    (fun _ (u : Unit) => (u, .error (.error (.plain .ErrUnexpectedResponseType)))) ()
    (.error (.plain .ErrUnexpectedResponseType)) rfl rfl

/-- C13, as stated, fails: called under a context whose deadline has passed, `do` returns
a non-nil error and neither the call counter nor the failure counter is incremented. -/
theorem do_expired_emits_no_statistics :
    (redisImpl.do_ (redisImpl.mk { Err := some (.plain (.other "context deadline exceeded")) } .Client) "GET"
      (fun _ (u : Unit) => (u, .ok none)) ()) =
      ((), some (.plain (.other "context deadline exceeded")), [.Infof]) ∧
    [Event.Infof].count .CallAdd = 0 ∧ [Event.Infof].count .FailuresAdd = 0 := by
  refine ⟨redisImpl.do_expired _ _ _ _ _ rfl, by decide, by decide⟩

/-- C13, amended. Under a live context every call of `do`, whether the command function
returns nil, returns an error or panics, increments the call counter exactly once, and
the failure counter exactly once when the error that `do` returns is not nil and not at
all otherwise. Under a context that is cancelled or past its deadline `do` returns the
context error and increments neither counter. -/
theorem do_statistics {σ : Type} (r : redisImpl) (cmd : String)
    (fn : Cmdable → σ → σ × Except PanicValue (Option Error)) (s : σ) :
    (r.ctx.Err = none →
      (r.do_ cmd fn s).2.2.count .CallAdd = 1 ∧
      (r.do_ cmd fn s).2.2.count .FailuresAdd =
        if (r.do_ cmd fn s).2.1.isSome then 1 else 0) ∧
    (∀ e, r.ctx.Err = some e →
      (r.do_ cmd fn s).2.1 = some e ∧
      (r.do_ cmd fn s).2.2.count .CallAdd = 0 ∧
      (r.do_ cmd fn s).2.2.count .FailuresAdd = 0) := by
  constructor
  · intro hctx
    obtain ⟨_, _, h3, h4⟩ := redisImpl.do_live r cmd fn s hctx
    exact ⟨h3, h4⟩
  · intro e hctx
    rw [redisImpl.do_expired r cmd fn s e hctx]
    simp

/-- C13, amended, for a command function that returns the error "ERR" under a live
context, and for the same function under a context whose deadline has passed. -/
theorem do_statistics_witness :
    ((redisImpl.do_ (redisImpl.mk { Err := none } .Client) "GET"
        (fun _ (u : Unit) => (u, .ok (some (.plain (.other "ERR"))))) ()).2.2.count .CallAdd = 1 ∧
      (redisImpl.do_ (redisImpl.mk { Err := none } .Client) "GET"
        (fun _ (u : Unit) => (u, .ok (some (.plain (.other "ERR"))))) ()).2.2.count
          .FailuresAdd =
        if (redisImpl.do_ (redisImpl.mk { Err := none } .Client) "GET"
          (fun _ (u : Unit) => (u, .ok (some (.plain (.other "ERR"))))) ()).2.1.isSome
        then 1 else 0) ∧
    ((redisImpl.do_ (redisImpl.mk { Err := some (.plain (.other "context deadline exceeded")) } .Client) "GET"
        (fun _ (u : Unit) => (u, .ok (some (.plain (.other "ERR"))))) ()).2.1 =
        some (.plain (.other "context deadline exceeded")) ∧
      (redisImpl.do_ (redisImpl.mk { Err := some (.plain (.other "context deadline exceeded")) } .Client) "GET"
        (fun _ (u : Unit) => (u, .ok (some (.plain (.other "ERR"))))) ()).2.2.count
          .CallAdd = 0 ∧
      (redisImpl.do_ (redisImpl.mk { Err := some (.plain (.other "context deadline exceeded")) } .Client) "GET"
        (fun _ (u : Unit) => (u, .ok (some (.plain (.other "ERR"))))) ()).2.2.count
          .FailuresAdd = 0) :=
  ⟨(do_statistics (redisImpl.mk { Err := none } .Client) "GET"
      (fun _ (u : Unit) => (u, .ok (some (.plain (.other "ERR"))))) ()).1 rfl,
    (do_statistics (redisImpl.mk { Err := some (.plain (.other "context deadline exceeded")) } .Client) "GET"
      (fun _ (u : Unit) => (u, .ok (some (.plain (.other "ERR"))))) ()).2 _ rfl⟩

/-! ## Lemmas: typed commands -/

theorem do_commandFn_returned {α : Type} (r : redisImpl) (cmd : String)
    (mustBe : Cmdable → Cmder → Except Error (α × Option Error)) (issue : Cmdable → Cmder)
    (s : α × Option Error) (v : α) (err : Option Error) (hctx : r.ctx.Err = none)
    (h : mustBe r.client (issue r.client) = .ok (v, err)) :
    (r.do_ cmd (commandFn mustBe issue) s).1 = (v, err) ∧
    (r.do_ cmd (commandFn mustBe issue) s).2.1 = err := by
  have hfn : commandFn mustBe issue r.client s = ((v, err), .ok err) := by
    simp [commandFn, h]
  rw [redisImpl.do_returned r cmd _ s (v, err) err hctx hfn]
  exact ⟨rfl, rfl⟩

theorem do_commandFn_panicked {α : Type} (r : redisImpl) (cmd : String)
    (mustBe : Cmdable → Cmder → Except Error (α × Option Error)) (issue : Cmdable → Cmder)
    (s : α × Option Error) (p : Error) (hctx : r.ctx.Err = none)
    (h : mustBe r.client (issue r.client) = .error p) :
    (r.do_ cmd (commandFn mustBe issue) s).1 = s ∧
    (r.do_ cmd (commandFn mustBe issue) s).2.1 = some (caughtPanic cmd) := by
  have hfn : commandFn mustBe issue r.client s = (s, .error (.error p)) := by
    simp [commandFn, h]
  rw [redisImpl.do_panicked r cmd _ s s (.error p) hctx hfn]
  exact ⟨rfl, rfl⟩

/-- On a client that is not a pipeliner, a command whose parse gives the Error value of
`e` makes every `mustBe` function return its zero value and the error `e`. -/
theorem mustBe_of_error_value (intSize : Nat) (client : Cmdable) (cmder : Cmder) (e : GoError)
    (hpipe : isPipelined client = false)
    (hparse : parseCmder intSize cmder = .ok (.error e, none)) :
    mustBeMultiValue intSize client cmder = .ok (.nil, some (.plain e)) ∧
    mustBeBool intSize client cmder = .ok (false, some (.plain e)) ∧
    mustBeInt intSize client cmder = .ok (0, some (.plain e)) ∧
    mustBeIntOrNil intSize client cmder = .ok (0, false, some (.plain e)) ∧
    mustBeInt64 intSize client cmder = .ok (0, some (.plain e)) ∧
    mustBeFloat64 intSize client cmder = .ok ({ bits := 0 }, some (.plain e)) ∧
    mustBeStatus intSize client cmder = .ok ("", some (.plain e)) ∧
    mustBeBulkString intSize client cmder = .ok ({ str := none }, some (.plain e)) ∧
    mustBeMultiValues intSize client cmder = .ok ([], some (.plain e)) ∧
    mustBeTime intSize client cmder = .ok ({ sec := 0, nsec := 0 }, some (.plain e)) ∧
    mustBeDuration intSize client cmder = .ok (0, some (.plain e)) ∧
    mustBeKeyAndValue intSize client cmder = .ok ({ Key := "", Value := "" }, some (.plain e)) ∧
    mustBeMemberAndScore intSize client cmder = .ok ({ Member := "", Score := { bits := 0 } }, some (.plain e)) ∧
    mustBeBulkStrings intSize client cmder = .ok ([], some (.plain e)) ∧
    mustBeKeyAndValues intSize client cmder = .ok ([], some (.plain e)) ∧
    mustBeMemberAndScores intSize client cmder = .ok ([], some (.plain e)) := by
  have hmvs : mustBeMultiValues intSize client cmder = .ok ([], some (.plain e)) := by
    simp [mustBeMultiValues, hpipe, hparse, MultiValue.Err]
  refine ⟨?_, ?_, ?_, ?_, ?_, ?_, ?_, ?_, hmvs, ?_, ?_, ?_, ?_, ?_, ?_, ?_⟩
  · simp [mustBeMultiValue, hpipe, hparse, MultiValue.Err]
  · simp [mustBeBool, hpipe, hparse, MultiValue.Err]
  · simp [mustBeInt, hpipe, hparse, MultiValue.Err]
  · simp [mustBeIntOrNil, hpipe, hparse, MultiValue.Err]
  · simp [mustBeInt64, hpipe, hparse, MultiValue.Err]
  · simp [mustBeFloat64, hpipe, hparse, MultiValue.Err]
  · simp [mustBeStatus, hpipe, hparse, MultiValue.Err]
  · simp [mustBeBulkString, hpipe, hparse, MultiValue.Err]
  · simp [mustBeTime, hpipe, hparse, MultiValue.Err]
  · simp [mustBeDuration, hpipe, hparse, MultiValue.Err]
  · simp [mustBeKeyAndValue, hpipe, hparse, MultiValue.Err]
  · simp [mustBeMemberAndScore, hpipe, hparse, MultiValue.Err]
  · simp [mustBeBulkStrings, hmvs]
  · simp [mustBeKeyAndValues, hmvs]
  · simp [mustBeMemberAndScores, hmvs]

/-- On a client that is not a pipeliner, a command that `parseCmder` refuses with the
error `e` makes every `mustBe` function panic with `e`. -/
theorem mustBe_of_parse_error (intSize : Nat) (client : Cmdable) (cmder : Cmder)
    (mv : MultiValue) (e : Error) (hpipe : isPipelined client = false)
    (hparse : parseCmder intSize cmder = .ok (mv, some e)) :
    mustBeMultiValue intSize client cmder = .error e ∧
    mustBeBool intSize client cmder = .error e ∧
    mustBeInt intSize client cmder = .error e ∧
    mustBeIntOrNil intSize client cmder = .error e ∧
    mustBeInt64 intSize client cmder = .error e ∧
    mustBeFloat64 intSize client cmder = .error e ∧
    mustBeStatus intSize client cmder = .error e ∧
    mustBeBulkString intSize client cmder = .error e ∧
    mustBeMultiValues intSize client cmder = .error e ∧
    mustBeTime intSize client cmder = .error e ∧
    mustBeDuration intSize client cmder = .error e ∧
    mustBeKeyAndValue intSize client cmder = .error e ∧
    mustBeMemberAndScore intSize client cmder = .error e ∧
    mustBeBulkStrings intSize client cmder = .error e ∧
    mustBeKeyAndValues intSize client cmder = .error e ∧
    mustBeMemberAndScores intSize client cmder = .error e := by
  have hmvs : mustBeMultiValues intSize client cmder = .error e := by
    simp [mustBeMultiValues, hpipe, hparse]
  refine ⟨?_, ?_, ?_, ?_, ?_, ?_, ?_, ?_, hmvs, ?_, ?_, ?_, ?_, ?_, ?_, ?_⟩
  · simp [mustBeMultiValue, hpipe, hparse]
  · simp [mustBeBool, hpipe, hparse]
  · simp [mustBeInt, hpipe, hparse]
  · simp [mustBeIntOrNil, hpipe, hparse]
  · simp [mustBeInt64, hpipe, hparse]
  · simp [mustBeFloat64, hpipe, hparse]
  · simp [mustBeStatus, hpipe, hparse]
  · simp [mustBeBulkString, hpipe, hparse]
  · simp [mustBeTime, hpipe, hparse]
  · simp [mustBeDuration, hpipe, hparse]
  · simp [mustBeKeyAndValue, hpipe, hparse]
  · simp [mustBeMemberAndScore, hpipe, hparse]
  · simp [mustBeBulkStrings, hmvs]
  · simp [mustBeKeyAndValues, hmvs]
  · simp [mustBeMemberAndScores, hmvs]

/-! ## Claims: typed commands -/

/-- C14. On a client that is not a pipeliner, for a command whose own error `e` is not
nil and not `redis.Nil`, every `mustBe` function returns the zero value of its result
type together with `e`, without a panic; and under a live context the typed command
built on it (`do` around the command function) ends with the zero value in its result
variable and returns `e` itself. `mustBeIntOrNil`, which no typed command calls, is
stated without `do`. -/
theorem mustBe_command_error (intSize : Nat) (r : redisImpl) (cmd : String)
    (issue : Cmdable → Cmder) (reply : Reply) (e : GoError)
    (hpipe : isPipelined r.client = false) (hctx : r.ctx.Err = none) (he : e ≠ .redisNil)
    (hissue : issue r.client = .mk reply (some (.plain e))) :
    (mustBeMultiValue intSize r.client (issue r.client) = .ok (.nil, some (.plain e)) ∧
      ∀ s, (r.do_ cmd (commandFn (mustBeMultiValue intSize) issue) s).1 = (.nil, some (.plain e)) ∧
        (r.do_ cmd (commandFn (mustBeMultiValue intSize) issue) s).2.1 = some (.plain e)) ∧
    (mustBeBool intSize r.client (issue r.client) = .ok (false, some (.plain e)) ∧
      ∀ s, (r.do_ cmd (commandFn (mustBeBool intSize) issue) s).1 = (false, some (.plain e)) ∧
        (r.do_ cmd (commandFn (mustBeBool intSize) issue) s).2.1 = some (.plain e)) ∧
    (mustBeInt intSize r.client (issue r.client) = .ok (0, some (.plain e)) ∧
      ∀ s, (r.do_ cmd (commandFn (mustBeInt intSize) issue) s).1 = (0, some (.plain e)) ∧
        (r.do_ cmd (commandFn (mustBeInt intSize) issue) s).2.1 = some (.plain e)) ∧
    (mustBeInt64 intSize r.client (issue r.client) = .ok (0, some (.plain e)) ∧
      ∀ s, (r.do_ cmd (commandFn (mustBeInt64 intSize) issue) s).1 = (0, some (.plain e)) ∧
        (r.do_ cmd (commandFn (mustBeInt64 intSize) issue) s).2.1 = some (.plain e)) ∧
    (mustBeFloat64 intSize r.client (issue r.client) = .ok ({ bits := 0 }, some (.plain e)) ∧
      ∀ s, (r.do_ cmd (commandFn (mustBeFloat64 intSize) issue) s).1 = ({ bits := 0 }, some (.plain e)) ∧
        (r.do_ cmd (commandFn (mustBeFloat64 intSize) issue) s).2.1 = some (.plain e)) ∧
    (mustBeStatus intSize r.client (issue r.client) = .ok ("", some (.plain e)) ∧
      ∀ s, (r.do_ cmd (commandFn (mustBeStatus intSize) issue) s).1 = ("", some (.plain e)) ∧
        (r.do_ cmd (commandFn (mustBeStatus intSize) issue) s).2.1 = some (.plain e)) ∧
    (mustBeBulkString intSize r.client (issue r.client) = .ok ({ str := none }, some (.plain e)) ∧
      ∀ s, (r.do_ cmd (commandFn (mustBeBulkString intSize) issue) s).1 = ({ str := none }, some (.plain e)) ∧
        (r.do_ cmd (commandFn (mustBeBulkString intSize) issue) s).2.1 = some (.plain e)) ∧
    (mustBeMultiValues intSize r.client (issue r.client) = .ok ([], some (.plain e)) ∧
      ∀ s, (r.do_ cmd (commandFn (mustBeMultiValues intSize) issue) s).1 = ([], some (.plain e)) ∧
        (r.do_ cmd (commandFn (mustBeMultiValues intSize) issue) s).2.1 = some (.plain e)) ∧
    (mustBeTime intSize r.client (issue r.client) = .ok ({ sec := 0, nsec := 0 }, some (.plain e)) ∧
      ∀ s, (r.do_ cmd (commandFn (mustBeTime intSize) issue) s).1 = ({ sec := 0, nsec := 0 }, some (.plain e)) ∧
        (r.do_ cmd (commandFn (mustBeTime intSize) issue) s).2.1 = some (.plain e)) ∧
    (mustBeDuration intSize r.client (issue r.client) = .ok (0, some (.plain e)) ∧
      ∀ s, (r.do_ cmd (commandFn (mustBeDuration intSize) issue) s).1 = (0, some (.plain e)) ∧
        (r.do_ cmd (commandFn (mustBeDuration intSize) issue) s).2.1 = some (.plain e)) ∧
    (mustBeKeyAndValue intSize r.client (issue r.client) = .ok ({ Key := "", Value := "" }, some (.plain e)) ∧
      ∀ s, (r.do_ cmd (commandFn (mustBeKeyAndValue intSize) issue) s).1 = ({ Key := "", Value := "" }, some (.plain e)) ∧
        (r.do_ cmd (commandFn (mustBeKeyAndValue intSize) issue) s).2.1 = some (.plain e)) ∧
    (mustBeMemberAndScore intSize r.client (issue r.client) = .ok ({ Member := "", Score := { bits := 0 } }, some (.plain e)) ∧
      ∀ s, (r.do_ cmd (commandFn (mustBeMemberAndScore intSize) issue) s).1 = ({ Member := "", Score := { bits := 0 } }, some (.plain e)) ∧
        (r.do_ cmd (commandFn (mustBeMemberAndScore intSize) issue) s).2.1 = some (.plain e)) ∧
    (mustBeBulkStrings intSize r.client (issue r.client) = .ok ([], some (.plain e)) ∧
      ∀ s, (r.do_ cmd (commandFn (mustBeBulkStrings intSize) issue) s).1 = ([], some (.plain e)) ∧
        (r.do_ cmd (commandFn (mustBeBulkStrings intSize) issue) s).2.1 = some (.plain e)) ∧
    (mustBeKeyAndValues intSize r.client (issue r.client) = .ok ([], some (.plain e)) ∧
      ∀ s, (r.do_ cmd (commandFn (mustBeKeyAndValues intSize) issue) s).1 = ([], some (.plain e)) ∧
        (r.do_ cmd (commandFn (mustBeKeyAndValues intSize) issue) s).2.1 = some (.plain e)) ∧
    (mustBeMemberAndScores intSize r.client (issue r.client) = .ok ([], some (.plain e)) ∧
      ∀ s, (r.do_ cmd (commandFn (mustBeMemberAndScores intSize) issue) s).1 = ([], some (.plain e)) ∧
        (r.do_ cmd (commandFn (mustBeMemberAndScores intSize) issue) s).2.1 = some (.plain e)) ∧
    mustBeIntOrNil intSize r.client (issue r.client) = .ok (0, false, some (.plain e)) := by
  have hparse : parseCmder intSize (issue r.client) = .ok (.error e, none) := by
    rw [hissue]
    exact parseCmder_plain intSize reply e he
  obtain ⟨h1, h2, h3, h4, h5, h6, h7, h8, h9, h10, h11, h12, h13, h14, h15, h16⟩ :=
    mustBe_of_error_value intSize r.client (issue r.client) e hpipe hparse
  exact ⟨⟨h1, fun s => do_commandFn_returned r cmd _ issue s _ _ hctx h1⟩,
    ⟨h2, fun s => do_commandFn_returned r cmd _ issue s _ _ hctx h2⟩,
    ⟨h3, fun s => do_commandFn_returned r cmd _ issue s _ _ hctx h3⟩,
    ⟨h5, fun s => do_commandFn_returned r cmd _ issue s _ _ hctx h5⟩,
    ⟨h6, fun s => do_commandFn_returned r cmd _ issue s _ _ hctx h6⟩,
    ⟨h7, fun s => do_commandFn_returned r cmd _ issue s _ _ hctx h7⟩,
    ⟨h8, fun s => do_commandFn_returned r cmd _ issue s _ _ hctx h8⟩,
    ⟨h9, fun s => do_commandFn_returned r cmd _ issue s _ _ hctx h9⟩,
    ⟨h10, fun s => do_commandFn_returned r cmd _ issue s _ _ hctx h10⟩,
    ⟨h11, fun s => do_commandFn_returned r cmd _ issue s _ _ hctx h11⟩,
    ⟨h12, fun s => do_commandFn_returned r cmd _ issue s _ _ hctx h12⟩,
    ⟨h13, fun s => do_commandFn_returned r cmd _ issue s _ _ hctx h13⟩,
    ⟨h14, fun s => do_commandFn_returned r cmd _ issue s _ _ hctx h14⟩,
    ⟨h15, fun s => do_commandFn_returned r cmd _ issue s _ _ hctx h15⟩,
    ⟨h16, fun s => do_commandFn_returned r cmd _ issue s _ _ hctx h16⟩, h4⟩

/-- C14, for the command "INCR" whose integer command comes back with the error
"ERR value is not an integer or out of range": `mustBeInt` returns 0 with that error,
and so does the typed command. -/
theorem mustBe_command_error_witness :
    mustBeInt 64 .Client
        (.mk (.IntCmd 0) (some (.plain (.other "ERR value is not an integer or out of range")))) =
      .ok (0, some (.plain (.other "ERR value is not an integer or out of range"))) ∧
    ∀ s, (redisImpl.do_ (redisImpl.mk { Err := none } .Client) "INCR"
        (commandFn (mustBeInt 64) (fun _ => .mk (.IntCmd 0)
          (some (.plain (.other "ERR value is not an integer or out of range"))))) s).1 =
        (0, some (.plain (.other "ERR value is not an integer or out of range"))) ∧
      (redisImpl.do_ (redisImpl.mk { Err := none } .Client) "INCR"
        (commandFn (mustBeInt 64) (fun _ => .mk (.IntCmd 0)
          (some (.plain (.other "ERR value is not an integer or out of range"))))) s).2.1 =
        some (.plain (.other "ERR value is not an integer or out of range")) :=
  (mustBe_command_error 64 (redisImpl.mk { Err := none } .Client) "INCR"
    (fun _ => .mk (.IntCmd 0)
      (some (.plain (.other "ERR value is not an integer or out of range"))))
    (.IntCmd 0) (.other "ERR value is not an integer or out of range")
    rfl rfl (by decide) rfl).2.2.1

/-- C15, as stated, fails: on a client that is not a pipeliner and under a live context,
a typed command whose reply is a cluster-slots command without error gets from `do` the
error "go-redis: caught a panic in `CLUSTER SLOTS`", which is not `ErrNotImplemented`. -/
theorem do_unimplemented_reply_returns_caught_panic :
    (redisImpl.do_ (redisImpl.mk { Err := none } .Client) "CLUSTER SLOTS"
        (commandFn (mustBeMultiValue 64) (fun _ => .mk .ClusterSlotsCmd none))
        (.nil, none)).2.1 =
      some (.plain (.other "go-redis: caught a panic in `CLUSTER SLOTS`")) ∧
    (redisImpl.do_ (redisImpl.mk { Err := none } .Client) "CLUSTER SLOTS"
        (commandFn (mustBeMultiValue 64) (fun _ => .mk .ClusterSlotsCmd none))
        (.nil, none)).2.1 ≠
      some (.plain .ErrNotImplemented) := by
  have hparse : parseCmder 64 (.mk .ClusterSlotsCmd none) =
      .ok (.nil, some (.plain .ErrNotImplemented)) := by
    simp [parseCmder]
  have h := (mustBe_of_parse_error 64 .Client (.mk .ClusterSlotsCmd none) .nil _ rfl hparse).1
  have hdo := (do_commandFn_panicked (redisImpl.mk { Err := none } .Client) "CLUSTER SLOTS"
    (mustBeMultiValue 64) (fun _ => .mk .ClusterSlotsCmd none) (.nil, none) _ rfl h).2
  rw [hdo]
  constructor
  · rfl
  · intro hne
    cases hne

/-- C15, amended. On a client that is not a pipeliner, for a command without error whose
kind is cluster slots, geo location, geo position or commands info, every `mustBe`
function panics with `ErrNotImplemented`; under a live context `do` contains the panic,
and the error the caller gets is the one with the message "go-redis: caught a panic in "
followed by the command name between backquotes, which is not `ErrNotImplemented`. -/
theorem mustBe_unimplemented_reply (intSize : Nat) (r : redisImpl) (cmd : String)
    (issue : Cmdable → Cmder) (reply : Reply)
    (hpipe : isPipelined r.client = false) (hctx : r.ctx.Err = none)
    (hreply : reply = .ClusterSlotsCmd ∨ reply = .GeoLocationCmd ∨ reply = .GeoPosCmd ∨
      reply = .CommandsInfoCmd)
    (hissue : issue r.client = .mk reply none) :
    (mustBeMultiValue intSize r.client (issue r.client) = .error (.plain .ErrNotImplemented) ∧
      ∀ s, (r.do_ cmd (commandFn (mustBeMultiValue intSize) issue) s).2.1 =
        some (.plain (.other ("go-redis: caught a panic in `" ++ cmd ++ "`")))) ∧
    (mustBeBool intSize r.client (issue r.client) = .error (.plain .ErrNotImplemented) ∧
      ∀ s, (r.do_ cmd (commandFn (mustBeBool intSize) issue) s).2.1 =
        some (.plain (.other ("go-redis: caught a panic in `" ++ cmd ++ "`")))) ∧
    (mustBeInt intSize r.client (issue r.client) = .error (.plain .ErrNotImplemented) ∧
      ∀ s, (r.do_ cmd (commandFn (mustBeInt intSize) issue) s).2.1 =
        some (.plain (.other ("go-redis: caught a panic in `" ++ cmd ++ "`")))) ∧
    (mustBeInt64 intSize r.client (issue r.client) = .error (.plain .ErrNotImplemented) ∧
      ∀ s, (r.do_ cmd (commandFn (mustBeInt64 intSize) issue) s).2.1 =
        some (.plain (.other ("go-redis: caught a panic in `" ++ cmd ++ "`")))) ∧
    (mustBeFloat64 intSize r.client (issue r.client) = .error (.plain .ErrNotImplemented) ∧
      ∀ s, (r.do_ cmd (commandFn (mustBeFloat64 intSize) issue) s).2.1 =
        some (.plain (.other ("go-redis: caught a panic in `" ++ cmd ++ "`")))) ∧
    (mustBeStatus intSize r.client (issue r.client) = .error (.plain .ErrNotImplemented) ∧
      ∀ s, (r.do_ cmd (commandFn (mustBeStatus intSize) issue) s).2.1 =
        some (.plain (.other ("go-redis: caught a panic in `" ++ cmd ++ "`")))) ∧
    (mustBeBulkString intSize r.client (issue r.client) = .error (.plain .ErrNotImplemented) ∧
      ∀ s, (r.do_ cmd (commandFn (mustBeBulkString intSize) issue) s).2.1 =
        some (.plain (.other ("go-redis: caught a panic in `" ++ cmd ++ "`")))) ∧
    (mustBeMultiValues intSize r.client (issue r.client) = .error (.plain .ErrNotImplemented) ∧
      ∀ s, (r.do_ cmd (commandFn (mustBeMultiValues intSize) issue) s).2.1 =
        some (.plain (.other ("go-redis: caught a panic in `" ++ cmd ++ "`")))) ∧
    (mustBeTime intSize r.client (issue r.client) = .error (.plain .ErrNotImplemented) ∧
      ∀ s, (r.do_ cmd (commandFn (mustBeTime intSize) issue) s).2.1 =
        some (.plain (.other ("go-redis: caught a panic in `" ++ cmd ++ "`")))) ∧
    (mustBeDuration intSize r.client (issue r.client) = .error (.plain .ErrNotImplemented) ∧
      ∀ s, (r.do_ cmd (commandFn (mustBeDuration intSize) issue) s).2.1 =
        some (.plain (.other ("go-redis: caught a panic in `" ++ cmd ++ "`")))) ∧
    (mustBeKeyAndValue intSize r.client (issue r.client) = .error (.plain .ErrNotImplemented) ∧
      ∀ s, (r.do_ cmd (commandFn (mustBeKeyAndValue intSize) issue) s).2.1 =
        some (.plain (.other ("go-redis: caught a panic in `" ++ cmd ++ "`")))) ∧
    (mustBeMemberAndScore intSize r.client (issue r.client) = .error (.plain .ErrNotImplemented) ∧
      ∀ s, (r.do_ cmd (commandFn (mustBeMemberAndScore intSize) issue) s).2.1 =
        some (.plain (.other ("go-redis: caught a panic in `" ++ cmd ++ "`")))) ∧
    (mustBeBulkStrings intSize r.client (issue r.client) = .error (.plain .ErrNotImplemented) ∧
      ∀ s, (r.do_ cmd (commandFn (mustBeBulkStrings intSize) issue) s).2.1 =
        some (.plain (.other ("go-redis: caught a panic in `" ++ cmd ++ "`")))) ∧
    (mustBeKeyAndValues intSize r.client (issue r.client) = .error (.plain .ErrNotImplemented) ∧
      ∀ s, (r.do_ cmd (commandFn (mustBeKeyAndValues intSize) issue) s).2.1 =
        some (.plain (.other ("go-redis: caught a panic in `" ++ cmd ++ "`")))) ∧
    (mustBeMemberAndScores intSize r.client (issue r.client) = .error (.plain .ErrNotImplemented) ∧
      ∀ s, (r.do_ cmd (commandFn (mustBeMemberAndScores intSize) issue) s).2.1 =
        some (.plain (.other ("go-redis: caught a panic in `" ++ cmd ++ "`")))) ∧
    mustBeIntOrNil intSize r.client (issue r.client) = .error (.plain .ErrNotImplemented) ∧
    Error.plain (.other ("go-redis: caught a panic in `" ++ cmd ++ "`")) ≠
      .plain .ErrNotImplemented := by
  have hparse : parseCmder intSize (issue r.client) =
      .ok (.nil, some (.plain .ErrNotImplemented)) := by
    rw [hissue]
    rcases hreply with h | h | h | h <;> subst h <;> simp [parseCmder]
  obtain ⟨h1, h2, h3, h4, h5, h6, h7, h8, h9, h10, h11, h12, h13, h14, h15, h16⟩ :=
    mustBe_of_parse_error intSize r.client (issue r.client) .nil _ hpipe hparse
  exact ⟨⟨h1, fun s => (do_commandFn_panicked r cmd _ issue s _ hctx h1).2⟩,
    ⟨h2, fun s => (do_commandFn_panicked r cmd _ issue s _ hctx h2).2⟩,
    ⟨h3, fun s => (do_commandFn_panicked r cmd _ issue s _ hctx h3).2⟩,
    ⟨h5, fun s => (do_commandFn_panicked r cmd _ issue s _ hctx h5).2⟩,
    ⟨h6, fun s => (do_commandFn_panicked r cmd _ issue s _ hctx h6).2⟩,
    ⟨h7, fun s => (do_commandFn_panicked r cmd _ issue s _ hctx h7).2⟩,
    ⟨h8, fun s => (do_commandFn_panicked r cmd _ issue s _ hctx h8).2⟩,
    ⟨h9, fun s => (do_commandFn_panicked r cmd _ issue s _ hctx h9).2⟩,
    ⟨h10, fun s => (do_commandFn_panicked r cmd _ issue s _ hctx h10).2⟩,
    ⟨h11, fun s => (do_commandFn_panicked r cmd _ issue s _ hctx h11).2⟩,
    ⟨h12, fun s => (do_commandFn_panicked r cmd _ issue s _ hctx h12).2⟩,
    ⟨h13, fun s => (do_commandFn_panicked r cmd _ issue s _ hctx h13).2⟩,
    ⟨h14, fun s => (do_commandFn_panicked r cmd _ issue s _ hctx h14).2⟩,
    ⟨h15, fun s => (do_commandFn_panicked r cmd _ issue s _ hctx h15).2⟩,
    ⟨h16, fun s => (do_commandFn_panicked r cmd _ issue s _ hctx h16).2⟩, h4,
    fun hne => by cases hne⟩

/-- C15, amended, for the command "GEOPOS" answered by a geo-position command. -/
theorem mustBe_unimplemented_reply_witness :
    mustBeMultiValue 64 .Client (.mk .GeoPosCmd none) = .error (.plain .ErrNotImplemented) ∧
    ∀ s, (redisImpl.do_ (redisImpl.mk { Err := none } .Client) "GEOPOS"
        (commandFn (mustBeMultiValue 64) (fun _ => .mk .GeoPosCmd none)) s).2.1 =
      some (.plain (.other "go-redis: caught a panic in `GEOPOS`")) :=
  (mustBe_unimplemented_reply 64 (redisImpl.mk { Err := none } .Client) "GEOPOS"
    (fun _ => .mk .GeoPosCmd none) .GeoPosCmd rfl rfl (Or.inr (Or.inr (Or.inl rfl))) rfl).1

/-! ## Lemmas: the loop of MakeMultiValue -/

theorem MakeMultiValue.range_nil (intSize : Nat) : MakeMultiValue.range intSize [] = .ok [] := by
  rw [MakeMultiValue.range]

theorem MakeMultiValue.range_cons (intSize : Nat) (v : GoValue) (rest : List GoValue) :
    MakeMultiValue.range intSize (v :: rest) =
      (MakeMultiValue intSize v >>= fun mv =>
        MakeMultiValue.range intSize rest >>= fun mvs => .ok (mv :: mvs)) := by
  rw [MakeMultiValue.range]

/-- The loop panics at an element that `MakeMultiValue` panics on when it stands first. -/
theorem MakeMultiValue.range_cons_error (intSize : Nat) (v : GoValue) (rest : List GoValue)
    (p : Error) (h : MakeMultiValue intSize v = .error p) :
    MakeMultiValue.range intSize (v :: rest) = .error p := by
  rw [MakeMultiValue.range_cons, h]
  rfl

/-- When `MakeMultiValue` returns on every element, the loop returns the list of the
results, one per element and in the same order. -/
theorem MakeMultiValue.range_spec (intSize : Nat) (data : List GoValue)
    (h : ∀ v ∈ data, ∃ mv, MakeMultiValue intSize v = .ok mv) :
    ∃ mvs, MakeMultiValue.range intSize data = .ok mvs ∧ mvs.length = data.length ∧
      ∀ (i : Nat) (hi : i < data.length),
        ∃ mv, mvs[i]? = some mv ∧ MakeMultiValue intSize data[i] = .ok mv := by
  induction data with
  | nil => exact ⟨[], MakeMultiValue.range_nil intSize, rfl, by simp⟩
  | cons v rest ih =>
    obtain ⟨mv, hmv⟩ := h v (List.mem_cons_self _ _)
    obtain ⟨mvs, hmvs, hlen, hget⟩ := ih (fun v hv => h v (List.mem_cons_of_mem _ hv))
    refine ⟨mv :: mvs, ?_, by simp [hlen], ?_⟩
    · rw [MakeMultiValue.range_cons, hmv, hmvs]
      rfl
    · intro i hi
      cases i with
      | zero => exact ⟨mv, by simp, hmv⟩
      | succ j => simpa using hget j (by simpa using hi)

/-- The loop over a typed slice, whose elements are passed as `f a`: when `MakeMultiValue`
returns on every such value, the loop returns their results, one per element and in the
same order. -/
theorem MakeMultiValue.range_map_spec {α : Type} (intSize : Nat) (f : α → GoValue)
    (data : List α) (h : ∀ a, ∃ mv, MakeMultiValue intSize (f a) = .ok mv) :
    ∃ mvs, MakeMultiValue.range intSize (data.map f) = .ok mvs ∧ mvs.length = data.length ∧
      ∀ (i : Nat) (hi : i < data.length),
        ∃ mv, mvs[i]? = some mv ∧ MakeMultiValue intSize (f data[i]) = .ok mv := by
  induction data with
  | nil => exact ⟨[], MakeMultiValue.range_nil intSize, rfl, by simp⟩
  | cons a rest ih =>
    obtain ⟨mv, hmv⟩ := h a
    obtain ⟨mvs, hmvs, hlen, hget⟩ := ih
    refine ⟨mv :: mvs, ?_, by simp [hlen], ?_⟩
    · rw [List.map_cons, MakeMultiValue.range_cons, hmv, hmvs]
      rfl
    · intro i hi
      cases i with
      | zero => exact ⟨mv, by simp, hmv⟩
      | succ j => simpa using hget j (by simpa using hi)

@[simp] theorem MakeMultiValue_z (intSize : Nat) (data : Z) :
    MakeMultiValue intSize (.z data) =
      .ok (.memberAndScore { Member := data.Member, Score := data.Score }) := by
  rw [MakeMultiValue]

/-! ## Claims: the normalizer -/

/-- C16, as stated, fails: the empty list of cluster slots is normalized to the empty
sequence, without a panic. -/
theorem MakeMultiValue_empty_clusterSlots :
    MakeMultiValue 64 (.clusterSlots []) = .ok (.multiValues []) := by
  simp [MakeMultiValue, MakeMultiValue.range_nil]

/-- C16, amended. A single cluster slot, command-info pointer, geo location or geo-position
pointer makes `MakeMultiValue` panic with `ErrNotImplemented`, and so does every list
(for the command infos, map) of them that has at least one entry; the empty list or map
of any of the four kinds gives the empty sequence. -/
theorem MakeMultiValue_unimplemented (intSize : Nat) (s : ClusterSlot) (ss : List ClusterSlot)
    (c : Option CommandInfo) (k : String) (cs : List (String × Option CommandInfo))
    (g : GeoLocation) (gs : List GeoLocation) (p : Option GeoPos) (ps : List (Option GeoPos)) :
    MakeMultiValue intSize (.clusterSlot s) = .error (.plain .ErrNotImplemented) ∧
    MakeMultiValue intSize (.commandInfo c) = .error (.plain .ErrNotImplemented) ∧
    MakeMultiValue intSize (.geoLocation g) = .error (.plain .ErrNotImplemented) ∧
    MakeMultiValue intSize (.geoPos p) = .error (.plain .ErrNotImplemented) ∧
    MakeMultiValue intSize (.clusterSlots (s :: ss)) = .error (.plain .ErrNotImplemented) ∧
    MakeMultiValue intSize (.mapStringCommandInfo ((k, c) :: cs)) =
      .error (.plain .ErrNotImplemented) ∧
    MakeMultiValue intSize (.geoLocations (g :: gs)) = .error (.plain .ErrNotImplemented) ∧
    MakeMultiValue intSize (.geoPoss (p :: ps)) = .error (.plain .ErrNotImplemented) ∧
    MakeMultiValue intSize (.clusterSlots []) = .ok (.multiValues []) ∧
    MakeMultiValue intSize (.mapStringCommandInfo []) = .ok (.multiValues []) ∧
    MakeMultiValue intSize (.geoLocations []) = .ok (.multiValues []) ∧
    MakeMultiValue intSize (.geoPoss []) = .ok (.multiValues []) := by
  have h1 : MakeMultiValue intSize (.clusterSlot s) = .error (.plain .ErrNotImplemented) := by
    rw [MakeMultiValue]
  have h2 : MakeMultiValue intSize (.commandInfo c) = .error (.plain .ErrNotImplemented) := by
    rw [MakeMultiValue]
  have h3 : MakeMultiValue intSize (.geoLocation g) = .error (.plain .ErrNotImplemented) := by
    rw [MakeMultiValue]
  have h4 : MakeMultiValue intSize (.geoPos p) = .error (.plain .ErrNotImplemented) := by
    rw [MakeMultiValue]
  refine ⟨h1, h2, h3, h4, ?_, ?_, ?_, ?_, ?_, ?_, ?_, ?_⟩
  · rw [MakeMultiValue, List.map_cons, MakeMultiValue.range_cons_error intSize _ _ _ h1]
    rfl
  · rw [MakeMultiValue, List.map_cons, MakeMultiValue.range_cons_error intSize _ _ _ h2]
    rfl
  · rw [MakeMultiValue, List.map_cons, MakeMultiValue.range_cons_error intSize _ _ _ h3]
    rfl
  · rw [MakeMultiValue, List.map_cons, MakeMultiValue.range_cons_error intSize _ _ _ h4]
    rfl
  · simp [MakeMultiValue, MakeMultiValue.range_nil]
  · simp [MakeMultiValue, MakeMultiValue.range_nil]
  · simp [MakeMultiValue, MakeMultiValue.range_nil]
  · simp [MakeMultiValue, MakeMultiValue.range_nil]

/-- C17. For a command without error whose kind is cluster slots, geo location, geo
position or commands info, or a kind outside the type switch (a scan command, or any
other), `parseCmder` returns the Nil value together with `ErrNotImplemented`. -/
theorem parseCmder_unimplemented (intSize : Nat) :
    parseCmder intSize (.mk .ClusterSlotsCmd none) =
      .ok (.nil, some (.plain .ErrNotImplemented)) ∧
    parseCmder intSize (.mk .GeoLocationCmd none) =
      .ok (.nil, some (.plain .ErrNotImplemented)) ∧
    parseCmder intSize (.mk .GeoPosCmd none) = .ok (.nil, some (.plain .ErrNotImplemented)) ∧
    parseCmder intSize (.mk .CommandsInfoCmd none) =
      .ok (.nil, some (.plain .ErrNotImplemented)) ∧
    parseCmder intSize (.mk .ScanCmd none) = .ok (.nil, some (.plain .ErrNotImplemented)) ∧
    parseCmder intSize (.mk .otherCmd none) = .ok (.nil, some (.plain .ErrNotImplemented)) ∧
    MultiValue.nil.IsNil = true := by
  refine ⟨?_, ?_, ?_, ?_, ?_, ?_, rfl⟩ <;> simp [parseCmder]

/-- C18. For a value whose dynamic type is outside the type switch, `MakeMultiValue` goes
by its kind: a string kind gives the status of the same text; the kinds `int`, `int8`,
`int16`, `int32`, `int64` give the `int64` of the same number; `float32` and `float64`
give the `float64` of the same number; `bool` gives the boolean; every other kind
(unsigned integer, struct, pointer, slice, map, anything else) makes it panic with
`ErrUnsupportedValueType`. -/
theorem MakeMultiValue_reflected (intSize : Nat) (s : String) (n : Int) (x : Float64)
    (b : Bool) (u : Nat) :
    MakeMultiValue intSize (.reflected (.String s)) = .ok (.string s) ∧
    MakeMultiValue intSize (.reflected (.Int n)) = .ok (.int64 n) ∧
    MakeMultiValue intSize (.reflected (.Int8 n)) = .ok (.int64 n) ∧
    MakeMultiValue intSize (.reflected (.Int16 n)) = .ok (.int64 n) ∧
    MakeMultiValue intSize (.reflected (.Int32 n)) = .ok (.int64 n) ∧
    MakeMultiValue intSize (.reflected (.Int64 n)) = .ok (.int64 n) ∧
    MakeMultiValue intSize (.reflected (.Float32 x)) = .ok (.float64 x) ∧
    MakeMultiValue intSize (.reflected (.Float64 x)) = .ok (.float64 x) ∧
    MakeMultiValue intSize (.reflected (.Bool b)) = .ok (.bool b) ∧
    MakeMultiValue intSize (.reflected (.Uint u)) = .error (.plain .ErrUnsupportedValueType) ∧
    MakeMultiValue intSize (.reflected .Struct) = .error (.plain .ErrUnsupportedValueType) ∧
    MakeMultiValue intSize (.reflected .Ptr) = .error (.plain .ErrUnsupportedValueType) ∧
    MakeMultiValue intSize (.reflected .Slice) = .error (.plain .ErrUnsupportedValueType) ∧
    MakeMultiValue intSize (.reflected .Map) = .error (.plain .ErrUnsupportedValueType) ∧
    MakeMultiValue intSize (.reflected .Other) = .error (.plain .ErrUnsupportedValueType) := by
  refine ⟨?_, ?_, ?_, ?_, ?_, ?_, ?_, ?_, ?_, ?_, ?_, ?_, ?_, ?_, ?_⟩ <;>
    simp [MakeMultiValue]

/-- C19. A generic list every element of which `MakeMultiValue` normalizes, and every list
of texts, of booleans, of bulk strings and of score pairs, is normalized to a value
whose `MultiValues()` returns, with `ok` true, a list of the same length whose element
at every index is what `MakeMultiValue` gives for the element of the input at that
index: the order is kept and nothing is merged. -/
theorem MakeMultiValue_list (intSize : Nat) (xs : List GoValue) (ss : List String)
    (bs : List Bool) (bss : List BulkString) (zs : List Z)
    (h : ∀ v ∈ xs, ∃ mv, MakeMultiValue intSize v = .ok mv) :
    (∃ ys, MakeMultiValue intSize (.interfaces xs) = .ok (.multiValues ys) ∧
      (MultiValue.multiValues ys).MultiValues = (ys, true) ∧ ys.length = xs.length ∧
      ∀ (i : Nat) (hi : i < xs.length),
        ∃ y, ys[i]? = some y ∧ MakeMultiValue intSize xs[i] = .ok y) ∧
    (∃ ys, MakeMultiValue intSize (.strings ss) = .ok (.multiValues ys) ∧
      (MultiValue.multiValues ys).MultiValues = (ys, true) ∧ ys.length = ss.length ∧
      ∀ (i : Nat) (hi : i < ss.length),
        ∃ y, ys[i]? = some y ∧ MakeMultiValue intSize (.string ss[i]) = .ok y) ∧
    (∃ ys, MakeMultiValue intSize (.bools bs) = .ok (.multiValues ys) ∧
      (MultiValue.multiValues ys).MultiValues = (ys, true) ∧ ys.length = bs.length ∧
      ∀ (i : Nat) (hi : i < bs.length),
        ∃ y, ys[i]? = some y ∧ MakeMultiValue intSize (.bool bs[i]) = .ok y) ∧
    (∃ ys, MakeMultiValue intSize (.bulkStrings bss) = .ok (.multiValues ys) ∧
      (MultiValue.multiValues ys).MultiValues = (ys, true) ∧ ys.length = bss.length ∧
      ∀ (i : Nat) (hi : i < bss.length),
        ∃ y, ys[i]? = some y ∧ MakeMultiValue intSize (.bulkString bss[i]) = .ok y) ∧
    (∃ ys, MakeMultiValue intSize (.zs zs) = .ok (.multiValues ys) ∧
      (MultiValue.multiValues ys).MultiValues = (ys, true) ∧ ys.length = zs.length ∧
      ∀ (i : Nat) (hi : i < zs.length),
        ∃ y, ys[i]? = some y ∧ MakeMultiValue intSize (.z zs[i]) = .ok y) := by
  refine ⟨?_, ?_, ?_, ?_, ?_⟩
  · obtain ⟨ys, hys, hlen, hget⟩ := MakeMultiValue.range_spec intSize xs h
    exact ⟨ys, by rw [MakeMultiValue, hys]; rfl, rfl, hlen, hget⟩
  · obtain ⟨ys, hys, hlen, hget⟩ :=
      MakeMultiValue.range_map_spec intSize GoValue.string ss
        (fun a => ⟨_, MakeMultiValue_string intSize a⟩)
    exact ⟨ys, by rw [MakeMultiValue, hys]; rfl, rfl, hlen, hget⟩
  · obtain ⟨ys, hys, hlen, hget⟩ :=
      MakeMultiValue.range_map_spec intSize GoValue.bool bs
        (fun a => ⟨_, MakeMultiValue_bool intSize a⟩)
    exact ⟨ys, by rw [MakeMultiValue, hys]; rfl, rfl, hlen, hget⟩
  · obtain ⟨ys, hys, hlen, hget⟩ :=
      MakeMultiValue.range_map_spec intSize GoValue.bulkString bss
        (fun a => ⟨_, MakeMultiValue_bulkString intSize a⟩)
    exact ⟨ys, by rw [MakeMultiValue, hys]; rfl, rfl, hlen, hget⟩
  · obtain ⟨ys, hys, hlen, hget⟩ :=
      MakeMultiValue.range_map_spec intSize GoValue.z zs
        (fun a => ⟨_, MakeMultiValue_z intSize a⟩)
    exact ⟨ys, by rw [MakeMultiValue, hys]; rfl, rfl, hlen, hget⟩

/-- C19, for the generic list `["a", nil, "a"]`, whose two equal texts both stay: the
result is the sequence of the status "a", Nil and the status "a". -/
theorem MakeMultiValue_list_witness :
    ∃ ys, MakeMultiValue 64 (.interfaces [.string "a", .nil, .string "a"]) =
        .ok (.multiValues ys) ∧
      (MultiValue.multiValues ys).MultiValues = (ys, true) ∧
      ys.length = [GoValue.string "a", .nil, .string "a"].length ∧
      ∀ (i : Nat) (hi : i < [GoValue.string "a", .nil, .string "a"].length),
        ∃ y, ys[i]? = some y ∧
          MakeMultiValue 64 [GoValue.string "a", .nil, .string "a"][i] = .ok y :=
  (MakeMultiValue_list 64 [.string "a", .nil, .string "a"] [] [] [] []
    (by
      intro v hv
      simp only [List.mem_cons, List.mem_singleton, List.mem_nil_iff, or_false] at hv
      rcases hv with h | h | h <;> subst h
      · exact ⟨_, MakeMultiValue_string 64 "a"⟩
      · exact ⟨.nil, by rw [MakeMultiValue]⟩
      · exact ⟨_, MakeMultiValue_string 64 "a"⟩)).1

/-- C20. Absence is not emptiness. The bulk string of the empty text is not null and is
not `Null()`; `Null()` is null and its `String()` is the empty text; the bulk string of
any text `s` is not null and its `String()` is `s`; and `MakeMultiValue` of an empty list
(generic, of texts, of bulk strings), of a present byte buffer without bytes and of the
empty text is in each case a value whose `IsNil()` is false. -/
theorem absence_is_not_emptiness (intSize : Nat) :
    (MakeBulkString "").IsNull = false ∧
    MakeBulkString "" ≠ Null ∧
    Null.IsNull = true ∧
    Null.String = "" ∧
    (∀ s : String, (MakeBulkString s).String = s ∧ (MakeBulkString s).IsNull = false) ∧
    (MakeMultiValue intSize (.interfaces [])).map MultiValue.IsNil = .ok false ∧
    (MakeMultiValue intSize (.strings [])).map MultiValue.IsNil = .ok false ∧
    (MakeMultiValue intSize (.bulkStrings [])).map MultiValue.IsNil = .ok false ∧
    (MakeMultiValue intSize (.bytes (some ""))).map MultiValue.IsNil = .ok false ∧
    (MakeMultiValue intSize (.string "")).map MultiValue.IsNil = .ok false := by
  refine ⟨rfl, by decide, rfl, rfl, fun s => ⟨rfl, rfl⟩, ?_, ?_, ?_, ?_, ?_⟩
  · simp [MakeMultiValue, MakeMultiValue.range_nil, MultiValue.IsNil]
  · simp [MakeMultiValue, MakeMultiValue.range_nil, MultiValue.IsNil]
  · simp [MakeMultiValue, MakeMultiValue.range_nil, MultiValue.IsNil]
  · simp [MultiValue.IsNil]
  · simp [MultiValue.IsNil]

/-! ## Lemmas: successful replies -/

theorem parseCmder_FloatCmd (intSize : Nat) (val : Float64) :
    parseCmder intSize (.mk (.FloatCmd val) none) = .ok (.float64 val, none) := by
  simp [parseCmder]

theorem parseCmder_BoolCmd (intSize : Nat) (val : Bool) :
    parseCmder intSize (.mk (.BoolCmd val) none) = .ok (.bool val, none) := by
  simp [parseCmder]

theorem parseCmder_StatusCmd (intSize : Nat) (val : String) :
    parseCmder intSize (.mk (.StatusCmd val) none) = .ok (.string val, none) := by
  simp [parseCmder]

theorem parseCmder_SliceCmd (intSize : Nat) (val : List GoValue) :
    parseCmder intSize (.mk (.SliceCmd val) none) =
      (MakeMultiValue.range intSize val >>= fun mvs => .ok (.multiValues mvs, none)) := by
  rw [parseCmder, MakeMultiValue]
  cases MakeMultiValue.range intSize val <;> rfl

theorem parseCmder_ZSliceCmd (intSize : Nat) (val : List Z) :
    parseCmder intSize (.mk (.ZSliceCmd val) none) =
      (MakeMultiValue.range intSize (val.map GoValue.z) >>= fun mvs =>
        .ok (.multiValues mvs, none)) := by
  rw [parseCmder, MakeMultiValue]
  cases MakeMultiValue.range intSize (val.map GoValue.z) <;> rfl

/-- The loop over elements on each of which `MakeMultiValue` returns `g a`. -/
theorem MakeMultiValue.range_map_eq {α : Type} (intSize : Nat) (f : α → GoValue)
    (g : α → MultiValue) (h : ∀ a, MakeMultiValue intSize (f a) = .ok (g a)) (data : List α) :
    MakeMultiValue.range intSize (data.map f) = .ok (data.map g) := by
  induction data with
  | nil => exact MakeMultiValue.range_nil intSize
  | cons a rest ih =>
    rw [List.map_cons, MakeMultiValue.range_cons, h a, ih]
    rfl

theorem mustBeFloat64_FloatCmd (intSize : Nat) (client : Cmdable) (val : Float64)
    (hpipe : isPipelined client = false) :
    mustBeFloat64 intSize client (.mk (.FloatCmd val) none) = .ok (val, none) := by
  simp [mustBeFloat64, hpipe, parseCmder_FloatCmd, MultiValue.Err, MultiValue.Float64]

theorem mustBeInt_IntCmd (intSize : Nat) (client : Cmdable) (val : Int)
    (hpipe : isPipelined client = false) :
    mustBeInt intSize client (.mk (.IntCmd val) none) = .ok (toInt intSize val, none) := by
  simp [mustBeInt, hpipe, parseCmder_IntCmd, MultiValue.Err, MultiValue.Int]

theorem mustBeStatus_StatusCmd (intSize : Nat) (client : Cmdable) (val : String)
    (hpipe : isPipelined client = false) :
    mustBeStatus intSize client (.mk (.StatusCmd val) none) = .ok (val, none) := by
  simp [mustBeStatus, hpipe, parseCmder_StatusCmd, MultiValue.Err, MultiValue.Status]

theorem mustBeBool_BoolCmd (intSize : Nat) (client : Cmdable) (val : Bool)
    (hpipe : isPipelined client = false) :
    mustBeBool intSize client (.mk (.BoolCmd val) none) = .ok (val, none) := by
  simp [mustBeBool, hpipe, parseCmder_BoolCmd, MultiValue.Err, MultiValue.Bool]

/-- On a client that is not a pipeliner, `mustBeMultiValues` on a command whose parse
gives a sequence returns that sequence. -/
theorem mustBeMultiValues_of_sequence (intSize : Nat) (client : Cmdable) (cmder : Cmder)
    (mvs : List MultiValue) (hpipe : isPipelined client = false)
    (hparse : parseCmder intSize cmder = .ok (.multiValues mvs, none)) :
    mustBeMultiValues intSize client cmder = .ok (mvs, none) := by
  simp [mustBeMultiValues, hpipe, hparse, MultiValue.Err, MultiValue.MultiValues]

/-! ## Lemmas: the width of int -/

theorem two_pow_pred_double (w : Nat) (hw : 0 < w) : (2 : Int) ^ w = 2 * 2 ^ (w - 1) := by
  obtain ⟨k, rfl⟩ : ∃ k, w = k + 1 := ⟨w - 1, by omega⟩
  simp [pow_succ, mul_comm]

theorem toInt_range (w : Nat) (hw : 0 < w) (x : Int) :
    -(2 : Int) ^ (w - 1) ≤ toInt w x ∧ toInt w x < 2 ^ (w - 1) := by
  have hpos : (0 : Int) < 2 ^ (w - 1) := by positivity
  have h2 := two_pow_pred_double w hw
  have hM : (0 : Int) < 2 ^ w := by positivity
  have h0 := Int.emod_nonneg (x + 2 ^ (w - 1)) (ne_of_gt hM)
  have h1 := Int.emod_lt_of_pos (x + 2 ^ (w - 1)) hM
  unfold toInt
  constructor <;> omega

theorem toInt_of_range (w : Nat) (hw : 0 < w) (x : Int)
    (hlo : -(2 : Int) ^ (w - 1) ≤ x) (hhi : x < 2 ^ (w - 1)) : toInt w x = x := by
  have h2 := two_pow_pred_double w hw
  unfold toInt
  rw [Int.emod_eq_of_lt (by omega) (by omega)]
  omega

theorem toInt_congr (w : Nat) (x : Int) : (toInt w x - x) % 2 ^ w = 0 := by
  unfold toInt
  have : (x + 2 ^ (w - 1)) % 2 ^ w - 2 ^ (w - 1) - x =
      (x + 2 ^ (w - 1)) % 2 ^ w - (x + 2 ^ (w - 1)) := by ring
  rw [this, Int.sub_emod, Int.emod_emod_of_dvd _ (dvd_refl _), sub_self, Int.zero_emod]

/-! ## Lemmas: lists of bulk strings -/

/-- The loop of `mustBeBulkStrings` on a sequence whose items are each a status or Nil. -/
theorem mustBeBulkStrings.range_of_items (items : List (Option String)) :
    mustBeBulkStrings.range
        (items.map fun item =>
          match item with
          | some t => MultiValue.string t
          | none => MultiValue.nil) =
      .ok (items.map fun item =>
        match item with
        | some t => MakeBulkString t
        | none => Null) := by
  induction items with
  | nil => rfl
  | cons item rest ih =>
    cases item with
    | none => simp [mustBeBulkStrings.range, MultiValue.BulkString, ih, Null]
    | some t => simp [mustBeBulkStrings.range, MultiValue.BulkString, ih]

/-! ## Claims: replies and their typed results -/

/-- C21. On a client that is not a pipeliner, `mustBeBulkString` on a string command whose
error is `redis.Nil` returns a bulk string that is null, with a nil error; on a string
command without error whose text is `s` it returns a bulk string that is not null and
whose `String()` is `s`, with a nil error, also for the empty text, whose bulk string is
not the null one. -/
theorem mustBeBulkString_string_command (intSize : Nat) (client : Cmdable) (s : String)
    (hpipe : isPipelined client = false) :
    mustBeBulkString intSize client (.mk (.StringCmd s) (some (.plain .redisNil))) =
      .ok (Null, none) ∧
    Null.IsNull = true ∧
    mustBeBulkString intSize client (.mk (.StringCmd s) none) = .ok (MakeBulkString s, none) ∧
    (MakeBulkString s).IsNull = false ∧
    (MakeBulkString s).String = s ∧
    mustBeBulkString intSize client (.mk (.StringCmd "") none) =
      .ok (MakeBulkString "", none) ∧
    MakeBulkString "" ≠ Null := by
  refine ⟨?_, rfl, ?_, rfl, rfl, ?_, by decide⟩
  · simp [mustBeBulkString, hpipe, parseCmder_redisNil, MultiValue.Err, MultiValue.BulkString]
  · simp [mustBeBulkString, hpipe, parseCmder_StringCmd, MultiValue.Err, MultiValue.BulkString]
  · simp [mustBeBulkString, hpipe, parseCmder_StringCmd, MultiValue.Err, MultiValue.BulkString]

/-- C21, for the reply of `GET foo` after `SET foo bar`, and of a `GET` on a missing key. -/
theorem mustBeBulkString_string_command_witness :
    mustBeBulkString 64 .Client (.mk (.StringCmd "bar") (some (.plain .redisNil))) =
      .ok (Null, none) ∧
    Null.IsNull = true ∧
    mustBeBulkString 64 .Client (.mk (.StringCmd "bar") none) =
      .ok (MakeBulkString "bar", none) ∧
    (MakeBulkString "bar").IsNull = false ∧
    (MakeBulkString "bar").String = "bar" ∧
    mustBeBulkString 64 .Client (.mk (.StringCmd "") none) = .ok (MakeBulkString "", none) ∧
    MakeBulkString "" ≠ Null :=
  mustBeBulkString_string_command 64 .Client "bar" rfl

/-- C22. On a client that is not a pipeliner, for a generic list command without error
whose items are each a text or absent (nil), `mustBeBulkStrings` returns a nil error and
the list, of the same length and in the same order, in which a text `t` has become
`MakeBulkString(t)` and an absent item `Null()`. -/
theorem mustBeBulkStrings_generic_list (intSize : Nat) (client : Cmdable)
    (items : List (Option String)) (hpipe : isPipelined client = false) :
    mustBeBulkStrings intSize client
        (.mk (.SliceCmd (items.map fun item =>
          match item with
          | some t => GoValue.string t
          | none => GoValue.nil)) none) =
      .ok (items.map fun item =>
        match item with
        | some t => MakeBulkString t
        | none => Null, none) ∧
    (items.map fun item =>
        match item with
        | some t => MakeBulkString t
        | none => Null).length = items.length := by
  refine ⟨?_, by simp⟩
  have hrange := MakeMultiValue.range_map_eq intSize
    (fun item : Option String =>
      match item with
      | some t => GoValue.string t
      | none => GoValue.nil)
    (fun item =>
      match item with
      | some t => MultiValue.string t
      | none => MultiValue.nil)
    (fun item => by
      cases item with
      | none => rw [MakeMultiValue]
      | some t => exact MakeMultiValue_string intSize t)
    items
  have hparse := parseCmder_SliceCmd intSize
    (items.map fun item =>
      match item with
      | some t => GoValue.string t
      | none => GoValue.nil)
  rw [hrange] at hparse
  have hmvs := mustBeMultiValues_of_sequence intSize client _ _ hpipe hparse
  simp [mustBeBulkStrings, hmvs, mustBeBulkStrings.range_of_items]

/-- C22, for the reply of `HMGET` to three fields that are set and one that is not. -/
theorem mustBeBulkStrings_generic_list_witness :
    mustBeBulkStrings 64 .Client
        (.mk (.SliceCmd [.string "value-1", .string "value-2", .string "value-3", .nil])
          none) =
      .ok ([MakeBulkString "value-1", MakeBulkString "value-2", MakeBulkString "value-3",
        Null], none) :=
  (mustBeBulkStrings_generic_list 64 .Client
    [some "value-1", some "value-2", some "value-3", none] rfl).1

/-- C25. The value of an `int64` number `n` gives through `Int()` the number `int(n)`, with
`ok` true: a number of the platform width that differs from `n` by a multiple of two to
that width. The value of an `int`, a number `i` of the platform width, gives `i` widened
through `Int64()` and `i` itself through `Int()`, both with `ok` true. -/
theorem integer_accessors_cross_coerce (intSize : Nat) (n i : Int) (hw : 0 < intSize)
    (hlo : -(2 : Int) ^ (intSize - 1) ≤ i) (hhi : i < 2 ^ (intSize - 1)) :
    (MakeMultiValue intSize (.int64 n)).map (MultiValue.Int intSize) =
      .ok (toInt intSize n, true) ∧
    -(2 : Int) ^ (intSize - 1) ≤ toInt intSize n ∧ toInt intSize n < 2 ^ (intSize - 1) ∧
    (toInt intSize n - n) % 2 ^ intSize = 0 ∧
    (MakeMultiValue intSize (.int i)).map MultiValue.Int64 = .ok (i, true) ∧
    (MakeMultiValue intSize (.int i)).map (MultiValue.Int intSize) = .ok (i, true) := by
  have hint : MakeMultiValue intSize (.int i) = .ok (.int64 i) := by rw [MakeMultiValue]
  refine ⟨?_, (toInt_range intSize hw n).1, (toInt_range intSize hw n).2,
    toInt_congr intSize n, ?_, ?_⟩
  · simp [MultiValue.Int]
  · simp [hint, MultiValue.Int64]
  · simp [hint, MultiValue.Int, toInt_of_range intSize hw i hlo hhi]

/-- C25, on a 32-bit platform: the `int64` number 4294967303, two to the 32 plus 7, is
truncated to 7, and the `int` number -5 comes back as it is. -/
theorem integer_accessors_cross_coerce_witness :
    (MakeMultiValue 32 (.int64 4294967303)).map (MultiValue.Int 32) = .ok (7, true) ∧
    (MakeMultiValue 32 (.int (-5))).map MultiValue.Int64 = .ok (-5, true) ∧
    (MakeMultiValue 32 (.int (-5))).map (MultiValue.Int 32) = .ok (-5, true) :=
  have h := integer_accessors_cross_coerce 32 4294967303 (-5) (by decide) (by decide)
    (by decide)
  ⟨h.1, h.2.2.2.2.1, h.2.2.2.2.2⟩

/-- C26. `Bool()` returns the boolean, with `ok` true, on a value holding a boolean;
whether the number is not zero, with `ok` true, on a value holding an integer (`int64`
or `int`); and false with `ok` false on every other value. Hence on a client that is not
a pipeliner `mustBeBool` on a boolean command without error returns its boolean and a
nil error. -/
theorem Bool_accessor (intSize : Nat) (client : Cmdable) (mv : MultiValue) (b : Bool)
    (hpipe : isPipelined client = false) :
    mv.Bool =
      (match mv with
      | .bool v => (v, true)
      | .int64 n => (n != 0, true)
      | .int n => (n != 0, true)
      | _ => (false, false)) ∧
    mustBeBool intSize client (.mk (.BoolCmd b) none) = .ok (b, none) := by
  refine ⟨?_, mustBeBool_BoolCmd intSize client b hpipe⟩
  cases mv <;> rfl

/-- C26, for the replies of `HSET` to a new field and to a field that exists. -/
theorem Bool_accessor_witness :
    mustBeBool 64 .Client (.mk (.BoolCmd true) none) = .ok (true, none) ∧
    mustBeBool 64 .Client (.mk (.BoolCmd false) none) = .ok (false, none) :=
  ⟨(Bool_accessor 64 .Client .nil true rfl).2, (Bool_accessor 64 .Client .nil false rfl).2⟩

/-- C27. `MakeMultiValue` of a value that is a `MultiValue` returns that very value; so
normalizing the result of a normalization changes nothing, a panic of the first
normalization staying that panic. -/
theorem MakeMultiValue_idempotent (intSize : Nat) (v : GoValue) (mv : MultiValue) :
    MakeMultiValue intSize (.multiValue mv) = .ok mv ∧
    (MakeMultiValue intSize v >>= fun mv1 => MakeMultiValue intSize (.multiValue mv1)) =
      MakeMultiValue intSize v := by
  refine ⟨MakeMultiValue_multiValue intSize mv, ?_⟩
  cases MakeMultiValue intSize v with
  | error p => rfl
  | ok mv1 => simp

/-! ## Lemmas: the command functions of the typed commands -/

theorem do_methodFn_returned {α : Type} (r : redisImpl) (cmd : String)
    (mustBe : Cmdable → Cmder → Except Error (α × Option Error)) (exec : Driver) (call : Call)
    (s : (α × Option Error) × List Call) (v : α) (err : Option Error)
    (hctx : r.ctx.Err = none) (h : mustBe r.client (exec call) = .ok (v, err)) :
    ∃ steps, r.do_ cmd (methodFn mustBe exec call) s = (((v, err), s.2 ++ [call]), err, steps) := by
  have hfn : methodFn mustBe exec call r.client s = (((v, err), s.2 ++ [call]), .ok err) := by
    simp [methodFn, h]
  exact ⟨_, redisImpl.do_returned r cmd _ s _ err hctx hfn⟩

theorem do_methodFn_panicked {α : Type} (r : redisImpl) (cmd : String)
    (mustBe : Cmdable → Cmder → Except Error (α × Option Error)) (exec : Driver) (call : Call)
    (s : (α × Option Error) × List Call) (p : Error)
    (hctx : r.ctx.Err = none) (h : mustBe r.client (exec call) = .error p) :
    ∃ steps, r.do_ cmd (methodFn mustBe exec call) s =
      ((s.1, s.2 ++ [call]), some (caughtPanic cmd), steps) := by
  have hfn : methodFn mustBe exec call r.client s =
      ((s.1, s.2 ++ [call]), .error (.error p)) := by
    simp [methodFn, h]
  exact ⟨_, redisImpl.do_panicked r cmd _ s _ _ hctx hfn⟩

theorem do_processFn_panicked {α : Type} (r : redisImpl) (cmd : String)
    (mustBe : Cmdable → Cmder → Except Error (α × Option Error)) (exec : Driver) (call : Call)
    (s : (α × Option Error) × List Call) (p : Error)
    (hctx : r.ctx.Err = none) (herr : (exec call).Err = none)
    (h : mustBe r.client (exec call) = .error p) :
    ∃ steps, r.do_ cmd (processFn mustBe exec call) s =
      (((s.1.1, none), s.2 ++ [call]), some (caughtPanic cmd), steps) := by
  have hfn : processFn mustBe exec call r.client s =
      (((s.1.1, none), s.2 ++ [call]), .error (.error p)) := by
    simp [processFn, herr, h]
  exact ⟨_, redisImpl.do_panicked r cmd _ s _ _ hctx hfn⟩

theorem do_processOrNilFn_absent {α : Type} (r : redisImpl) (cmd : String)
    (mustBe : Cmdable → Cmder → Except Error (α × Option Error)) (exec : Driver) (call : Call)
    (s : (α × Bool × Option Error) × List Call)
    (hctx : r.ctx.Err = none) (herr : (exec call).Err = some (.plain .redisNil)) :
    ∃ steps, r.do_ cmd (processOrNilFn mustBe exec call) s =
      (((s.1.1, s.1.2.1, some (.plain .redisNil)), s.2 ++ [call]), none, steps) := by
  have hfn : processOrNilFn mustBe exec call r.client s =
      (((s.1.1, s.1.2.1, some (.plain .redisNil)), s.2 ++ [call]), .ok none) := by
    simp [processOrNilFn, herr, isRedisNil]
  exact ⟨_, redisImpl.do_returned r cmd _ s _ none hctx hfn⟩

theorem do_processOrNilFn_error {α : Type} (r : redisImpl) (cmd : String)
    (mustBe : Cmdable → Cmder → Except Error (α × Option Error)) (exec : Driver) (call : Call)
    (s : (α × Bool × Option Error) × List Call) (e : Error)
    (hctx : r.ctx.Err = none) (herr : (exec call).Err = some e)
    (hne : isRedisNil (some e) = false) :
    ∃ steps, r.do_ cmd (processOrNilFn mustBe exec call) s =
      (((s.1.1, s.1.2.1, some e), s.2 ++ [call]), some e, steps) := by
  have hfn : processOrNilFn mustBe exec call r.client s =
      (((s.1.1, s.1.2.1, some e), s.2 ++ [call]), .ok (some e)) := by
    simp [processOrNilFn, herr, hne]
  exact ⟨_, redisImpl.do_returned r cmd _ s _ (some e) hctx hfn⟩

theorem do_processOrNilFn_returned {α : Type} (r : redisImpl) (cmd : String)
    (mustBe : Cmdable → Cmder → Except Error (α × Option Error)) (exec : Driver) (call : Call)
    (s : (α × Bool × Option Error) × List Call) (v : α) (err : Option Error)
    (hctx : r.ctx.Err = none) (herr : (exec call).Err = none)
    (h : mustBe r.client (exec call) = .ok (v, err)) :
    ∃ steps, r.do_ cmd (processOrNilFn mustBe exec call) s =
      (((v, true, err), s.2 ++ [call]), err, steps) := by
  have hfn : processOrNilFn mustBe exec call r.client s =
      (((v, true, err), s.2 ++ [call]), .ok err) := by
    simp [processOrNilFn, herr, h]
  exact ⟨_, redisImpl.do_returned r cmd _ s _ err hctx hfn⟩

/-- Under a live context, a command function of the kind `processOrNilFn` makes exactly
the one call, however it ends. -/
theorem do_processOrNilFn_calls {α : Type} (r : redisImpl) (cmd : String)
    (mustBe : Cmdable → Cmder → Except Error (α × Option Error)) (exec : Driver) (call : Call)
    (s : (α × Bool × Option Error) × List Call) (hctx : r.ctx.Err = none) :
    (r.do_ cmd (processOrNilFn mustBe exec call) s).1.2 = s.2 ++ [call] := by
  rw [(redisImpl.do_live r cmd _ s hctx).1]
  unfold processOrNilFn
  cases hE : (exec call).Err with
  | some e => by_cases hn : isRedisNil (some e) = true <;> simp [hE, hn]
  | none =>
    cases hm : mustBe r.client (exec call) with
    | error p => simp [hE, hm]
    | ok b => simp [hE, hm]

theorem redisImpl.Set.args_eq (args : List GoValue) (options : List SetOption) :
    redisImpl.Set.args args options = args ++ (options.map SetOption.Args).flatten := by
  induction options generalizing args with
  | nil => simp [redisImpl.Set.args]
  | cons opt rest ih => simp [redisImpl.Set.args, ih]

/-! ## Claims: typed commands with an existence flag -/

/-- C23, as stated, fails for a rank: on a platform whose `int` has 32 bits, when `ZRANK`
comes back without error and with the value 4294967303, two to the 32 plus 7, `ZRank`
returns the rank 7, with `exists` true and a nil error; `ZRevRank` does the same. -/
theorem ZRank_truncates_at_32_bits :
    (redisImpl.ZRank 32 (fun _ => .mk (.IntCmd 4294967303) none)
        (redisImpl.mk { Err := none } .Client) "z" "a").1 = 7 ∧
    (redisImpl.ZRank 32 (fun _ => .mk (.IntCmd 4294967303) none)
        (redisImpl.mk { Err := none } .Client) "z" "a").2.1 = true ∧
    (redisImpl.ZRank 32 (fun _ => .mk (.IntCmd 4294967303) none)
        (redisImpl.mk { Err := none } .Client) "z" "a").2.2.1 = none ∧
    (redisImpl.ZRevRank 32 (fun _ => .mk (.IntCmd 4294967303) none)
        (redisImpl.mk { Err := none } .Client) "z" "a").1 = 7 := by
  have hm : mustBeInt 32 .Client (.mk (.IntCmd 4294967303) none) = .ok (7, none) := by
    have h := mustBeInt_IntCmd 32 .Client 4294967303 rfl
    simpa [toInt] using h
  obtain ⟨steps1, h1⟩ := do_processOrNilFn_returned (redisImpl.mk { Err := none } .Client)
    "ZRANK" (mustBeInt 32) (fun _ => .mk (.IntCmd 4294967303) none)
    { method := "Process", args := [.string "ZRANK", .string "z", .string "a"] }
    (((0 : Int), false, none), []) 7 none rfl rfl hm
  obtain ⟨steps2, h2⟩ := do_processOrNilFn_returned (redisImpl.mk { Err := none } .Client)
    "ZREVRANK" (mustBeInt 32) (fun _ => .mk (.IntCmd 4294967303) none)
    { method := "Process", args := [.string "ZREVRANK", .string "z", .string "a"] }
    (((0 : Int), false, none), []) 7 none rfl rfl hm
  refine ⟨?_, ?_, ?_, ?_⟩
  · simp only [redisImpl.ZRank, h1]
  · simp only [redisImpl.ZRank, h1]
  · simp only [redisImpl.ZRank, h1]
  · simp only [redisImpl.ZRevRank, h2]

/-- C23, amended. `ZScore`, `ZRank` and `ZRevRank` under a live context, on a client that
is not a pipeliner. When the command comes back from `Process` with `redis.Nil`, the call
returns the zero score or rank, `exists` false and a nil error. When it comes back
without error and with the value `x`, `ZScore` returns `x`, and `ZRank` and `ZRevRank`
return `int(x)`, the truncation of `x` to the platform width, which is `x` when `x` is a
number of that width; all three with `exists` true and a nil error. When it comes back
with any other error `e`, the call returns the zero value, `exists` false and `e`. -/
theorem ZScore_ZRank_ZRevRank (intSize : Nat) (exec : Driver) (r : redisImpl)
    (key member : String) (hctx : r.ctx.Err = none) (hpipe : isPipelined r.client = false) :
    ((∀ reply, exec { method := "Process", args := [.string "ZSCORE", .string key, .string member] } =
          .mk reply (some (.plain .redisNil)) →
        (r.ZScore intSize exec key member).1 = { bits := 0 } ∧ (r.ZScore intSize exec key member).2.1 = false ∧
          (r.ZScore intSize exec key member).2.2.1 = none) ∧
      (∀ x, exec { method := "Process", args := [.string "ZSCORE", .string key, .string member] } =
          .mk (.FloatCmd x) none →
        (r.ZScore intSize exec key member).1 = x ∧ (r.ZScore intSize exec key member).2.1 = true ∧
          (r.ZScore intSize exec key member).2.2.1 = none) ∧
      (∀ reply e, exec { method := "Process", args := [.string "ZSCORE", .string key, .string member] } =
          .mk reply (some e) → isRedisNil (some e) = false →
        (r.ZScore intSize exec key member).1 = { bits := 0 } ∧ (r.ZScore intSize exec key member).2.1 = false ∧
          (r.ZScore intSize exec key member).2.2.1 = some e)) ∧
    ((∀ reply, exec { method := "Process", args := [.string "ZRANK", .string key, .string member] } =
          .mk reply (some (.plain .redisNil)) →
        (r.ZRank intSize exec key member).1 = 0 ∧ (r.ZRank intSize exec key member).2.1 = false ∧
          (r.ZRank intSize exec key member).2.2.1 = none) ∧
      (∀ x, exec { method := "Process", args := [.string "ZRANK", .string key, .string member] } =
          .mk (.IntCmd x) none →
        (r.ZRank intSize exec key member).1 = toInt intSize x ∧ (r.ZRank intSize exec key member).2.1 = true ∧
          (r.ZRank intSize exec key member).2.2.1 = none) ∧
      (∀ reply e, exec { method := "Process", args := [.string "ZRANK", .string key, .string member] } =
          .mk reply (some e) → isRedisNil (some e) = false →
        (r.ZRank intSize exec key member).1 = 0 ∧ (r.ZRank intSize exec key member).2.1 = false ∧
          (r.ZRank intSize exec key member).2.2.1 = some e)) ∧
    ((∀ reply, exec { method := "Process", args := [.string "ZREVRANK", .string key, .string member] } =
          .mk reply (some (.plain .redisNil)) →
        (r.ZRevRank intSize exec key member).1 = 0 ∧ (r.ZRevRank intSize exec key member).2.1 = false ∧
          (r.ZRevRank intSize exec key member).2.2.1 = none) ∧
      (∀ x, exec { method := "Process", args := [.string "ZREVRANK", .string key, .string member] } =
          .mk (.IntCmd x) none →
        (r.ZRevRank intSize exec key member).1 = toInt intSize x ∧ (r.ZRevRank intSize exec key member).2.1 = true ∧
          (r.ZRevRank intSize exec key member).2.2.1 = none) ∧
      (∀ reply e, exec { method := "Process", args := [.string "ZREVRANK", .string key, .string member] } =
          .mk reply (some e) → isRedisNil (some e) = false →
        (r.ZRevRank intSize exec key member).1 = 0 ∧ (r.ZRevRank intSize exec key member).2.1 = false ∧
          (r.ZRevRank intSize exec key member).2.2.1 = some e)) ∧
    (∀ x : Int, 0 < intSize → -(2 : Int) ^ (intSize - 1) ≤ x → x < 2 ^ (intSize - 1) →
      toInt intSize x = x) := by
  refine ⟨?_, ?_, ?_, fun x hw hlo hhi => toInt_of_range intSize hw x hlo hhi⟩
  · refine ⟨?_, ?_, ?_⟩
    · intro reply hexec
      obtain ⟨steps, h⟩ := do_processOrNilFn_absent r "ZSCORE" (mustBeFloat64 intSize) exec _
        ((({ bits := 0 } : Float64), false, none), []) hctx (by rw [hexec]; rfl)
      simp [redisImpl.ZScore, h]
    · intro x hexec
      obtain ⟨steps, h⟩ := do_processOrNilFn_returned r "ZSCORE" (mustBeFloat64 intSize) exec _
        ((({ bits := 0 } : Float64), false, none), []) _ none hctx (by rw [hexec]; rfl)
        (by rw [hexec]; exact mustBeFloat64_FloatCmd intSize r.client x hpipe)
      simp [redisImpl.ZScore, h]
    · intro reply e hexec hne
      obtain ⟨steps, h⟩ := do_processOrNilFn_error r "ZSCORE" (mustBeFloat64 intSize) exec _
        ((({ bits := 0 } : Float64), false, none), []) e hctx (by rw [hexec]; rfl) hne
      simp [redisImpl.ZScore, h]
  · refine ⟨?_, ?_, ?_⟩
    · intro reply hexec
      obtain ⟨steps, h⟩ := do_processOrNilFn_absent r "ZRANK" (mustBeInt intSize) exec _
        (((0 : Int), false, none), []) hctx (by rw [hexec]; rfl)
      simp [redisImpl.ZRank, h]
    · intro x hexec
      obtain ⟨steps, h⟩ := do_processOrNilFn_returned r "ZRANK" (mustBeInt intSize) exec _
        (((0 : Int), false, none), []) _ none hctx (by rw [hexec]; rfl)
        (by rw [hexec]; exact mustBeInt_IntCmd intSize r.client x hpipe)
      simp [redisImpl.ZRank, h]
    · intro reply e hexec hne
      obtain ⟨steps, h⟩ := do_processOrNilFn_error r "ZRANK" (mustBeInt intSize) exec _
        (((0 : Int), false, none), []) e hctx (by rw [hexec]; rfl) hne
      simp [redisImpl.ZRank, h]
  · refine ⟨?_, ?_, ?_⟩
    · intro reply hexec
      obtain ⟨steps, h⟩ := do_processOrNilFn_absent r "ZREVRANK" (mustBeInt intSize) exec _
        (((0 : Int), false, none), []) hctx (by rw [hexec]; rfl)
      simp [redisImpl.ZRevRank, h]
    · intro x hexec
      obtain ⟨steps, h⟩ := do_processOrNilFn_returned r "ZREVRANK" (mustBeInt intSize) exec _
        (((0 : Int), false, none), []) _ none hctx (by rw [hexec]; rfl)
        (by rw [hexec]; exact mustBeInt_IntCmd intSize r.client x hpipe)
      simp [redisImpl.ZRevRank, h]
    · intro reply e hexec hne
      obtain ⟨steps, h⟩ := do_processOrNilFn_error r "ZREVRANK" (mustBeInt intSize) exec _
        (((0 : Int), false, none), []) e hctx (by rw [hexec]; rfl) hne
      simp [redisImpl.ZRevRank, h]

/-- C23, amended, for `ZSCORE z missing` answered with `redis.Nil`: the score is zero,
`exists` is false and the error is nil. -/
theorem ZScore_ZRank_ZRevRank_witness :
    (redisImpl.ZScore 64 (fun _ => .mk (.FloatCmd { bits := 0 }) (some (.plain .redisNil)))
        (redisImpl.mk { Err := none } .Client) "z" "missing").1 = { bits := 0 } ∧
    (redisImpl.ZScore 64 (fun _ => .mk (.FloatCmd { bits := 0 }) (some (.plain .redisNil)))
        (redisImpl.mk { Err := none } .Client) "z" "missing").2.1 = false ∧
    (redisImpl.ZScore 64 (fun _ => .mk (.FloatCmd { bits := 0 }) (some (.plain .redisNil)))
        (redisImpl.mk { Err := none } .Client) "z" "missing").2.2.1 = none :=
  (ZScore_ZRank_ZRevRank 64 (fun _ => .mk (.FloatCmd { bits := 0 }) (some (.plain .redisNil)))
    (redisImpl.mk { Err := none } .Client) "z" "missing" rfl rfl).1.1 _ rfl

/-- C24. `Set` under a live context makes one call, `Process` of the command built from
"SET", the key, the value and then the `Args()` of every option in the order given. On a
client that is not a pipeliner: when the command comes back without error as a status,
`Set` returns `isSet` true and a nil error; when it comes back with `redis.Nil`, `isSet`
false and a nil error; when it comes back with any other error `e`, `isSet` false and
`e`. -/
theorem Set_result (intSize : Nat) (exec : Driver) (r : redisImpl) (key value : String)
    (options : List SetOption) (hctx : r.ctx.Err = none)
    (hpipe : isPipelined r.client = false) :
    (r.Set intSize exec key value options).2.2.1 =
      [{ method := "Process",
         args := [.string "SET", .string key, .string value] ++
           (options.map SetOption.Args).flatten }] ∧
    (∀ status, exec { method := "Process",
                      args := [.string "SET", .string key, .string value] ++
                        (options.map SetOption.Args).flatten } =
        .mk (.StatusCmd status) none →
      (r.Set intSize exec key value options).1 = true ∧
        (r.Set intSize exec key value options).2.1 = none) ∧
    (∀ reply, exec { method := "Process",
                     args := [.string "SET", .string key, .string value] ++
                       (options.map SetOption.Args).flatten } =
        .mk reply (some (.plain .redisNil)) →
      (r.Set intSize exec key value options).1 = false ∧
        (r.Set intSize exec key value options).2.1 = none) ∧
    (∀ reply e, exec { method := "Process",
                       args := [.string "SET", .string key, .string value] ++
                         (options.map SetOption.Args).flatten } =
        .mk reply (some e) → isRedisNil (some e) = false →
      (r.Set intSize exec key value options).1 = false ∧
        (r.Set intSize exec key value options).2.1 = some e) := by
  have hargs := redisImpl.Set.args_eq [.string "SET", .string key, .string value] options
  refine ⟨?_, ?_, ?_, ?_⟩
  · have h := do_processOrNilFn_calls r "SET" (mustBeStatus intSize) exec
      { method := "Process",
        args := redisImpl.Set.args [.string "SET", .string key, .string value] options }
      (("", false, none), []) hctx
    rw [hargs] at h
    simp only [redisImpl.Set, hargs]
    simpa using h
  · intro status hexec
    obtain ⟨steps, h⟩ := do_processOrNilFn_returned r "SET" (mustBeStatus intSize) exec
      { method := "Process",
        args := [.string "SET", .string key, .string value] ++
          (options.map SetOption.Args).flatten }
      (("", false, none), []) status none hctx (by rw [hexec]; rfl)
      (by rw [hexec]; exact mustBeStatus_StatusCmd intSize r.client status hpipe)
    simp only [redisImpl.Set, hargs, h]
    simp
  · intro reply hexec
    obtain ⟨steps, h⟩ := do_processOrNilFn_absent r "SET" (mustBeStatus intSize) exec
      { method := "Process",
        args := [.string "SET", .string key, .string value] ++
          (options.map SetOption.Args).flatten }
      (("", false, none), []) hctx (by rw [hexec]; rfl)
    simp only [redisImpl.Set, hargs, h]
    simp
  · intro reply e hexec hne
    obtain ⟨steps, h⟩ := do_processOrNilFn_error r "SET" (mustBeStatus intSize) exec
      { method := "Process",
        args := [.string "SET", .string key, .string value] ++
          (options.map SetOption.Args).flatten }
      (("", false, none), []) e hctx (by rw [hexec]; rfl) hne
    simp only [redisImpl.Set, hargs, h]
    simp

/-- C24, for `Set("foo", "bar", NX())` answered with the status "OK": the command built
is `SET foo bar NX`, and `isSet` is true with a nil error. -/
theorem Set_result_witness :
    (redisImpl.Set 64 (fun _ => .mk (.StatusCmd "OK") none)
        (redisImpl.mk { Err := none } .Client) "foo" "bar" [NX]).2.2.1 =
      [{ method := "Process",
         args := [.string "SET", .string "foo", .string "bar", .string "NX"] }] ∧
    (redisImpl.Set 64 (fun _ => .mk (.StatusCmd "OK") none)
        (redisImpl.mk { Err := none } .Client) "foo" "bar" [NX]).1 = true ∧
    (redisImpl.Set 64 (fun _ => .mk (.StatusCmd "OK") none)
        (redisImpl.mk { Err := none } .Client) "foo" "bar" [NX]).2.1 = none :=
  have h := Set_result 64 (fun _ => .mk (.StatusCmd "OK") none)
    (redisImpl.mk { Err := none } .Client) "foo" "bar" [NX] rfl rfl
  ⟨h.1, h.2.1 "OK" rfl⟩

/-! ## Claims: typed commands that the code gets wrong -/

/-- Under a live context, a command function of the kind `methodFn` makes exactly the one
call, however it ends. -/
theorem do_methodFn_calls {α : Type} (r : redisImpl) (cmd : String)
    (mustBe : Cmdable → Cmder → Except Error (α × Option Error)) (exec : Driver) (call : Call)
    (s : (α × Option Error) × List Call) (hctx : r.ctx.Err = none) :
    (r.do_ cmd (methodFn mustBe exec call) s).1.2 = s.2 ++ [call] := by
  rw [(redisImpl.do_live r cmd _ s hctx).1]
  unfold methodFn
  cases hm : mustBe r.client (exec call) with
  | error p => simp [hm]
  | ok b => simp [hm]

/-- On a client that is not a pipeliner, `mustBeMemberAndScores` panics with
`ErrUnexpectedResponseType` on a generic list command whose first item is a text. -/
theorem mustBeMemberAndScores_text_list (intSize : Nat) (client : Cmdable) (m : String)
    (rest : List String) (hpipe : isPipelined client = false) :
    mustBeMemberAndScores intSize client
        (.mk (.SliceCmd ((m :: rest).map GoValue.string)) none) =
      .error (.plain .ErrUnexpectedResponseType) := by
  have hparse := parseCmder_SliceCmd intSize ((m :: rest).map GoValue.string)
  rw [MakeMultiValue.range_map_eq intSize GoValue.string MultiValue.string
    (MakeMultiValue_string intSize)] at hparse
  have hmvs := mustBeMultiValues_of_sequence intSize client _ _ hpipe hparse
  simp only [mustBeMemberAndScores, hmvs]
  simp [mustBeMemberAndScores.range, MultiValue.MemberAndScore]

/-- On a client that is not a pipeliner, `mustBeMemberAndScore` panics with
`ErrUnexpectedResponseType` on a score-pair list command without error, whatever the
list. -/
theorem mustBeMemberAndScore_ZSliceCmd (intSize : Nat) (client : Cmdable) (zs : List Z)
    (hpipe : isPipelined client = false) :
    mustBeMemberAndScore intSize client (.mk (.ZSliceCmd zs) none) =
      .error (.plain .ErrUnexpectedResponseType) := by
  have hparse := parseCmder_ZSliceCmd intSize zs
  rw [MakeMultiValue.range_map_eq intSize GoValue.z
    (fun data => MultiValue.memberAndScore { Member := data.Member, Score := data.Score })
    (MakeMultiValue_z intSize)] at hparse
  simp [mustBeMemberAndScore, hpipe, hparse, MultiValue.Err, MultiValue.MemberAndScore]

/-- C28 (the code on a reply the claim covers). Under a live context, on a client that is
not a pipeliner, when `ZRANGE key start stop WITHSCORES` comes back as a generic list of
texts with at least one item (member, score, member, score, ...), `ZRangeWithScores`
returns no pair and the error of a contained panic: the items are statuses, which
`mustBeMemberAndScores` refuses. `ZRevRangeWithScores` does the same. -/
theorem ZRangeWithScores_text_reply (intSize : Nat) (key : String) (start stop : Float64)
    (m : String) (rest : List String) :
    (redisImpl.ZRangeWithScores intSize
        (fun _ => .mk (.SliceCmd ((m :: rest).map GoValue.string)) none)
        (redisImpl.mk { Err := none } .Client) key start stop).1 = [] ∧
    (redisImpl.ZRangeWithScores intSize
        (fun _ => .mk (.SliceCmd ((m :: rest).map GoValue.string)) none)
        (redisImpl.mk { Err := none } .Client) key start stop).2.1 =
      some (.plain (.other "go-redis: caught a panic in `ZRANGE-WITHSCORES`")) ∧
    (redisImpl.ZRevRangeWithScores intSize
        (fun _ => .mk (.SliceCmd ((m :: rest).map GoValue.string)) none)
        (redisImpl.mk { Err := none } .Client) key start stop).1 = [] ∧
    (redisImpl.ZRevRangeWithScores intSize
        (fun _ => .mk (.SliceCmd ((m :: rest).map GoValue.string)) none)
        (redisImpl.mk { Err := none } .Client) key start stop).2.1 =
      some (.plain (.other "go-redis: caught a panic in `ZREVRANGE-WITHSCORES`")) := by
  have hp := mustBeMemberAndScores_text_list intSize .Client m rest rfl
  obtain ⟨steps1, h1⟩ := do_processFn_panicked (redisImpl.mk { Err := none } .Client)
    "ZRANGE-WITHSCORES" (mustBeMemberAndScores intSize)
    (fun _ => .mk (.SliceCmd ((m :: rest).map GoValue.string)) none)
    { method := "Process", args := [.string "ZRANGE", .string key, .float64 start,
        .float64 stop, .string "WITHSCORES"] }
    (([], none), []) _ rfl rfl hp
  obtain ⟨steps2, h2⟩ := do_processFn_panicked (redisImpl.mk { Err := none } .Client)
    "ZREVRANGE-WITHSCORES" (mustBeMemberAndScores intSize)
    (fun _ => .mk (.SliceCmd ((m :: rest).map GoValue.string)) none)
    { method := "Process", args := [.string "ZREVRANGE", .string key, .float64 start,
        .float64 stop, .string "WITHSCORES"] }
    (([], none), []) _ rfl rfl hp
  refine ⟨?_, ?_, ?_, ?_⟩
  · simp only [redisImpl.ZRangeWithScores, h1]
  · simp only [redisImpl.ZRangeWithScores, h1]
    rfl
  · simp only [redisImpl.ZRevRangeWithScores, h2]
  · simp only [redisImpl.ZRevRangeWithScores, h2]
    rfl

/-- C29 (the code on a reply the claim covers). Under a live context, on a client that is
not a pipeliner, when `client.ZPopMax(key)` comes back as a score-pair list without
error, also one holding exactly one pair, `ZPopMax` returns the zero pair and the error
of a contained panic: the value is a sequence, which `mustBeMemberAndScore` refuses.
`ZPopMin` does the same. -/
theorem ZPopMax_ZPopMin_pair_reply (intSize : Nat) (key : String) (zs : List Z) :
    (redisImpl.ZPopMax intSize (fun _ => .mk (.ZSliceCmd zs) none)
        (redisImpl.mk { Err := none } .Client) key).1 =
      { Member := "", Score := { bits := 0 } } ∧
    (redisImpl.ZPopMax intSize (fun _ => .mk (.ZSliceCmd zs) none)
        (redisImpl.mk { Err := none } .Client) key).2.1 =
      some (.plain (.other "go-redis: caught a panic in `ZPOPMAX`")) ∧
    (redisImpl.ZPopMin intSize (fun _ => .mk (.ZSliceCmd zs) none)
        (redisImpl.mk { Err := none } .Client) key).1 =
      { Member := "", Score := { bits := 0 } } ∧
    (redisImpl.ZPopMin intSize (fun _ => .mk (.ZSliceCmd zs) none)
        (redisImpl.mk { Err := none } .Client) key).2.1 =
      some (.plain (.other "go-redis: caught a panic in `ZPOPMIN`")) := by
  have hp := mustBeMemberAndScore_ZSliceCmd intSize .Client zs rfl
  obtain ⟨steps1, h1⟩ := do_methodFn_panicked (redisImpl.mk { Err := none } .Client)
    "ZPOPMAX" (mustBeMemberAndScore intSize) (fun _ => .mk (.ZSliceCmd zs) none)
    { method := "ZPopMax", args := [.string key] }
    (({ Member := "", Score := { bits := 0 } }, none), []) _ rfl hp
  obtain ⟨steps2, h2⟩ := do_methodFn_panicked (redisImpl.mk { Err := none } .Client)
    "ZPOPMIN" (mustBeMemberAndScore intSize) (fun _ => .mk (.ZSliceCmd zs) none)
    { method := "ZPopMin", args := [.string key] }
    (({ Member := "", Score := { bits := 0 } }, none), []) _ rfl hp
  refine ⟨?_, ?_, ?_, ?_⟩
  · simp only [redisImpl.ZPopMax, h1]
  · simp only [redisImpl.ZPopMax, h1]
    rfl
  · simp only [redisImpl.ZPopMin, h2]
  · simp only [redisImpl.ZPopMin, h2]
    rfl

/-- C30 (the code at the failing input). Under a live context, the one call that `LLen`
makes is `client.HLen(key)`, the hash-length command, whatever the key and whatever the
client answers. So against a client that answers `LLen` of the list "mylist" with 2 and
`HLen` of it with the error of a wrong kind of key, `LLen("mylist")` returns 0 and that
error. -/
theorem LLen_calls_HLen (intSize : Nat) (exec : Driver) (key : String) :
    (redisImpl.LLen intSize exec (redisImpl.mk { Err := none } .Client) key).2.2.1 =
      [{ method := "HLen", args := [.string key] }] ∧
    (redisImpl.LLen intSize
        (fun call =>
          if call.method = "LLen" then .mk (.IntCmd 2) none
          else .mk (.IntCmd 0) (some (.plain (.other "WRONGTYPE Operation against a key"))))
        (redisImpl.mk { Err := none } .Client) "mylist").1 = 0 ∧
    (redisImpl.LLen intSize
        (fun call =>
          if call.method = "LLen" then .mk (.IntCmd 2) none
          else .mk (.IntCmd 0) (some (.plain (.other "WRONGTYPE Operation against a key"))))
        (redisImpl.mk { Err := none } .Client) "mylist").2.1 =
      some (.plain (.other "WRONGTYPE Operation against a key")) := by
  have hcalls := do_methodFn_calls (redisImpl.mk { Err := none } .Client) "LLEN"
    (mustBeInt intSize) exec { method := "HLen", args := [.string key] } ((0, none), []) rfl
  have hm := (mustBe_of_error_value intSize .Client
    (.mk (.IntCmd 0) (some (.plain (.other "WRONGTYPE Operation against a key"))))
    (.other "WRONGTYPE Operation against a key") rfl
    (parseCmder_plain intSize _ _ (by decide))).2.2.1
  obtain ⟨steps, h⟩ := do_methodFn_returned (redisImpl.mk { Err := none } .Client) "LLEN"
    (mustBeInt intSize)
    (fun call =>
      if call.method = "LLen" then .mk (.IntCmd 2) none
      else .mk (.IntCmd 0) (some (.plain (.other "WRONGTYPE Operation against a key"))))
    { method := "HLen", args := [.string "mylist"] } ((0, none), []) 0
    (some (.plain (.other "WRONGTYPE Operation against a key"))) rfl
    (by simpa using hm)
  refine ⟨?_, ?_, ?_⟩
  · simp only [redisImpl.LLen]
    simpa using hcalls
  · simp only [redisImpl.LLen, h]
  · simp only [redisImpl.LLen, h]

/-! ## Lemmas: commands that go through a typed method -/

theorem MakeMultiValue_duration (intSize : Nat) (d : Duration) :
    MakeMultiValue intSize (.duration d) = .ok (.duration d) := by
  rw [MakeMultiValue]

theorem MakeMultiValue_keyAndValue (intSize : Nat) (kv : KeyAndValue) :
    MakeMultiValue intSize (.keyAndValue kv) = .ok (.keyAndValue kv) := by
  rw [MakeMultiValue]

theorem parseCmder_DurationCmd (intSize : Nat) (val : Duration) :
    parseCmder intSize (.mk (.DurationCmd val) none) = .ok (.duration val, none) := by
  simp [parseCmder, MakeMultiValue_duration]

theorem mustBeDuration_DurationCmd (intSize : Nat) (client : Cmdable) (val : Duration)
    (hpipe : isPipelined client = false) :
    mustBeDuration intSize client (.mk (.DurationCmd val) none) = .ok (val, none) := by
  simp [mustBeDuration, hpipe, parseCmder_DurationCmd, MultiValue.Err, MultiValue.Duration]

/-- Under a live context, a command of the form `doMethod` whose `mustBe` returns gives
the value and the error that `mustBe` returned, after the one call. -/
theorem doMethod_returned {α : Type} (r : redisImpl) (cmd : String)
    (mustBe : Cmdable → Cmder → Except Error (α × Option Error)) (exec : Driver) (call : Call)
    (zero v : α) (err : Option Error) (hctx : r.ctx.Err = none)
    (h : mustBe r.client (exec call) = .ok (v, err)) :
    (r.doMethod cmd mustBe exec call zero).1 = v ∧
    (r.doMethod cmd mustBe exec call zero).2.1 = err ∧
    (r.doMethod cmd mustBe exec call zero).2.2.1 = [call] := by
  obtain ⟨steps, hdo⟩ := do_methodFn_returned r cmd mustBe exec call ((zero, none), []) v err hctx h
  simp only [redisImpl.doMethod, hdo]
  simp

/-- Under a live context, a command of the form `doMethod` makes exactly the one call,
however it ends. -/
theorem doMethod_calls {α : Type} (r : redisImpl) (cmd : String)
    (mustBe : Cmdable → Cmder → Except Error (α × Option Error)) (exec : Driver) (call : Call)
    (zero : α) (hctx : r.ctx.Err = none) :
    (r.doMethod cmd mustBe exec call zero).2.2.1 = [call] := by
  have h := do_methodFn_calls r cmd mustBe exec call ((zero, none), []) hctx
  simp only [redisImpl.doMethod]
  simpa using h

/-! ## Claims: commands that go through a typed method -/

/-- C31 (the code at the failing input). `LPushX(key, value)` is `LPush(key, value)` in
every respect: under a live context the one call it makes is `client.LPush(key, value)`,
the unconditional push, under the command name "LPUSH", whereas `RPushX` calls
`client.RPushX(key, value)`. So against a client that answers `LPushX` on the missing
list "nolist" with 0 and `LPush` with 1, `LPushX("nolist", "v")` returns 1. -/
theorem LPushX_calls_LPush (intSize : Nat) (exec : Driver) (r : redisImpl)
    (key value : String) :
    r.LPushX intSize exec key value = r.LPush intSize exec key [value] ∧
    (redisImpl.LPushX intSize exec (redisImpl.mk { Err := none } .Client) key value).2.2.1 =
      [{ method := "LPush", args := [.string key, .string value] }] ∧
    (redisImpl.RPushX intSize exec (redisImpl.mk { Err := none } .Client) key value).2.2.1 =
      [{ method := "RPushX", args := [.string key, .string value] }] ∧
    (redisImpl.LPushX 64
        (fun call => if call.method = "LPushX" then .mk (.IntCmd 0) none else .mk (.IntCmd 1) none)
        (redisImpl.mk { Err := none } .Client) "nolist" "v").1 = 1 := by
  refine ⟨rfl, ?_, ?_, ?_⟩
  · exact doMethod_calls _ _ _ _ _ _ rfl
  · exact doMethod_calls _ _ _ _ _ _ rfl
  · exact (doMethod_returned (redisImpl.mk { Err := none } .Client) "LPUSH" (mustBeInt 64)
      (fun call => if call.method = "LPushX" then .mk (.IntCmd 0) none else .mk (.IntCmd 1) none)
      { method := "LPush", args := [.string "nolist", .string "v"] } 0 1 none rfl
      (by
        have h := mustBeInt_IntCmd 64 .Client 1 rfl
        simpa [toInt] using h)).1

/-- C33 (the code on the replies the claim covers). Under a live context, on a client
that is not a pipeliner, `TTL` returns the duration of a successful duration reply as it
is, with a nil error, whatever the duration: also for minus one second, the reply for a
key without expiry, and minus two seconds, the reply for a missing key, where it
returns neither `ErrKeyHasNoExpiration` nor `ErrKeyNotExist`. -/
theorem TTL_returns_the_reply (intSize : Nat) (key : String) (d : Duration) :
    (redisImpl.TTL intSize (fun _ => .mk (.DurationCmd d) none)
        (redisImpl.mk { Err := none } .Client) key).1 = d ∧
    (redisImpl.TTL intSize (fun _ => .mk (.DurationCmd d) none)
        (redisImpl.mk { Err := none } .Client) key).2.1 = none ∧
    (redisImpl.TTL intSize (fun _ => .mk (.DurationCmd (-1 * Second)) none)
        (redisImpl.mk { Err := none } .Client) key).2.1 ≠
      some (.plain .ErrKeyHasNoExpiration) ∧
    (redisImpl.TTL intSize (fun _ => .mk (.DurationCmd (-2 * Second)) none)
        (redisImpl.mk { Err := none } .Client) key).2.1 ≠ some (.plain .ErrKeyNotExist) := by
  have h : ∀ d : Duration,
      (redisImpl.TTL intSize (fun _ => .mk (.DurationCmd d) none)
          (redisImpl.mk { Err := none } .Client) key).1 = d ∧
      (redisImpl.TTL intSize (fun _ => .mk (.DurationCmd d) none)
          (redisImpl.mk { Err := none } .Client) key).2.1 = none := by
    intro d
    have := doMethod_returned (redisImpl.mk { Err := none } .Client) "TTL"
      (mustBeDuration intSize) (fun _ => .mk (.DurationCmd d) none)
      { method := "TTL", args := [.string key] } 0 d none rfl
      (mustBeDuration_DurationCmd intSize .Client d rfl)
    exact ⟨this.1, this.2.1⟩
  refine ⟨(h d).1, (h d).2, ?_, ?_⟩
  · rw [(h (-1 * Second)).2]
    simp
  · rw [(h (-2 * Second)).2]
    simp

/-- C38. Each variadic command returns the zero result and a nil error when called
without keys, members or pairs (for `ZInterStore` and `ZUnionStore`: without source
keys), and does so without entering `do`: no call reaches the client and `do` takes no
step, no log line and no counter update, whatever the context, expired or not. -/
theorem variadic_commands_without_arguments (intSize : Nat) (exec : Driver) (r : redisImpl)
    (key dst : String) (options : List StoreOption) :
    r.Del intSize exec [] = (0, none, [], []) ∧
    r.Exists intSize exec [] = (0, none, [], []) ∧
    r.Touch intSize exec [] = (0, none, [], []) ∧
    r.Unlink intSize exec [] = (0, none, [], []) ∧
    r.HDel intSize exec key [] = (0, none, [], []) ∧
    r.HMGet intSize exec key [] = ([], none, [], []) ∧
    r.HMSet intSize exec key [] = (none, [], []) ∧
    r.MGet intSize exec [] = ([], none, [], []) ∧
    r.MSet intSize exec [] = (none, [], []) ∧
    r.MSetNX intSize exec [] = (false, none, [], []) ∧
    r.LPush intSize exec key [] = (0, none, [], []) ∧
    r.RPush intSize exec key [] = (0, none, [], []) ∧
    r.SAdd intSize exec key [] = (0, none, [], []) ∧
    r.SRem intSize exec key [] = (0, none, [], []) ∧
    r.SDiff intSize exec [] = ([], none, [], []) ∧
    r.SInter intSize exec [] = ([], none, [], []) ∧
    r.SUnion intSize exec [] = ([], none, [], []) ∧
    r.SDiffStore intSize exec dst [] = (0, none, [], []) ∧
    r.SInterStore intSize exec dst [] = (0, none, [], []) ∧
    r.SUnionStore intSize exec dst [] = (0, none, [], []) ∧
    r.ZAdd intSize exec key [] = (0, none, [], []) ∧
    r.ZRem intSize exec key [] = (0, none, [], []) ∧
    r.ZInterStore intSize exec dst [] options = (0, none, [], []) ∧
    r.ZUnionStore intSize exec dst [] options = (0, none, [], []) := by
  refine ⟨rfl, rfl, rfl, rfl, rfl, rfl, rfl, rfl, rfl, rfl, rfl, rfl, rfl, rfl, rfl, rfl, rfl,
    rfl, rfl, rfl, rfl, rfl, rfl, rfl⟩

/-- C36. On a client that is not a pipeliner, when `mustBeMultiValue` returns a value
and a nil error for a command, `MakeMultiValue` of the `*FutureMultiValue` over the same
command gives that very value; and for a command whose error `e` is neither nil nor
`redis.Nil`, `mustBeMultiValue` returns `e` as its error and the resolution gives the
Error value holding `e`. -/
theorem immediate_and_deferred_agree (intSize : Nat) (client : Cmdable) (c : Cmder)
    (hpipe : isPipelined client = false) :
    (∀ mv, mustBeMultiValue intSize client c = .ok (mv, none) →
      MakeMultiValue intSize (.futureMultiValue c) = .ok mv) ∧
    (∀ reply e, c = .mk reply (some (.plain e)) → e ≠ .redisNil →
      mustBeMultiValue intSize client c = .ok (.nil, some (.plain e)) ∧
      MakeMultiValue intSize (.futureMultiValue c) = .ok (.error e) ∧
      (MultiValue.error e).IsErr = true ∧ (MultiValue.error e).Err = some (.plain e)) := by
  constructor
  · intro mv h
    rw [MakeMultiValue_futureMultiValue, FutureMultiValue.MultiValue_eq]
    simp only [mustBeMultiValue, hpipe] at h
    cases hp : parseCmder intSize c with
    | error p => simp [hp] at h
    | ok res =>
      obtain ⟨v, e⟩ := res
      cases e with
      | some e => simp [hp] at h
      | none =>
        cases hv : v.Err with
        | some err => simp [hp, hv] at h
        | none =>
          simp [hp, hv] at h
          simp [h, Except.map]
  · intro reply e hc he
    subst hc
    have hp := parseCmder_plain intSize reply e he
    refine ⟨?_, ?_, rfl, rfl⟩
    · simp [mustBeMultiValue, hpipe, hp, MultiValue.Err]
    · rw [MakeMultiValue_futureMultiValue, FutureMultiValue.MultiValue_eq]
      simp [hp, Except.map]

/-- C36, for `GET` answered with the text "bar", and for a command that failed with
"ERR wrong". -/
theorem immediate_and_deferred_agree_witness :
    MakeMultiValue 64 (.futureMultiValue (.mk (.StringCmd "bar") none)) =
      .ok (.bulkString (MakeBulkString "bar")) ∧
    MakeMultiValue 64
        (.futureMultiValue (.mk (.StringCmd "") (some (.plain (.other "ERR wrong"))))) =
      .ok (.error (.other "ERR wrong")) :=
  ⟨(immediate_and_deferred_agree 64 .Client (.mk (.StringCmd "bar") none) rfl).1 _
      (by simp [mustBeMultiValue, isPipelined, parseCmder_StringCmd, MultiValue.Err]),
    ((immediate_and_deferred_agree 64 .Client
      (.mk (.StringCmd "") (some (.plain (.other "ERR wrong")))) rfl).2 _ _ rfl
      (by decide)).2.1⟩

/-! ## Claims: the factory -/

/-- C32 (the code at the failing input). `NewFactory` builds its client from `Client`
when it is set, and else from `Cluster` when it is set; it never reads `Failover`. So
for a configuration in which only `Failover` is set, the client of the factory is nil
and `Conn` fails with "go-redis: factory is not initialized", whatever the server
answers to a ping. -/
theorem NewFactory_ignores_Failover (ping : DriverClient → Option Error)
    (c : ClientConfig) (cl : ClusterConfig) (fc : FailoverConfig)
    (cluster : Option ClusterConfig) (failover : Option FailoverConfig) :
    (NewFactory { Client := some c, Cluster := cluster, Failover := failover }).client =
      some (newClientFromClientConfig c) ∧
    (NewFactory { Client := none, Cluster := some cl, Failover := failover }).client =
      some (newClientFromClusterConfig cl) ∧
    (NewFactory { Client := none, Cluster := none, Failover := some fc }).client = none ∧
    (Factory.Conn ping
        (NewFactory { Client := none, Cluster := none, Failover := some fc })).2 =
      some (.plain (.other "go-redis: factory is not initialized")) := by
  refine ⟨?_, rfl, rfl, rfl⟩
  cases cluster <;> rfl

/-! ## Lemmas: batches -/

/-- When the second loop of `parsePipelinedReply` returns, the parse of every command
has returned. -/
theorem parsePipelinedReply.loop_returns (intSize : Nat) (cmders : List Cmder) :
    ∀ (err : Option Error) (mvs : List MultiValue) (res : Option Error × List MultiValue),
      parsePipelinedReply.loop intSize cmders err mvs = .ok res →
      ∀ c ∈ cmders, ∃ r, parseCmder intSize c = .ok r := by
  induction cmders with
  | nil =>
    intro err mvs res _ c hc
    simp at hc
  | cons c0 rest ih =>
    intro err mvs res h c hc
    rw [parsePipelinedReply.loop] at h
    cases hp : parseCmder intSize c0 with
    | error p => simp [hp] at h
    | ok r0 =>
      obtain ⟨mv0, e0⟩ := r0
      rcases List.mem_cons.1 hc with hc | hc
      · exact ⟨_, hc ▸ hp⟩
      · simp only [hp, bind_ok] at h
        split at h
        · cases hm : MakeMultiValue intSize (Error.toValue e0) with
          | error p => simp [hm] at h
          | ok mv1 =>
            simp only [hm, bind_ok] at h
            exact ih _ _ _ h c hc
        · exact ih _ _ _ h c hc

/-- When `parsePipelinedReply` returns for a top-level error that is nil or `redis.Nil`,
the parse of every command has returned. -/
theorem parsePipelinedReply_returns (intSize : Nat) (cmders : List Cmder) (err : Option Error)
    (res : List MultiValue × Option Error)
    (h : parsePipelinedReply intSize cmders err = .ok res)
    (hguard : (err.isSome && !isRedisNil err) = false) :
    ∀ c ∈ cmders, ∃ r, parseCmder intSize c = .ok r := by
  unfold parsePipelinedReply at h
  simp only [hguard] at h
  cases hl : parsePipelinedReply.loop intSize cmders
      (if isRedisNil err then parsePipelinedReply.scan cmders else err) [] with
  | error p => simp [hl] at h
  | ok r => exact parsePipelinedReply.loop_returns intSize cmders _ _ _ hl

/-! ## Claims: batches -/

/-- C34. For a top-level error that is nil or `redis.Nil`: whenever `parsePipelinedReply`
returns, and it returns when the parse of no command panics, the value at every index
whose command has an error `e` that is neither nil nor `redis.Nil` is the Error value
holding `e`, for which `IsErr()` is true and `Err()` is `e`; and the value at every
index whose command has the error `redis.Nil` is not an Error value. -/
theorem parsePipelinedReply_error_values (intSize : Nat) (cmders : List Cmder)
    (err : Option Error) (herr : err = none ∨ isRedisNil err = true) :
    (∀ mvs err1, parsePipelinedReply intSize cmders err = .ok (mvs, err1) →
      (∀ (i : Nat) (hi : i < cmders.length) (e : GoError),
        cmders[i].Err = some (.plain e) → e ≠ .redisNil →
          mvs[i]? = some (.error e) ∧ (MultiValue.error e).IsErr = true ∧
            (MultiValue.error e).Err = some (.plain e)) ∧
      (∀ (i : Nat) (hi : i < cmders.length), isRedisNil cmders[i].Err = true →
        ∃ mv, mvs[i]? = some mv ∧ mv.IsErr = false)) ∧
    ((∀ c ∈ cmders, ∃ r, parseCmder intSize c = .ok r) →
      ∃ mvs, parsePipelinedReply intSize cmders err = .ok (mvs, none)) := by
  have hguard : (err.isSome && !isRedisNil err) = false := by
    rcases herr with h | h
    · simp [h]
    · simp [h]
  have hspec : ∀ hret : (∀ c ∈ cmders, ∃ r, parseCmder intSize c = .ok r),
      ∃ out, parsePipelinedReply intSize cmders err = .ok (out, none) ∧
        ∀ (i : Nat) (hi : i < cmders.length) (mv : MultiValue),
          parseCmder intSize cmders[i] = .ok (mv, none) → out[i]? = some mv := by
    intro hret
    obtain ⟨err1, out, hloop, _, hget⟩ :=
      parsePipelinedReply.loop_spec intSize cmders hret
        (if isRedisNil err then parsePipelinedReply.scan cmders else err) []
    refine ⟨out, ?_, hget⟩
    unfold parsePipelinedReply
    simp only [hguard]
    simp [hloop]
  constructor
  · intro mvs err1 h
    have hret := parsePipelinedReply_returns intSize cmders err _ h hguard
    obtain ⟨out, hout, hget⟩ := hspec hret
    have hmvs : out = mvs := by
      rw [hout] at h
      injection h with h
      exact congrArg Prod.fst h
    subst hmvs
    constructor
    · intro i hi e he hne
      refine ⟨hget i hi _ ?_, rfl, rfl⟩
      cases hc : cmders[i] with
      | mk reply cerr =>
        rw [hc, Cmder.Err] at he
        subst he
        exact parseCmder_plain intSize reply e hne
    · intro i hi he
      cases hc : cmders[i] with
      | mk reply cerr =>
        rw [hc, Cmder.Err] at he
        have hcerr : cerr = some (.plain .redisNil) := by
          cases cerr with
          | none => simp [isRedisNil] at he
          | some e1 =>
            cases e1 with
            | future _ => simp [isRedisNil] at he
            | plain g => cases g <;> simp [isRedisNil] at he ⊢
        subst hcerr
        refine ⟨_, hget i hi _ (by rw [hc]; exact parseCmder_redisNil intSize reply), ?_⟩
        cases reply <;> rfl
  · intro hret
    obtain ⟨out, hout, _⟩ := hspec hret
    exact ⟨out, hout⟩

/-- C34, for the batch of a command that failed with "ERR wrong" and a `GET` of a missing
key, under the sentinel: the values are the Error value and the null bulk string. -/
theorem parsePipelinedReply_error_values_witness :
    ∃ mvs, parsePipelinedReply 64
      [.mk (.IntCmd 0) (some (.plain (.other "ERR wrong"))),
        .mk (.StringCmd "") (some (.plain .redisNil))]
      (some (.plain .redisNil)) = .ok (mvs, none) :=
  (parsePipelinedReply_error_values 64
    [.mk (.IntCmd 0) (some (.plain (.other "ERR wrong"))),
      .mk (.StringCmd "") (some (.plain .redisNil))]
    (some (.plain .redisNil)) (Or.inr rfl)).2
    (by
      intro c hc
      simp only [List.mem_cons, List.mem_singleton, List.mem_nil_iff, or_false] at hc
      rcases hc with h | h
      · exact ⟨_, h ▸ parseCmder_plain 64 _ _ (by decide)⟩
      · exact ⟨_, h ▸ parseCmder_redisNil 64 _⟩)

/-- C35 (the code at the failing input). A batch of one command of a kind that
`parseCmder` does not implement gives the nil value, not an Error value, when the
top-level error is nil, and also when it is `redis.Nil`; the same command becomes the
Error value of `ErrNotImplemented` only when the top-level error is `redis.Nil` and some
command of the batch has an error of its own. -/
theorem parsePipelinedReply_unparsed_command :
    parseCmder 64 (.mk .ClusterSlotsCmd none) = .ok (.nil, some (.plain .ErrNotImplemented)) ∧
    parsePipelinedReply 64 [.mk .ClusterSlotsCmd none] none = .ok ([.nil], none) ∧
    parsePipelinedReply 64 [.mk .ClusterSlotsCmd none] (some (.plain .redisNil)) =
      .ok ([.nil], none) ∧
    parsePipelinedReply 64
        [.mk (.IntCmd 0) (some (.plain (.other "ERR wrong"))), .mk .ClusterSlotsCmd none]
        (some (.plain .redisNil)) =
      .ok ([.error (.other "ERR wrong"), .error .ErrNotImplemented], none) := by
  have hc : parseCmder 64 (.mk .ClusterSlotsCmd none) =
      .ok (.nil, some (.plain .ErrNotImplemented)) := by
    simp [parseCmder]
  have he : parseCmder 64 (.mk (.IntCmd 0) (some (.plain (.other "ERR wrong")))) =
      .ok (.error (.other "ERR wrong"), none) := parseCmder_plain 64 _ _ (by decide)
  refine ⟨hc, ?_, ?_, ?_⟩
  · simp [parsePipelinedReply, parsePipelinedReply.loop, isRedisNil, hc]
  · simp [parsePipelinedReply, parsePipelinedReply.loop, parsePipelinedReply.scan, Cmder.Err,
      isRedisNil, hc]
  · simp [parsePipelinedReply, parsePipelinedReply.loop, parsePipelinedReply.scan, Cmder.Err,
      isRedisNil, hc, he, Error.toValue]

/-! ## Lemmas: maps -/

theorem parseCmder_StringStringMapCmd (intSize : Nat) (val : List (String × String)) :
    parseCmder intSize (.mk (.StringStringMapCmd val) none) =
      .ok (.multiValues
        (val.map fun kv => MultiValue.keyAndValue { Key := kv.1, Value := kv.2 }), none) := by
  have h := MakeMultiValue.range_map_eq intSize
    (fun kv : String × String => GoValue.keyAndValue { Key := kv.1, Value := kv.2 })
    (fun kv => MultiValue.keyAndValue { Key := kv.1, Value := kv.2 })
    (fun kv => MakeMultiValue_keyAndValue intSize _) val
  rw [parseCmder, MakeMultiValue, h]
  rfl

theorem mustBeKeyAndValues.range_of_pairs (kvs : List KeyAndValue) :
    mustBeKeyAndValues.range (kvs.map MultiValue.keyAndValue) = .ok kvs := by
  induction kvs with
  | nil => rfl
  | cons kv rest ih => simp [mustBeKeyAndValues.range, MultiValue.KeyAndValue, ih]

theorem lookup_cons_ite (k1 k2 v2 : String) (rest : List (String × String)) :
    List.lookup k1 ((k2, v2) :: rest) = if k1 = k2 then some v2 else List.lookup k1 rest := by
  by_cases h : k1 = k2
  · subst h
    simp [List.lookup]
  · have hb : (k1 == k2) = false := beq_false_of_ne h
    simp [List.lookup, hb, h]

theorem lookup_mapAssign (m : List (String × String)) (k v k1 : String) :
    (mapAssign m k v).lookup k1 = if k1 = k then some v else m.lookup k1 := by
  induction m with
  | nil => simp [mapAssign, lookup_cons_ite]
  | cons e rest ih =>
    obtain ⟨k2, v2⟩ := e
    by_cases h2 : k2 = k
    · subst h2
      simp only [mapAssign, if_true, lookup_cons_ite]
      by_cases h : k1 = k2 <;> simp [h]
    · simp only [mapAssign, if_neg h2, lookup_cons_ite, ih]
      by_cases h : k1 = k2
      · subst h
        simp [h2]
      · simp [h]

/-- The map that the loop of `Map()` fills from the entries `acc`: every key is found
with the value of the last pair with that key, and without one as in `acc`. -/
theorem lookup_foldl_mapAssign (kvs : List KeyAndValue) :
    ∀ (acc : List (String × String)) (k : String),
      (kvs.foldl (fun m fv => mapAssign m fv.Key fv.Value) acc).lookup k =
        match kvs.reverse.find? (fun fv => fv.Key = k) with
        | some fv => some fv.Value
        | none => acc.lookup k := by
  induction kvs with
  | nil => intro acc k; rfl
  | cons fv rest ih =>
    intro acc k
    rw [List.foldl_cons, ih, List.reverse_cons, List.find?_append]
    cases hf : rest.reverse.find? (fun fv => fv.Key = k) with
    | some fv1 => rfl
    | none =>
      simp only [Option.none_or, lookup_mapAssign]
      by_cases h : fv.Key = k
      · simp [List.find?, h]
      · have h1 : ¬ k = fv.Key := fun h1 => h h1.symm
        simp [List.find?, h, h1]

/-- In a list of entries with distinct keys, the last entry with a key is the first. -/
theorem find?_reverse_of_nodup (m : List (String × String)) (k : String)
    (hkeys : (m.map Prod.fst).Nodup) :
    ((m.map fun kv => ({ Key := kv.1, Value := kv.2 } : KeyAndValue)).reverse.find?
        (fun fv => fv.Key = k)).map KeyAndValue.Value = m.lookup k := by
  induction m with
  | nil => rfl
  | cons e rest ih =>
    obtain ⟨k2, v2⟩ := e
    rw [List.map_cons, List.nodup_cons] at hkeys
    rw [List.map_cons, List.reverse_cons, List.find?_append, lookup_cons_ite]
    by_cases h : k = k2
    · subst h
      have hnone : rest.lookup k = none := by
        rw [List.lookup_eq_none_iff]
        intro e he
        have hne : k ≠ e.1 := by
          intro hk
          apply hkeys.1
          have hmem : e.1 ∈ rest.map Prod.fst := List.mem_map_of_mem Prod.fst he
          rw [← hk] at hmem
          exact hmem
        simpa using hne
      have hrest := ih hkeys.2
      rw [hnone] at hrest
      cases hf : (rest.map fun kv => ({ Key := kv.1, Value := kv.2 } : KeyAndValue)).reverse.find?
          (fun fv => fv.Key = k) with
      | some fv1 => simp [hf] at hrest
      | none => simp [List.find?]
    · have h1 : ¬ k2 = k := fun h1 => h h1.symm
      rw [if_neg h, ← ih hkeys.2]
      cases hf : (rest.map fun kv => ({ Key := kv.1, Value := kv.2 } : KeyAndValue)).reverse.find?
          (fun fv => fv.Key = k) with
      | some fv1 => rfl
      | none => simp [List.find?, h1]

/-! ## Claims: maps -/

/-- C37. On a client that is not a pipeliner, `mustBeKeyAndValues` on a successful
text-to-text map reply `m` returns a nil error and the list that holds the pair
`KeyAndValue{k, v}` for every entry `(k, v)` of `m` and nothing else, entry by entry, so
of the length of `m`; the keys of a map being distinct, `Map()` of that list finds
under every key what `m` holds under it. For every list of pairs, `Map()` finds under a
key the value of the last pair with that key, and nothing when no pair has it; `Map()`
of the empty list is nil. -/
theorem mustBeKeyAndValues_of_map (intSize : Nat) (client : Cmdable)
    (m : List (String × String)) (kvs : List KeyAndValue) (k : String)
    (hpipe : isPipelined client = false) (hkeys : (m.map Prod.fst).Nodup) :
    mustBeKeyAndValues intSize client (.mk (.StringStringMapCmd m) none) =
      .ok (m.map fun kv => { Key := kv.1, Value := kv.2 }, none) ∧
    (m.map fun kv => ({ Key := kv.1, Value := kv.2 } : KeyAndValue)).length = m.length ∧
    mapIndex (KeyAndValues.Map (m.map fun kv => { Key := kv.1, Value := kv.2 })) k =
      m.lookup k ∧
    mapIndex (KeyAndValues.Map kvs) k =
      (kvs.reverse.find? (fun fv => fv.Key = k)).map KeyAndValue.Value ∧
    KeyAndValues.Map [] = none := by
  have hmap : ∀ l : List KeyAndValue, mapIndex (KeyAndValues.Map l) k =
      (l.reverse.find? (fun fv => fv.Key = k)).map KeyAndValue.Value := by
    intro l
    cases l with
    | nil => rfl
    | cons fv rest =>
      simp only [KeyAndValues.Map, List.length_cons, Nat.succ_ne_zero, if_false, mapIndex]
      rw [lookup_foldl_mapAssign]
      cases (fv :: rest).reverse.find? (fun fv => fv.Key = k) <;> rfl
  refine ⟨?_, by simp, ?_, hmap kvs, rfl⟩
  · have hparse := parseCmder_StringStringMapCmd intSize m
    have hmvs := mustBeMultiValues_of_sequence intSize client _ _ hpipe hparse
    have hrange := mustBeKeyAndValues.range_of_pairs
      (m.map fun kv => ({ Key := kv.1, Value := kv.2 } : KeyAndValue))
    rw [List.map_map] at hrange
    simp only [mustBeKeyAndValues, hmvs]
    simp [Function.comp_def] at hrange ⊢
    rw [hrange]
    rfl
  · rw [hmap, find?_reverse_of_nodup m k hkeys]

/-- C37, for the reply of `HGETALL` on a hash with the fields "f1" and "f2". -/
theorem mustBeKeyAndValues_of_map_witness :
    mustBeKeyAndValues 64 .Client (.mk (.StringStringMapCmd [("f1", "v1"), ("f2", "v2")]) none) =
      .ok ([{ Key := "f1", Value := "v1" }, { Key := "f2", Value := "v2" }], none) ∧
    mapIndex (KeyAndValues.Map [{ Key := "f1", Value := "v1" }, { Key := "f2", Value := "v2" }])
      "f2" = some "v2" :=
  have h := mustBeKeyAndValues_of_map 64 .Client [("f1", "v1"), ("f2", "v2")] [] "f2" rfl
    (by decide)
  ⟨h.1, h.2.2.1.trans (by decide)⟩

/-! ## Lemmas: the rounding of a duration -/

/-- The method `Round(Millisecond)` on a duration that is not negative and below the
last half millisecond of the range of `int64`. -/
theorem Duration.Round_Millisecond_nonneg (d : Int) (h0 : 0 ≤ d)
    (hhi : d < 9223372036854500000) :
    Duration.Round d Millisecond =
      if 2 * (d % 1000000) < 1000000 then d - d % 1000000 else d + 1000000 - d % 1000000 := by
  have hr : Int.tmod d 1000000 = d % 1000000 := Int.tmod_eq_emod h0 (by norm_num)
  have h1 : 0 ≤ d % 1000000 := Int.emod_nonneg d (by norm_num)
  have h2 : d % 1000000 < 1000000 := Int.emod_lt_of_pos d (by norm_num)
  change @Eq Int _ _
  simp only [Duration.Round, Millisecond, toUint64, toInt64, toInt, hr]
  norm_num
  have hd : ¬ d < 0 := by omega
  simp only [hd, if_false]
  split
  · rename_i h
    have : 2 * (d % 1000000) < 1000000 := by omega
    simp only [this, if_true]
    omega
  · rename_i h
    have : ¬ 2 * (d % 1000000) < 1000000 := by omega
    simp only [this, if_false]
    have e2 : (d + 1000000 - d % 1000000 + 9223372036854775808) % 18446744073709551616 -
        9223372036854775808 = d + 1000000 - d % 1000000 := by omega
    rw [e2]
    have : d < d + 1000000 - d % 1000000 := by omega
    simp [this]

theorem tmod_of_neg (d m : Int) (hd : d < 0) (hm : 0 ≤ m) : Int.tmod d m = -((-d) % m) := by
  have h : Int.tmod (-d) m = (-d) % m := Int.tmod_eq_emod (by omega) hm
  rw [← h, Int.tmod_def, Int.tmod_def, Int.neg_tdiv]
  ring

theorem tdiv_of_neg (d m : Int) (hd : d < 0) (hm : 0 ≤ m) : Int.tdiv d m = -((-d) / m) := by
  have h : Int.tdiv (-d) m = (-d) / m := Int.tdiv_eq_ediv (by omega) hm
  rw [← h, Int.neg_tdiv, neg_neg]

/-- The method `Round(Millisecond)` on a negative duration above the first half
millisecond of the range of `int64`. -/
theorem Duration.Round_Millisecond_neg (d : Int) (h0 : d < 0)
    (hlo : -9223372036854500000 < d) :
    Duration.Round d Millisecond =
      if 2 * ((-d) % 1000000) < 1000000 then d + (-d) % 1000000
      else d - 1000000 + (-d) % 1000000 := by
  have hr : Int.tmod d 1000000 = -((-d) % 1000000) := tmod_of_neg d 1000000 h0 (by norm_num)
  have h1 : 0 ≤ (-d) % 1000000 := Int.emod_nonneg (-d) (by norm_num)
  have h2 : (-d) % 1000000 < 1000000 := Int.emod_lt_of_pos (-d) (by norm_num)
  change @Eq Int _ _
  simp only [Duration.Round, Millisecond, toUint64, toInt64, toInt, hr]
  norm_num
  simp only [h0, if_true]
  split
  · rename_i h
    have : 2 * ((-d) % 1000000) < 1000000 := by omega
    simp only [this, if_true]
    omega
  · rename_i h
    have : ¬ 2 * ((-d) % 1000000) < 1000000 := by omega
    simp only [this, if_false]
    have e2 : (d - 1000000 + (-d) % 1000000 + 9223372036854775808) % 18446744073709551616 -
        9223372036854775808 = d - 1000000 + (-d) % 1000000 := by omega
    rw [e2]
    have : d - 1000000 + (-d) % 1000000 < d := by omega
    simp [this]

/-- The method `Round(Millisecond)` on the durations of the last half millisecond of the
range of `int64`: the rounding would overflow, and the result is the largest duration. -/
theorem Duration.Round_Millisecond_top (d : Int) (hlo : 9223372036854500000 ≤ d)
    (hhi : d < 9223372036854775808) :
    Duration.Round d Millisecond = 9223372036854775807 := by
  have hr : Int.tmod d 1000000 = d % 1000000 := Int.tmod_eq_emod (by omega) (by norm_num)
  change @Eq Int _ _
  simp only [Duration.Round, Millisecond, toUint64, toInt64, toInt, hr]
  norm_num
  have hd : ¬ d < 0 := by omega
  simp only [hd, if_false]
  have h1 : ¬ (d % 1000000 + d % 1000000) % 18446744073709551616 < 1000000 := by omega
  have h2 : ¬ d < (d + 1000000 - d % 1000000 + 9223372036854775808) % 18446744073709551616 -
      9223372036854775808 := by omega
  simp only [h1, h2, if_false]

/-- The method `Round(Millisecond)` on the durations of the first half millisecond of
the range of `int64`: the rounding would overflow, and the result is the smallest
duration. -/
theorem Duration.Round_Millisecond_bottom (d : Int) (hlo : -9223372036854775808 ≤ d)
    (hhi : d ≤ -9223372036854500000) :
    Duration.Round d Millisecond = -9223372036854775808 := by
  have h0 : d < 0 := by omega
  have hr : Int.tmod d 1000000 = -((-d) % 1000000) := tmod_of_neg d 1000000 h0 (by norm_num)
  change @Eq Int _ _
  simp only [Duration.Round, Millisecond, toUint64, toInt64, toInt, hr]
  norm_num
  simp only [h0, if_true]
  have h1 : ¬ ((-d) % 1000000 + (-d) % 1000000) % 18446744073709551616 < 1000000 := by omega
  have h2 : ¬ (d - 1000000 + (-d) % 1000000 + 9223372036854775808) % 18446744073709551616 -
      9223372036854775808 < d := by omega
  simp only [h1, h2, if_false]

/-! ## Claims: the options of SET -/

/-- C39, as stated, fails: for the largest duration, two to the 63 minus one nanoseconds,
`Round` overflows and gives the largest duration, so the `PX` argument is 9223372036854,
whereas the nearest millisecond is 9223372036855. -/
theorem Expire_Args_at_the_largest_duration :
    (Expire 9223372036854775807).Args = [.string "PX", .int64 9223372036854] ∧
    nearestMillisecond 9223372036854775807 = 9223372036855 := by
  constructor
  · rfl
  · decide

/-- C39, amended. For a duration `d` that is a multiple of one second, `Expire(d).Args()`
is "EX" and the quotient of `d` by one second, which times one second is `d`. For every
other duration `d` of more than -9223372036854500000 and less than 9223372036854500000
nanoseconds it is "PX" and `d` rounded to the nearest millisecond, halves away from
zero. For the other durations of the range of `int64`, those within half a millisecond
of its ends, where the nearest millisecond is 9223372036855 or -9223372036855, `Round`
gives the largest or smallest duration and the argument after "PX" is `d` truncated to
milliseconds, 9223372036854 or -9223372036854. `NX().Args()` is "NX", `XX().Args()` is
"XX", and the zero option has no arguments. -/
theorem SetOption_Args (d : Int) :
    (d % Second = 0 →
      (Expire d).Args = [.string "EX", .int64 (Int.tdiv d Second)] ∧
        Int.tdiv d Second * Second = d) ∧
    (d % Second ≠ 0 → -9223372036854500000 < d → d < 9223372036854500000 →
      (Expire d).Args = [.string "PX", .int64 (nearestMillisecond d)]) ∧
    (9223372036854500000 ≤ d → d < 2 ^ 63 →
      (Expire d).Args = [.string "PX", .int64 (Int.tdiv d Millisecond)] ∧
        Int.tdiv d Millisecond = 9223372036854 ∧ nearestMillisecond d = 9223372036855) ∧
    (-2 ^ 63 ≤ d → d ≤ -9223372036854500000 →
      (Expire d).Args = [.string "PX", .int64 (Int.tdiv d Millisecond)] ∧
        Int.tdiv d Millisecond = -9223372036854 ∧ nearestMillisecond d = -9223372036855) ∧
    NX.Args = [.string "NX"] ∧
    XX.Args = [.string "XX"] ∧
    SetOption.Args { t := .setOptionInvalid, expire := 0 } = [] := by
  have hne : ∀ d : Int, d % 1000000000 ≠ 0 → Int.tmod d Second ≠ 0 := by
    intro d h ht
    exact h (Int.emod_eq_zero_of_dvd (Int.dvd_of_tmod_eq_zero ht))
  refine ⟨?_, ?_, ?_, ?_, rfl, rfl, rfl⟩
  · intro h
    have hdvd : Second ∣ d := Int.dvd_of_emod_eq_zero h
    have ht : Int.tmod d Second = 0 := Int.tmod_eq_zero_of_dvd hdvd
    refine ⟨?_, Int.tdiv_mul_cancel hdvd⟩
    simp [Expire, SetOption.Args, ht]
  · intro h hlo hhi
    have ht : Int.tmod d Second ≠ 0 := hne d h
    simp only [Expire, SetOption.Args, ht, if_false]
    congr 2
    congr 1
    change @Eq Int _ _
    by_cases h0 : 0 ≤ d
    · rw [Duration.Round_Millisecond_nonneg d h0 hhi]
      simp only [nearestMillisecond, h0, if_true, Millisecond]
      split
      · rw [Int.tdiv_eq_ediv (by omega) (by norm_num)]
        omega
      · rw [Int.tdiv_eq_ediv (by omega) (by norm_num)]
        omega
    · have h0 : d < 0 := by omega
      have hn : ¬ 0 ≤ d := by omega
      rw [Duration.Round_Millisecond_neg d h0 hlo]
      simp only [nearestMillisecond, hn, if_false, Millisecond]
      split
      · by_cases hz : d + (-d) % 1000000 = 0
        · rw [hz]
          simp
          omega
        · rw [tdiv_of_neg _ _ (by omega) (by norm_num)]
          omega
      · rw [tdiv_of_neg _ _ (by omega) (by norm_num)]
        omega
  · intro hlo hhi
    have hhi1 : d < 9223372036854775808 := by norm_num at hhi; exact hhi
    have ht : Int.tmod d Second ≠ 0 := hne d (by omega)
    have hdiv : Int.tdiv d Millisecond = 9223372036854 := by
      change @Eq Int (Int.tdiv d 1000000) _
      rw [Int.tdiv_eq_ediv (by omega) (by norm_num)]
      omega
    refine ⟨?_, hdiv, ?_⟩
    · simp only [Expire, SetOption.Args, ht, if_false,
        Duration.Round_Millisecond_top d hlo hhi1, hdiv]
      rfl
    · have h0 : 0 ≤ d := by omega
      simp only [nearestMillisecond, h0, if_true]
      omega
  · intro hlo hhi
    have hlo1 : -9223372036854775808 ≤ d := by norm_num at hlo; exact hlo
    have ht : Int.tmod d Second ≠ 0 := hne d (by omega)
    have hdiv : Int.tdiv d Millisecond = -9223372036854 := by
      change @Eq Int (Int.tdiv d 1000000) _
      rw [tdiv_of_neg _ _ (by omega) (by norm_num)]
      omega
    refine ⟨?_, hdiv, ?_⟩
    · simp only [Expire, SetOption.Args, ht, if_false,
        Duration.Round_Millisecond_bottom d hlo1 hhi, hdiv]
      rfl
    · have h0 : ¬ 0 ≤ d := by omega
      simp only [nearestMillisecond, h0, if_false]
      omega

/-- C39, amended, for an expiry of 1.5 milliseconds, which is sent as `PX 2`, and for one
of 9223372036854600000 nanoseconds, which is sent as `PX 9223372036854`. -/
theorem SetOption_Args_witness :
    (Expire 1500000).Args = [.string "PX", .int64 (nearestMillisecond 1500000)] ∧
    (Expire 9223372036854600000).Args = [.string "PX", .int64 9223372036854] :=
  ⟨(SetOption_Args 1500000).2.1 (by decide) (by decide) (by decide),
    ((SetOption_Args 9223372036854600000).2.2.1 (by decide) (by decide)).1.trans rfl⟩

/-! ## Lemmas: strings -/

theorem get_zero_mk_cons (c : Char) (cs : List Char) : (String.mk (c :: cs)).get 0 = c := by
  simp [String.get, String.utf8GetAux]

theorem mk_eq_mk_iff (a b : List Char) : String.mk a = String.mk b ↔ a = b := by
  constructor
  · intro h
    injection h
  · intro h
    rw [h]

theorem mk_cons_ne_empty (c : Char) (cs : List Char) : String.mk (c :: cs) ≠ "" := by
  intro h
  exact List.cons_ne_nil c cs (congrArg String.data h)

theorem mk_cons_eq_singleton (c : Char) (cs : List Char) (x : Char) :
    String.mk (c :: cs) = String.mk [x] ↔ c = x ∧ cs = [] := by
  rw [mk_eq_mk_iff]
  constructor
  · intro h
    injection h with h1 h2
    exact ⟨h1, h2⟩
  · rintro ⟨h1, h2⟩
    rw [h1, h2]

theorem paren_append (s : String) : "(" ++ s = String.mk ('(' :: s.data) := rfl

theorem bracket_append (s : String) : "[" ++ s = String.mk ('[' :: s.data) := rfl

theorem MemberRange.Exclusive_nil : MemberRange.Exclusive (String.mk []) = String.mk [] := by
  simp [MemberRange.Exclusive]

theorem MemberRange.Exclusive_cons (c : Char) (cs : List Char) :
    MemberRange.Exclusive (String.mk (c :: cs)) =
      if c = '(' ∨ (c = '-' ∧ cs = []) ∨ (c = '+' ∧ cs = []) then String.mk (c :: cs)
      else if c = '[' then String.mk ('(' :: cs)
      else String.mk ('(' :: c :: cs) := by
  have h1 : (String.mk (c :: cs) = "") = False := eq_false (mk_cons_ne_empty c cs)
  have h2 : (String.mk (c :: cs) = "-") = (c = '-' ∧ cs = []) :=
    propext (mk_cons_eq_singleton c cs '-')
  have h3 : (String.mk (c :: cs) = "+") = (c = '+' ∧ cs = []) :=
    propext (mk_cons_eq_singleton c cs '+')
  simp only [MemberRange.Exclusive, get_zero_mk_cons, h1, h2, h3, false_or, String.drop_eq,
    List.drop_succ_cons, List.drop_zero, paren_append]
  by_cases hc : c = '[' <;> simp [hc]

theorem MemberRange.IsValid_nil : MemberRange.IsValid (String.mk []) = false := by
  simp [MemberRange.IsValid]

theorem MemberRange.IsValid_cons (c : Char) (cs : List Char) :
    MemberRange.IsValid (String.mk (c :: cs)) =
      decide ((c = '+' ∧ cs = []) ∨ (c = '-' ∧ cs = []) ∨ c = '[' ∨ c = '(') := by
  have h1 : (String.mk (c :: cs) = "") = False := eq_false (mk_cons_ne_empty c cs)
  have h2 : (String.mk (c :: cs) = "-") = (c = '-' ∧ cs = []) :=
    propext (mk_cons_eq_singleton c cs '-')
  have h3 : (String.mk (c :: cs) = "+") = (c = '+' ∧ cs = []) :=
    propext (mk_cons_eq_singleton c cs '+')
  simp only [MemberRange.IsValid, get_zero_mk_cons, h1, h2, h3]
  by_cases ha : c = '+' ∧ cs = []
  · simp [ha]
  · by_cases hb : c = '-' ∧ cs = []
    · simp [hb]
    · by_cases hc : c = '['
      · simp [hc]
      · by_cases hd : c = '('
        · simp [hd]
        · simp [ha, hb, hc, hd]

/-! ## Claims: member ranges -/

/-- C40. `Exclusive` returns the range as it is when it is empty, is "-" or "+", or
starts with `(`; for a range that starts with `[` it returns `(` followed by the rest;
for every other range it returns `(` followed by the range. So
`MakeMemberRange(m).Exclusive()` is `(` followed by `m`, `Exclusive` applied twice is
`Exclusive` applied once, and `Exclusive` of a range that `IsValid` accepts is a range
that `IsValid` accepts, `IsValid` accepting exactly "+", "-" and the ranges that start
with `[` or `(`. -/
theorem MemberRange_Exclusive (mr : MemberRange) (m rest : String) :
    MemberRange.Exclusive "" = "" ∧
    MemberRange.Exclusive "-" = "-" ∧
    MemberRange.Exclusive "+" = "+" ∧
    MemberRange.Exclusive ("(" ++ rest) = "(" ++ rest ∧
    MemberRange.Exclusive ("[" ++ rest) = "(" ++ rest ∧
    (mr ≠ "" → mr ≠ "-" → mr ≠ "+" → (∀ s, mr ≠ "(" ++ s) → (∀ s, mr ≠ "[" ++ s) →
      MemberRange.Exclusive mr = "(" ++ mr) ∧
    MemberRange.Exclusive (MakeMemberRange m) = "(" ++ m ∧
    MemberRange.Exclusive (MemberRange.Exclusive mr) = MemberRange.Exclusive mr ∧
    (MemberRange.IsValid mr = true → MemberRange.IsValid (MemberRange.Exclusive mr) = true) ∧
    (MemberRange.IsValid mr = true ↔
      mr = "+" ∨ mr = "-" ∨ (∃ s, mr = "[" ++ s) ∨ (∃ s, mr = "(" ++ s)) := by
  have hparen : ∀ s : String, MemberRange.Exclusive ("(" ++ s) = "(" ++ s := by
    intro s
    rw [paren_append, MemberRange.Exclusive_cons]
    simp
  have hbracket : ∀ s : String, MemberRange.Exclusive ("[" ++ s) = "(" ++ s := by
    intro s
    rw [bracket_append, paren_append, MemberRange.Exclusive_cons]
    simp
  refine ⟨MemberRange.Exclusive_nil, ?_, ?_, hparen rest, hbracket rest, ?_, hbracket m, ?_,
    ?_, ?_⟩
  · exact (MemberRange.Exclusive_cons '-' []).trans (by simp)
  · exact (MemberRange.Exclusive_cons '+' []).trans (by simp)
  · obtain ⟨data⟩ := mr
    cases data with
    | nil => intro h; exact absurd rfl h
    | cons c cs =>
      intro _ h2 h3 h4 h5
      have hc1 : c ≠ '(' := fun h => h4 (String.mk cs) (by rw [h]; rfl)
      have hc2 : c ≠ '[' := fun h => h5 (String.mk cs) (by rw [h]; rfl)
      have hc3 : ¬ (c = '-' ∧ cs = []) := fun h => h2 (by rw [h.1, h.2])
      have hc4 : ¬ (c = '+' ∧ cs = []) := fun h => h3 (by rw [h.1, h.2])
      rw [MemberRange.Exclusive_cons, paren_append]
      simp [hc1, hc2, hc3, hc4]
  · obtain ⟨data⟩ := mr
    cases data with
    | nil => rw [MemberRange.Exclusive_nil, MemberRange.Exclusive_nil]
    | cons c cs =>
      rw [MemberRange.Exclusive_cons]
      split
      · rename_i h
        rw [MemberRange.Exclusive_cons, if_pos h]
      · split
        · rw [MemberRange.Exclusive_cons]
          simp
        · rw [MemberRange.Exclusive_cons]
          simp
  · obtain ⟨data⟩ := mr
    cases data with
    | nil =>
      intro hv
      rw [MemberRange.IsValid_nil] at hv
      exact absurd hv (by decide)
    | cons c cs =>
      intro hv
      rw [MemberRange.Exclusive_cons]
      split
      · exact hv
      · split
        · rw [MemberRange.IsValid_cons]
          simp
        · rw [MemberRange.IsValid_cons]
          simp
  · obtain ⟨data⟩ := mr
    cases data with
    | nil =>
      rw [MemberRange.IsValid_nil]
      simp only [Bool.false_eq_true, false_iff, not_or, not_exists]
      refine ⟨?_, ?_, ?_, ?_⟩
      · intro h
        exact List.cons_ne_nil _ _ (congrArg String.data h).symm
      · intro h
        exact List.cons_ne_nil _ _ (congrArg String.data h).symm
      · intro s h
        exact List.cons_ne_nil _ _ (congrArg String.data h).symm
      · intro s h
        exact List.cons_ne_nil _ _ (congrArg String.data h).symm
    | cons c cs =>
      rw [MemberRange.IsValid_cons, decide_eq_true_iff]
      constructor
      · rintro (h | h | h | h)
        · exact Or.inl (by rw [h.1, h.2])
        · exact Or.inr (Or.inl (by rw [h.1, h.2]))
        · exact Or.inr (Or.inr (Or.inl ⟨String.mk cs, by rw [h]; rfl⟩))
        · exact Or.inr (Or.inr (Or.inr ⟨String.mk cs, by rw [h]; rfl⟩))
      · rintro (h | h | ⟨s, h⟩ | ⟨s, h⟩)
        · exact Or.inl ((mk_cons_eq_singleton c cs '+').1 h)
        · exact Or.inr (Or.inl ((mk_cons_eq_singleton c cs '-').1 h))
        · rw [bracket_append, mk_eq_mk_iff] at h
          injection h with h1 _
          exact Or.inr (Or.inr (Or.inl h1))
        · rw [paren_append, mk_eq_mk_iff] at h
          injection h with h1 _
          exact Or.inr (Or.inr (Or.inr h1))

/-- C40, for the range "[a" of the member "a", which `IsValid` accepts: its exclusive
form is "(a", which `IsValid` accepts too. -/
theorem MemberRange_Exclusive_witness :
    MemberRange.Exclusive (MakeMemberRange "a") = "(" ++ "a" ∧
    MemberRange.IsValid (MemberRange.Exclusive "[a") = true :=
  ⟨(MemberRange_Exclusive "[a" "a" "a").2.2.2.2.2.2.1,
    (MemberRange_Exclusive "[a" "a" "a").2.2.2.2.2.2.2.2.1
      ((MemberRange.IsValid_cons '[' ['a']).trans (by decide))⟩

end GoRedis
